import Mathlib

/-!
# Rockchip MPP encoder element: pending queue, worker loop and lifecycle

A shallow embedding of `gst/rockchipmpp/gstmppenc.c` and of the JPEG
subclass `gst/rockchipmpp/gstmppjpegenc.c`.  Every C function that is
embedded keeps its C name.  The mutable `GstMppEnc` instance, the task of
the source pad, the frame list of the `GstVideoEncoder` base class and the
MPP context are gathered in one record (`Encoder`) that is passed explicitly.

Answers of the world outside the element (return codes of `mpi->control`,
of `encode_put_frame`, the packet handed out by `encode_get_packet`,
allocation results, ...) are arguments of the embedded functions, grouped in
`...Env` records, so every statement quantifies over all such answers.

A function returns `none` when the C call does not return normally: the
thread stays blocked on the condition variable, or the call dereferences a
NULL pointer.
-/

namespace GstMpp

/-! ## Machine integers -/

/-- Value of a C expression converted to `guint`/`guint32`. -/
def wrap_u32 (x : Int) : Nat := (x % 4294967296).toNat

/-- Value of a C expression converted to `gint`/`RK_S32` (two's complement). -/
def wrap_s32 (x : Int) : Int := (x + 2147483648) % 4294967296 - 2147483648

/-! ## Enumerations -/

/-- The three `GstFlowReturn` values used by the element. -/
inductive GstFlowReturn
  | GST_FLOW_OK
  | GST_FLOW_FLUSHING
  | GST_FLOW_NOT_NEGOTIATED
  deriving DecidableEq, Repr

/-- State of the source pad task (`gst_pad_get_task_state`). -/
inductive GstTaskState
  | GST_TASK_STARTED
  | GST_TASK_STOPPED
  | GST_TASK_PAUSED
  deriving DecidableEq, Repr

/-- Rate control modes of MPP (`MppEncRcMode`). -/
inductive MppEncRcMode
  | MPP_ENC_RC_MODE_VBR
  | MPP_ENC_RC_MODE_CBR
  | MPP_ENC_RC_MODE_FIXQP
  | MPP_ENC_RC_MODE_AVBR
  deriving DecidableEq, Repr

/-- Header modes of MPP (`MppEncHeaderMode`). -/
inductive MppEncHeaderMode
  | MPP_ENC_HEADER_MODE_DEFAULT
  | MPP_ENC_HEADER_MODE_EACH_IDR
  deriving DecidableEq, Repr

/-- SEI modes of MPP (`MppEncSeiMode`). -/
inductive MppEncSeiMode
  | MPP_ENC_SEI_MODE_DISABLE
  | MPP_ENC_SEI_MODE_ONE_SEQ
  | MPP_ENC_SEI_MODE_ONE_FRAME
  deriving DecidableEq, Repr

/-- Return code of an MPP call: `0` is `MPP_OK`, anything else is a failure. -/
abbrev MPP_RET := Int

/-! ## Buffers, frames, configuration -/

/-- A `GstBuffer`, identified by how its content was produced.  The first
four kinds are results of `gst_mpp_enc_convert` for the given frame, the last
one is the payload of an encoded packet. -/
inductive GstBuffer
  | imported (frame : Nat)
  | rga_converted (frame : Nat)
  | sw_copied (frame : Nat)
  | not_filled (frame : Nat)
  | encoded (src_frame : Nat) (size : Nat) (zero_copy : Bool)
  deriving DecidableEq, Repr

/-- The fields of a `GstVideoCodecFrame` that the element reads or writes. -/
structure GstVideoCodecFrame where
  system_frame_number : Nat
  force_keyframe : Bool
  output_buffer : Option GstBuffer
  deriving DecidableEq, Repr

/-- The frame formats of MPP (`MppFrameFormat`) that the element names, and
any other one by its number. -/
inductive MppFrameFormat
  | MPP_FMT_YUV420SP
  | MPP_FMT_YUV420P
  | MPP_FMT_YUV422_YUYV
  | MPP_FMT_YUV422_UYVY
  | MPP_FMT_YUV444SP
  | MPP_FMT_YUV444P
  | MPP_FMT_RGB565LE
  | MPP_FMT_BGR565LE
  | MPP_FMT_RGB888
  | MPP_FMT_BGR888
  | MPP_FMT_ARGB8888
  | MPP_FMT_ABGR8888
  | MPP_FMT_RGBA8888
  | MPP_FMT_BGRA8888
  | other (n : Nat)
  deriving DecidableEq, Repr

/-- The codec types of MPP (`MppCodingType`) that the element names, and any
other one by its number. -/
inductive MppCodingType
  | MPP_VIDEO_CodingUnused
  | MPP_VIDEO_CodingAVC
  | MPP_VIDEO_CodingHEVC
  | MPP_VIDEO_CodingMJPEG
  | other (n : Nat)
  deriving DecidableEq, Repr

/-- The fields of a `GstVideoInfo` that the element reads or writes. -/
structure GstVideoInfo where
  format : Nat
  width : Int
  height : Int
  fps_n : Int
  fps_d : Int
  hstride : Int
  vstride : Int
  size : Nat
  deriving DecidableEq, Repr

/-- A `GstVideoCodecState`: the caps (identified by a number) and the video
info negotiated with upstream. -/
structure GstVideoCodecState where
  caps : Nat
  info : GstVideoInfo
  deriving DecidableEq, Repr

/-- Result of `gst_video_info_init`. -/
def gst_video_info_init : GstVideoInfo :=
  { format := 0, width := 0, height := 0, fps_n := 0, fps_d := 1,
    hstride := 0, vstride := 0, size := 0 }

/-- The entries of the `MppEncCfg` object written by the element through
`mpp_enc_cfg_set_s32` / `mpp_enc_cfg_set_u32`. -/
structure MppEncCfg where
  rc_gop : Int
  rc_max_reenc_times : Nat
  rc_mode : MppEncRcMode
  rc_bps_target : Int
  rc_bps_max : Int
  rc_bps_min : Int
  rc_fps_in_flex : Int
  rc_fps_in_num : Int
  rc_fps_in_denorm : Int
  rc_fps_out_flex : Int
  rc_fps_out_num : Int
  rc_fps_out_denorm : Int
  prep_format : MppFrameFormat × Bool
  prep_width : Int
  prep_height : Int
  prep_hor_stride : Int
  prep_ver_stride : Int
  jpeg_q_factor : Int
  jpeg_qf_min : Int
  jpeg_qf_max : Int
  deriving DecidableEq, Repr

/-- The fields of the template `MppFrame` (`self->mpp_frame`); the format is
a frame format together with the flag `MPP_FRAME_FBC_AFBC_V2`. -/
structure MppFrame where
  fmt : MppFrameFormat × Bool
  width : Int
  height : Int
  hor_stride : Int
  ver_stride : Int
  deriving DecidableEq, Repr

/-- The template frame right after `mpp_frame_init`. -/
def MppFrame.zero : MppFrame :=
  { fmt := (MppFrameFormat.MPP_FMT_YUV420SP, false), width := 0, height := 0,
    hor_stride := 0, ver_stride := 0 }

/-- The configuration with every entry zero. -/
def MppEncCfg.zero : MppEncCfg :=
  { rc_gop := 0, rc_max_reenc_times := 0, rc_mode := MppEncRcMode.MPP_ENC_RC_MODE_VBR,
    rc_bps_target := 0, rc_bps_max := 0, rc_bps_min := 0, rc_fps_in_flex := 0,
    rc_fps_in_num := 0, rc_fps_in_denorm := 0, rc_fps_out_flex := 0, rc_fps_out_num := 0,
    rc_fps_out_denorm := 0, prep_format := (MppFrameFormat.MPP_FMT_YUV420SP, false),
    prep_width := 0, prep_height := 0, prep_hor_stride := 0, prep_ver_stride := 0,
    jpeg_q_factor := 0, jpeg_qf_min := 0, jpeg_qf_max := 0 }

/-- One call through the `MppApi` table, as seen by the hardware library. -/
inductive MpiCall
  | control_set_sei_cfg (mode : MppEncSeiMode) (ret : MPP_RET)
  | control_set_header_mode (mode : MppEncHeaderMode) (ret : MPP_RET)
  | control_set_cfg (cfg : MppEncCfg) (ret : MPP_RET)
  | encode_put_frame (frame_number : Nat) (buffer : Option GstBuffer) (ret : MPP_RET)
  | reset
  deriving DecidableEq, Repr

/-- The MPP context: the calls it has received (oldest first) and the frames
it has accepted through `encode_put_frame` and not yet returned as a packet. -/
structure MppCtx where
  calls : List MpiCall
  inflight : List Nat
  deriving DecidableEq, Repr

/-! ## The element -/

/-- Modelled from the spec: the declaration of `struct _GstMppEnc`
(`gstmppenc.h`) is not among the sources; the fields are the ones the
functions of `gstmppenc.c` use, with the integer types of the property
accessors (`guint` for the counters and bit rates, `gint` for `gop`). -/
structure GstMppEnc where
  mpp_type : MppCodingType
  max_pending : Nat
  header_mode : MppEncHeaderMode
  sei_mode : MppEncSeiMode
  rc_mode : MppEncRcMode
  rotation : Nat
  gop : Int
  max_reenc : Nat
  bps : Nat
  bps_min : Nat
  bps_max : Nat
  width : Nat
  height : Nat
  zero_copy_pkt : Bool
  arm_afbc : Bool
  prop_dirty : Bool
  input_state : Option GstVideoCodecState
  info : GstVideoInfo
  flushing : Bool
  draining : Bool
  task_ret : GstFlowReturn
  pending_frames : Nat
  frames : List Nat
  required_keyframe_number : Nat
  mpp_cfg : MppEncCfg
  mpp_frame : MppFrame
  deriving DecidableEq, Repr

/-- The element together with the parts of its surroundings it acts on:
the task of the source pad, the frames held by the `GstVideoEncoder` base
class (oldest first), the frames handed to `gst_video_encoder_finish_frame`
so far (oldest first, with the output buffer each one carried), and the MPP
context. -/
structure Encoder where
  self : GstMppEnc
  task : GstTaskState
  priv_frames : List GstVideoCodecFrame
  finished : List (Nat × Option GstBuffer)
  mpp : MppCtx
  deriving DecidableEq, Repr

/-! ## The GstVideoEncoder base class (external) -/

/-- The base class returns the head of its frame list. -/
def gst_video_encoder_get_oldest_frame (s : Encoder) : Option GstVideoCodecFrame :=
  s.priv_frames.head?

/-- The base class returns the frame with the given number, if it holds one. -/
def gst_video_encoder_get_frame (s : Encoder) (frame_number : Nat) :
    Option GstVideoCodecFrame :=
  s.priv_frames.find? (fun f => f.system_frame_number == frame_number)

/-- The base class releases the frame and pushes its output buffer downstream
(nothing is pushed when the output buffer is NULL). -/
def gst_video_encoder_finish_frame (s : Encoder) (frame : GstVideoCodecFrame) : Encoder :=
  { s with
    priv_frames :=
      s.priv_frames.eraseP (fun f => f.system_frame_number == frame.system_frame_number)
    finished := s.finished ++ [(frame.system_frame_number, frame.output_buffer)] }

/-- Writing `frame->output_buffer` through the pointer to a frame that stays
in the list of the base class (frame numbers are unique in that list). -/
def set_output_buffer (s : Encoder) (frame_number : Nat) (buffer : Option GstBuffer) :
    Encoder :=
  { s with
    priv_frames := s.priv_frames.map (fun f =>
      if f.system_frame_number == frame_number then { f with output_buffer := buffer }
      else f) }

/-! ## Pushing the properties to the hardware -/

/-- Return codes of the `mpi->control` calls made while the properties are
pushed (`MPP_ENC_SET_SEI_CFG`, `MPP_ENC_SET_HEADER_MODE`, `MPP_ENC_SET_CFG`). -/
structure ControlEnv where
  sei_ret : MPP_RET
  header_ret : MPP_RET
  cfg_ret : MPP_RET
  deriving DecidableEq, Repr

/-- A call through `self->mpi` is recorded by the MPP context. -/
def mpi_call (s : Encoder) (call : MpiCall) : Encoder :=
  { s with mpp := { s.mpp with calls := s.mpp.calls ++ [call] } }

/-- The frame rate `fps_n / fps_d` as a `gint` (C division truncates; the
denominator of a negotiated frame rate is never 0). -/
def info_fps (info : GstVideoInfo) : Int := Int.tdiv info.fps_n info.fps_d

/-- The value `self->bps` has after the automatic derivation
`if (!self->bps) self->bps = width * height / 8 * fps` (`gint` arithmetic,
taken to wrap, stored in a `guint`). -/
def derived_bps (self : GstMppEnc) : Nat :=
  if self.bps = 0 then
    wrap_u32 (wrap_s32 (Int.tdiv (wrap_s32 (self.info.width * self.info.height)) 8
      * info_fps self.info))
  else self.bps

/-- The C expression `v ? : bps * num / 16` on `guint` operands, passed to
`mpp_enc_cfg_set_s32`. -/
def bps_bound (v bps num : Nat) : Int :=
  wrap_s32 (if v ≠ 0 then v else (bps * num % 4294967296) / 16)

/-- `gst_mpp_enc_apply_properties`. -/
def gst_mpp_enc_apply_properties (s : Encoder) (e : ControlEnv) : Bool × Encoder :=
  let fps := info_fps s.self.info
  if !s.self.prop_dirty then (true, s)
  else
    let s := { s with self.prop_dirty := false }
    let s := mpi_call s (MpiCall.control_set_sei_cfg s.self.sei_mode e.sei_ret)
    let s := mpi_call s (MpiCall.control_set_header_mode s.self.header_mode e.header_ret)
    let s := { s with self.mpp_cfg.rc_gop := if s.self.gop < 0 then fps else s.self.gop }
    let s := { s with self.mpp_cfg.rc_max_reenc_times := s.self.max_reenc }
    let s := { s with self.mpp_cfg.rc_mode := s.self.rc_mode }
    let s := { s with self.bps := derived_bps s.self }
    let s :=
      if s.self.bps = 0 ∨ s.self.rc_mode = MppEncRcMode.MPP_ENC_RC_MODE_FIXQP then s
      else if s.self.rc_mode = MppEncRcMode.MPP_ENC_RC_MODE_CBR then
        { s with
          self.mpp_cfg.rc_bps_target := wrap_s32 s.self.bps
          self.mpp_cfg.rc_bps_max := bps_bound s.self.bps_max s.self.bps 17
          self.mpp_cfg.rc_bps_min := bps_bound s.self.bps_min s.self.bps 15 }
      else
        { s with
          self.mpp_cfg.rc_bps_target := wrap_s32 s.self.bps
          self.mpp_cfg.rc_bps_max := bps_bound s.self.bps_max s.self.bps 17
          self.mpp_cfg.rc_bps_min := bps_bound s.self.bps_min s.self.bps 1 }
    let s := mpi_call s (MpiCall.control_set_cfg s.self.mpp_cfg e.cfg_ret)
    if e.cfg_ret ≠ 0 then (false, s) else (true, s)

/-- `gst_mpp_enc_force_keyframe`. -/
def gst_mpp_enc_force_keyframe (s : Encoder) (keyframe : Bool) (e : ControlEnv) :
    Bool × Encoder :=
  if !keyframe then
    gst_mpp_enc_apply_properties { s with self.prop_dirty := true } e
  else
    let s := { s with self.mpp_cfg.rc_gop := 1 }
    let s := mpi_call s (MpiCall.control_set_cfg s.self.mpp_cfg e.cfg_ret)
    if e.cfg_ret ≠ 0 then (false, s) else (true, s)

/-! ## Submitting frames and polling packets -/

/-- Answers of the outside world during one `gst_mpp_enc_send_frame_locked`:
the return code of `mpp_frame_init`, of the `MPP_ENC_SET_CFG` control call of
a keyframe request, and of `encode_put_frame`. -/
structure SendEnv where
  frame_init_ret : MPP_RET
  ctl : ControlEnv
  put_frame_ret : MPP_RET
  deriving DecidableEq, Repr

/-- The block `if (keyframe) { ... }` of `gst_mpp_enc_send_frame_locked`. -/
def send_request_keyframe (s : Encoder) (frame : GstVideoCodecFrame) (frame_number : Nat)
    (e : ControlEnv) : Encoder :=
  if frame.force_keyframe then
    (gst_mpp_enc_force_keyframe
      { s with self.required_keyframe_number := frame_number } true e).2
  else s

/-- The end of `gst_mpp_enc_send_frame_locked`: `encode_put_frame` and, when
the hardware accepts the frame, the removal of the head of the pending list. -/
def send_put_frame (s : Encoder) (frame : GstVideoCodecFrame) (frame_number : Nat)
    (rest : List Nat) (ret : MPP_RET) : Bool × Encoder :=
  let s := mpi_call s (MpiCall.encode_put_frame frame_number frame.output_buffer ret)
  if ret ≠ 0 then (false, s)
  else
    (true, { s with
      self.frames := rest
      mpp.inflight := s.mpp.inflight ++ [frame_number] })

/-- `gst_mpp_enc_send_frame_locked`.  The result is `none` when
`gst_video_encoder_get_frame` yields NULL, which the C code dereferences. -/
def gst_mpp_enc_send_frame_locked (s : Encoder) (e : SendEnv) : Option (Bool × Encoder) :=
  match s.self.frames with
  | [] => some (false, s)
  | frame_number :: rest =>
    if e.frame_init_ret ≠ 0 then some (false, s)
    else
      match gst_video_encoder_get_frame s frame_number with
      | none => none
      | some frame =>
        some (send_put_frame (send_request_keyframe s frame frame_number e.ctl)
          frame frame_number rest e.put_frame_ret)

/-- A packet as `encode_get_packet` hands it out: the position, in the
queue of the hardware, of the frame it encodes, its length, and whether
`mpp_packet_get_buffer` is non-NULL. -/
structure MppPacket where
  index : Nat
  length : Nat
  has_buffer : Bool
  deriving DecidableEq, Repr

/-- Answers of the outside world during one `gst_mpp_enc_poll_packet_locked`:
the packet the hardware has ready (if any), the return codes of the control
calls of a keyframe revert, and whether `gst_buffer_new`,
`gst_mpp_allocator_import_mppbuf` and
`gst_video_encoder_allocate_output_buffer` succeed. -/
structure PollEnv where
  packet : Option MppPacket
  ctl : ControlEnv
  buffer_new_ok : Bool
  mem_import_ok : Bool
  alloc_ok : Bool
  deriving DecidableEq, Repr

/-- The hardware hands out a packet only for a frame it has accepted and not
yet returned. -/
def encode_get_packet (mpp : MppCtx) (ready : Option MppPacket) :
    Option (MppPacket × Nat × MppCtx) :=
  match ready with
  | none => none
  | some pkt =>
    match mpp.inflight[pkt.index]? with
    | none => none
    | some n => some (pkt, n, { mpp with inflight := mpp.inflight.eraseIdx pkt.index })

/-- The statements `self->pending_frames--` (a `guint`) of
`gst_mpp_enc_poll_packet_locked`, after the hardware has handed out a packet
and is left in state `mpp`. -/
def poll_take_packet (s : Encoder) (mpp : MppCtx) : Encoder :=
  { s with
    mpp := mpp
    self.pending_frames := wrap_u32 ((s.self.pending_frames : Int) - 1) }

/-- The labels `error:` / `drop:` of `gst_mpp_enc_poll_packet_locked`. -/
def poll_drop (s : Encoder) (frame : GstVideoCodecFrame) : Encoder :=
  gst_video_encoder_finish_frame s { frame with output_buffer := none }

/-- The block `if (frame->system_frame_number == self->required_keyframe_number)`
of `gst_mpp_enc_poll_packet_locked`. -/
def poll_revert_keyframe (s : Encoder) (frame : GstVideoCodecFrame) (e : ControlEnv) :
    Encoder :=
  if frame.system_frame_number = s.self.required_keyframe_number then
    { (gst_mpp_enc_force_keyframe s false e).2 with self.required_keyframe_number := 0 }
  else s

/-- The output buffer built from the packet by
`gst_mpp_enc_poll_packet_locked`; `none` stands for `goto error`. -/
def poll_output_buffer (s : Encoder) (pkt : MppPacket) (src : Nat) (e : PollEnv) :
    Option GstBuffer :=
  if !pkt.has_buffer then none
  else if s.self.zero_copy_pkt then
    if !e.buffer_new_ok then none
    else if !e.mem_import_ok then none
    else some (GstBuffer.encoded src pkt.length true)
  else
    if !e.alloc_ok then none
    else some (GstBuffer.encoded src pkt.length false)

/-- The part of `gst_mpp_enc_poll_packet_locked` that follows
`gst_video_encoder_get_oldest_frame`. -/
def poll_finish (s : Encoder) (frame : GstVideoCodecFrame) (pkt : MppPacket) (src : Nat)
    (e : PollEnv) : Encoder :=
  if s.self.flushing && !s.self.draining then poll_drop s frame
  else
    let s := poll_revert_keyframe s frame e.ctl
    match poll_output_buffer s pkt src e with
    | none => poll_drop s frame
    | some buffer =>
      gst_video_encoder_finish_frame s { frame with output_buffer := some buffer }

/-- `gst_mpp_enc_poll_packet_locked`.  The result is `none` when
`gst_video_encoder_get_oldest_frame` yields NULL, which the C code
dereferences. -/
def gst_mpp_enc_poll_packet_locked (s : Encoder) (e : PollEnv) : Option (Bool × Encoder) :=
  match encode_get_packet s.mpp e.packet with
  | none => some (false, s)
  | some (pkt, src, mpp) =>
    match gst_video_encoder_get_oldest_frame (poll_take_packet s mpp) with
    | none => none
    | some frame => some (true, poll_finish (poll_take_packet s mpp) frame pkt src e)

/-! ## The worker loop -/

/-- The loop `while (gst_mpp_enc_send_frame_locked (encoder));`: call number
`i` gets the answers `e i`.  The first argument bounds the number of calls. -/
def send_frames (e : Nat → SendEnv) : Nat → Nat → Encoder → Option Encoder
  | 0, _, _ => none
  | fuel + 1, i, s =>
    match gst_mpp_enc_send_frame_locked s (e i) with
    | none => none
    | some (true, s1) => send_frames e fuel (i + 1) s1
    | some (false, s1) => some s1

/-- The loop `while (gst_mpp_enc_poll_packet_locked (encoder));`. -/
def poll_packets (e : Nat → PollEnv) : Nat → Nat → Encoder → Option Encoder
  | 0, _, _ => none
  | fuel + 1, i, s =>
    match gst_mpp_enc_poll_packet_locked s (e i) with
    | none => none
    | some (true, s1) => poll_packets e fuel (i + 1) s1
    | some (false, s1) => some s1

/-- Answers of the outside world during one iteration of the worker. -/
structure LoopEnv where
  sends : Nat → SendEnv
  polls : Nat → PollEnv

/-- `gst_mpp_enc_loop`: one iteration of the worker.  The result is `none`
when the worker stays blocked in `GST_MPP_ENC_WAIT` (nothing pending and not
flushing) or a NULL frame is dereferenced.  Every successful send removes an
id from the pending list and every successful poll removes a frame from the
hardware queue, so the bounds given to the two loops are never reached. -/
def gst_mpp_enc_loop (s : Encoder) (e : LoopEnv) : Option Encoder :=
  if !(s.self.pending_frames != 0 || s.self.flushing) then none
  else
    let r : Option Encoder :=
      if s.self.flushing && s.self.pending_frames == 0 then
        some { s with self.task_ret := GstFlowReturn.GST_FLOW_FLUSHING }
      else
        match send_frames e.sends (s.self.frames.length + 1) 0 s with
        | none => none
        | some s1 => poll_packets e.polls (s1.mpp.inflight.length + 1) 0 s1
    match r with
    | none => none
    | some s2 =>
      if s2.self.task_ret ≠ GstFlowReturn.GST_FLOW_OK then
        some { s2 with task := GstTaskState.GST_TASK_PAUSED }
      else some s2

/-! ## Converting the input frame -/

/-- Answers of the outside world during one `gst_mpp_enc_convert`: the strides
of the video meta of the input buffer (if it has one), the size of the input
buffer, allocation and import results, the functions
`gst_mpp_video_info_align` and `gst_mpp_video_info_matched` (defined outside
`gstmppenc.c`), whether `GST_MPP_ENC_UNALIGNED_VSTRIDE` is set, the control
return codes, whether the element was built with `HAVE_RGA`, the results of
`gst_mpp_use_rga` and `gst_mpp_rga_convert`, and the results of the two
`gst_video_frame_map` calls and of `gst_video_frame_copy`. -/
structure ConvertEnv where
  video_meta : Option (Int × Int)
  size : Nat
  buffer_new_ok : Bool
  n_memory : Nat
  mem_import_ok : Bool
  align : GstVideoInfo → Int → Int → Bool × GstVideoInfo
  matched : GstVideoInfo → GstVideoInfo → Bool
  unaligned_vstride : Bool
  ctl : ControlEnv
  alloc_ok : Bool
  have_rga : Bool
  use_rga : Bool
  rga_convert_ok : Bool
  map_src_ok : Bool
  map_dst_ok : Bool
  copy_ok : Bool

/-- `gst_mpp_enc_video_info_align`. -/
def gst_mpp_enc_video_info_align (align : GstVideoInfo → Int → Int → Bool × GstVideoInfo)
    (unaligned_vstride : Bool) (info : GstVideoInfo) : Bool × GstVideoInfo :=
  let vstride : Int := if unaligned_vstride then info.vstride else 0
  align info 0 vstride

/-- `gst_mpp_enc_apply_strides`. -/
def gst_mpp_enc_apply_strides (s : Encoder)
    (align : GstVideoInfo → Int → Int → Bool × GstVideoInfo) (hstride vstride : Int) :
    Bool × Encoder :=
  let s := { s with self.mpp_frame.hor_stride := hstride }
  let s := { s with self.mpp_frame.ver_stride := vstride }
  let s := { s with self.mpp_cfg.prep_hor_stride := hstride }
  let s := { s with self.mpp_cfg.prep_ver_stride := vstride }
  if hstride = s.self.info.hstride ∧ vstride = s.self.info.vstride then (true, s)
  else
    let s := { s with self.prop_dirty := true }
    let r := align s.self.info hstride vstride
    (r.1, { s with self.info := r.2 })

/-- The part of `gst_mpp_enc_convert` from the label `convert:` on (RGA
conversion, then software copy), with `dst_info` equal to `self->info`. -/
def convert_fallback (s : Encoder) (frame : GstVideoCodecFrame) (e : ConvertEnv)
    (src_info : GstVideoInfo) : Option GstBuffer :=
  if !e.alloc_ok then none
  else if e.have_rga && e.use_rga && e.rga_convert_ok then
    some (GstBuffer.rga_converted frame.system_frame_number)
  else if s.self.rotation ≠ 0 ∨ src_info.format ≠ s.self.info.format then none
  else if e.map_src_ok then
    if e.map_dst_ok then
      if !e.copy_ok then none
      else some (GstBuffer.sw_copied frame.system_frame_number)
    else some (GstBuffer.not_filled frame.system_frame_number)
  else some (GstBuffer.not_filled frame.system_frame_number)

/-- `gst_mpp_enc_convert`: the converted buffer (or NULL) and the element
afterwards.  The result is `none` when `self->input_state` is NULL, which the
C code dereferences. -/
def gst_mpp_enc_convert (s : Encoder) (frame : GstVideoCodecFrame) (e : ConvertEnv) :
    Option (Option GstBuffer × Encoder) :=
  match s.self.input_state with
  | none => none
  | some input_state =>
    let src_info : GstVideoInfo :=
      match e.video_meta with
      | some (h, v) => { input_state.info with hstride := h, vstride := v }
      | none => input_state.info
    if e.size < src_info.size then some (none, s)
    else if !e.buffer_new_ok then some (none, s)
    else if s.self.rotation ≠ 0 then some (convert_fallback s frame e src_info, s)
    else if e.n_memory ≠ 1 then some (convert_fallback s frame e src_info, s)
    else if !e.mem_import_ok then some (convert_fallback s frame e src_info, s)
    else
      let a1 := e.align s.self.info src_info.hstride src_info.vstride
      let a2 := gst_mpp_enc_video_info_align e.align e.unaligned_vstride a1.2
      if !a1.1 || !a2.1 || !e.matched src_info a2.2 then
        some (convert_fallback s frame e src_info, s)
      else
        let s := (gst_mpp_enc_apply_strides s e.align src_info.hstride src_info.vstride).2
        let r := gst_mpp_enc_apply_properties s e.ctl
        if !r.1 then some (none, r.2)
        else some (some (GstBuffer.imported frame.system_frame_number), r.2)

/-! ## Handling an input frame -/

/-- The macro `GST_MPP_ENC_WAIT`: the caller proceeds at once when the
condition holds; otherwise it sleeps on the condition variable while the other
threads run (`wake` gives the state they leave when the caller is woken for
good) and proceeds if the condition holds then. -/
def GST_MPP_ENC_WAIT (condition : Encoder → Bool) (wake : Encoder → Option Encoder)
    (s : Encoder) : Option Encoder :=
  if condition s then some s
  else
    match wake s with
    | none => none
    | some s1 => if condition s1 then some s1 else none

/-- The label `drop:` of `gst_mpp_enc_handle_frame`. -/
def handle_frame_drop (s : Encoder) (frame : GstVideoCodecFrame) (ret : GstFlowReturn) :
    GstFlowReturn × Encoder :=
  (ret, gst_video_encoder_finish_frame s frame)

/-- The start of the task on demand in `gst_mpp_enc_handle_frame`. -/
def handle_frame_start_task (s : Encoder) : Encoder :=
  if s.task ≠ GstTaskState.GST_TASK_STARTED then
    { s with task := GstTaskState.GST_TASK_STARTED }
  else s

/-- The back-pressure block `if (self->pending_frames >= self->max_pending)`
of `gst_mpp_enc_handle_frame`. -/
def handle_frame_wait (s : Encoder) (wake : Encoder → Option Encoder) : Option Encoder :=
  if s.self.pending_frames ≥ s.self.max_pending then
    GST_MPP_ENC_WAIT
      (fun t => decide (t.self.pending_frames < t.self.max_pending) || t.self.flushing)
      wake s
  else some s

/-- The end of `gst_mpp_enc_handle_frame`, from the second test of
`self->flushing` on. -/
def handle_frame_enqueue (s : Encoder) (frame : GstVideoCodecFrame) :
    GstFlowReturn × Encoder :=
  if s.self.flushing then handle_frame_drop s frame GstFlowReturn.GST_FLOW_FLUSHING
  else
    let s := { s with
      self.pending_frames := wrap_u32 ((s.self.pending_frames : Int) + 1) }
    let s := { s with self.frames := s.self.frames ++ [frame.system_frame_number] }
    (s.self.task_ret, s)

/-- `gst_mpp_enc_handle_frame`. -/
def gst_mpp_enc_handle_frame (s : Encoder) (frame : GstVideoCodecFrame) (e : ConvertEnv)
    (wake : Encoder → Option Encoder) : Option (GstFlowReturn × Encoder) :=
  if s.self.flushing then
    some (handle_frame_drop s frame GstFlowReturn.GST_FLOW_FLUSHING)
  else
    match gst_mpp_enc_convert (handle_frame_start_task s) frame e with
    | none => none
    | some (none, s1) =>
      some (handle_frame_drop s1 frame GstFlowReturn.GST_FLOW_NOT_NEGOTIATED)
    | some (some buffer, s1) =>
      match handle_frame_wait
          (set_output_buffer s1 frame.system_frame_number (some buffer)) wake with
      | none => none
      | some s2 =>
        some (handle_frame_enqueue s2 { frame with output_buffer := some buffer })

/-! ## Lifecycle -/

/-- The wait of `gst_mpp_enc_stop_task` for the task thread to pause: the
worker runs iterations (each with its own answers of the outside world) until
the task is no longer started.  The result is `none` when the worker has not
paused after the given iterations. -/
def wait_task_paused : List LoopEnv → Encoder → Option Encoder
  | [], s => if s.task ≠ GstTaskState.GST_TASK_STARTED then some s else none
  | e :: es, s =>
    if s.task ≠ GstTaskState.GST_TASK_STARTED then some s
    else
      match gst_mpp_enc_loop s e with
      | none => none
      | some s1 => wait_task_paused es s1

/-- `gst_mpp_enc_stop_task`. -/
def gst_mpp_enc_stop_task (s : Encoder) (drain : Bool) (worker : List LoopEnv) :
    Option Encoder :=
  if s.task ≠ GstTaskState.GST_TASK_STARTED then some s
  else
    let s := if !drain then { s with self.pending_frames := 0 } else s
    match wait_task_paused worker s with
    | none => none
    | some s1 => some { s1 with task := GstTaskState.GST_TASK_STOPPED }

/-- The statements of `gst_mpp_enc_reset` that follow the call of
`gst_mpp_enc_stop_task` (`mpi->reset` empties the queue of the hardware). -/
def reset_state (s : Encoder) (final : Bool) : Encoder :=
  let s := { s with self.flushing := final }
  let s := { s with self.draining := false }
  let s := { mpi_call s MpiCall.reset with mpp.inflight := [] }
  let s := { s with self.task_ret := GstFlowReturn.GST_FLOW_OK }
  let s := { s with self.pending_frames := 0 }
  let s := { s with self.frames := [] }
  let s := { s with self.prop_dirty := true }
  s

/-- `gst_mpp_enc_reset`. -/
def gst_mpp_enc_reset (s : Encoder) (drain final : Bool) (worker : List LoopEnv) :
    Option Encoder :=
  let s := { s with self.flushing := true }
  let s := { s with self.draining := drain }
  let s := { s with self.draining := true }
  match gst_mpp_enc_stop_task s s.self.draining worker with
  | none => none
  | some s => some (reset_state s final)

/-- `gst_mpp_enc_flush` (the element afterwards; the function returns TRUE). -/
def gst_mpp_enc_flush (s : Encoder) (worker : List LoopEnv) : Option Encoder :=
  gst_mpp_enc_reset s false false worker

/-- `gst_mpp_enc_finish` (the element afterwards). -/
def gst_mpp_enc_finish (s : Encoder) (worker : List LoopEnv) : Option Encoder :=
  gst_mpp_enc_reset s true false worker

/-- `gst_mpp_enc_stop` (the element afterwards): the final reset; the hardware
context, the converter and the configuration object are released after it. -/
def gst_mpp_enc_stop (s : Encoder) (worker : List LoopEnv) : Option Encoder :=
  gst_mpp_enc_reset s false true worker

/-- Return codes met by `gst_mpp_enc_start`, and the configuration that
`MPP_ENC_GET_CFG` reads back from the new context. -/
structure StartEnv where
  allocator_ok : Bool
  create_ret : MPP_RET
  input_timeout_ret : MPP_RET
  output_timeout_ret : MPP_RET
  init_ret : MPP_RET
  frame_init_ret : MPP_RET
  cfg_init_ret : MPP_RET
  get_cfg_ret : MPP_RET
  cfg : MppEncCfg
  deriving DecidableEq, Repr

/-- `gst_mpp_enc_start`: a new MPP context is created and the session fields
are initialised. -/
def gst_mpp_enc_start (s : Encoder) (e : StartEnv) : Bool × Encoder :=
  let s := { s with self.info := gst_video_info_init }
  if !e.allocator_ok then (false, s)
  else if e.create_ret ≠ 0 then (false, s)
  else if e.input_timeout_ret ≠ 0 then (false, s)
  else if e.output_timeout_ret ≠ 0 then (false, s)
  else if e.init_ret ≠ 0 then (false, s)
  else if e.frame_init_ret ≠ 0 then (false, s)
  else if e.cfg_init_ret ≠ 0 then (false, s)
  else if e.get_cfg_ret ≠ 0 then (false, s)
  else
    let s := { s with mpp := { calls := [], inflight := [] } }
    let s := { s with self.mpp_cfg := e.cfg }
    let s := { s with self.mpp_frame := MppFrame.zero }
    let s := { s with self.task_ret := GstFlowReturn.GST_FLOW_OK }
    let s := { s with self.input_state := none }
    let s := { s with self.flushing := false }
    let s := { s with self.pending_frames := 0 }
    let s := { s with self.frames := [] }
    let s := { s with self.required_keyframe_number := 0 }
    (true, s)

/-- `gst_mpp_enc_format_supported`: membership in `gst_mpp_enc_formats`. -/
def gst_mpp_enc_format_supported (format : MppFrameFormat) : Bool :=
  match format with
  | MppFrameFormat.other _ => false
  | _ => true

/-- Answers of the outside world during one `gst_mpp_enc_set_format`: the
worker iterations that run while an inner `gst_mpp_enc_reset` waits, the
functions `gst_mpp_video_info_align`, `gst_mpp_gst_format_to_mpp_format`,
`gst_mpp_mpp_format_to_gst_format` and `gst_mpp_video_info_update_format`
(defined outside `gstmppenc.c`), whether `GST_MPP_ENC_UNALIGNED_VSTRIDE` is
set, and the result of `gst_mpp_use_rga`. -/
structure SetFormatEnv where
  worker : List LoopEnv
  align : GstVideoInfo → Int → Int → Bool × GstVideoInfo
  unaligned_vstride : Bool
  to_mpp_format : Nat → MppFrameFormat
  to_gst_format : MppFrameFormat → Nat
  update_format : GstVideoInfo → Nat → Int → Int → GstVideoInfo
  use_rga : Bool

/-- The block of `gst_mpp_enc_set_format` headed `Check for conversion`: the
format to encode from (or `none` for `return FALSE`) and the element
afterwards. -/
def set_format_conversion (s : Encoder) (format : MppFrameFormat) (width height : Int)
    (e : SetFormatEnv) : Option MppFrameFormat × Encoder :=
  if s.self.rotation ≠ 0 ∨ gst_mpp_enc_format_supported format = false ∨
      width ≠ s.self.info.width ∨ height ≠ s.self.info.height then
    if !e.use_rga then (none, s)
    else
      let info := e.update_format s.self.info
        (e.to_gst_format MppFrameFormat.MPP_FMT_YUV420SP) width height
      let a := gst_mpp_enc_video_info_align e.align e.unaligned_vstride info
      let s := { s with self.info := a.2 }
      if !a.1 then (none, s) else (some MppFrameFormat.MPP_FMT_YUV420SP, s)
  else (some format, s)

/-- The end of `gst_mpp_enc_set_format`, from the ARM AFBC block on. -/
def set_format_configure (s : Encoder) (format : MppFrameFormat) (width height : Int)
    (e : SetFormatEnv) : Bool × Encoder :=
  let hstride := s.self.info.hstride
  let vstride := s.self.info.vstride
  let afbc_ok : Bool :=
    decide (s.self.mpp_type = MppCodingType.MPP_VIDEO_CodingAVC) ||
      decide (s.self.mpp_type = MppCodingType.MPP_VIDEO_CodingHEVC)
  let fmt : MppFrameFormat × Bool := (format, s.self.arm_afbc && afbc_ok)
  let s := if s.self.arm_afbc && !afbc_ok then { s with self.arm_afbc := false } else s
  let s := { s with self.mpp_frame.fmt := fmt }
  let s := { s with self.mpp_frame.width := width }
  let s := { s with self.mpp_frame.height := height }
  let s :=
    if (s.self.info.fps_n = (0 : Int)) ∨ (info_fps s.self.info > (256 : Int)) then
      { s with self.info.fps_n := 30, self.info.fps_d := 1 }
    else s
  let s := { s with
    self.mpp_cfg.prep_format := fmt
    self.mpp_cfg.prep_width := width
    self.mpp_cfg.prep_height := height
    self.mpp_cfg.rc_fps_in_flex := 0
    self.mpp_cfg.rc_fps_in_num := s.self.info.fps_n
    self.mpp_cfg.rc_fps_in_denorm := s.self.info.fps_d
    self.mpp_cfg.rc_fps_out_flex := 0
    self.mpp_cfg.rc_fps_out_num := s.self.info.fps_n
    self.mpp_cfg.rc_fps_out_denorm := s.self.info.fps_d }
  gst_mpp_enc_apply_strides s e.align hstride vstride

/-- The part of `gst_mpp_enc_set_format` that follows the test of the old
input state. -/
def set_format_apply (s : Encoder) (state : GstVideoCodecState) (e : SetFormatEnv) :
    Bool × Encoder :=
  let s := { s with self.input_state := some state }
  let a := gst_mpp_enc_video_info_align e.align e.unaligned_vstride state.info
  let s := { s with self.info := a.2 }
  if !a.1 then (false, s)
  else
    let format := e.to_mpp_format s.self.info.format
    let width0 := s.self.info.width
    let height0 := s.self.info.height
    let width1 := if s.self.rotation % 180 ≠ 0 then height0 else width0
    let height1 := if s.self.rotation % 180 ≠ 0 then width0 else height0
    let width : Int := wrap_s32 (if s.self.width ≠ 0 then (s.self.width : Int)
      else (wrap_u32 width1 : Int))
    let height : Int := wrap_s32 (if s.self.height ≠ 0 then (s.self.height : Int)
      else (wrap_u32 height1 : Int))
    match set_format_conversion s format width height e with
    | (none, s) => (false, s)
    | (some format, s) => set_format_configure s format width height e

/-- `gst_mpp_enc_set_format`. -/
def gst_mpp_enc_set_format (s : Encoder) (state : GstVideoCodecState) (e : SetFormatEnv) :
    Option (Bool × Encoder) :=
  match s.self.input_state with
  | some old =>
    if old.caps = state.caps then some (true, s)
    else
      match gst_mpp_enc_reset s true false e.worker with
      | none => none
      | some s1 => some (set_format_apply { s1 with self.input_state := none } state e)
  | none => some (set_format_apply s state e)

/-- `gst_mpp_enc_init`: the defaults of the properties; the remaining fields
of a new GObject instance are zero.  The two arguments are the values of
`DEFAULT_PROP_MAX_PENDING` and `DEFAULT_PROP_ARM_AFBC`, which
`gst_mpp_enc_class_init` may change from the environment. -/
def gst_mpp_enc_init (default_max_pending : Nat) (default_arm_afbc : Bool) : GstMppEnc :=
  { mpp_type := MppCodingType.MPP_VIDEO_CodingUnused
    max_pending := default_max_pending
    header_mode := MppEncHeaderMode.MPP_ENC_HEADER_MODE_DEFAULT
    sei_mode := MppEncSeiMode.MPP_ENC_SEI_MODE_DISABLE
    rc_mode := MppEncRcMode.MPP_ENC_RC_MODE_CBR
    rotation := 0
    gop := -1
    max_reenc := 1
    bps := 0
    bps_min := 0
    bps_max := 0
    width := 0
    height := 0
    zero_copy_pkt := true
    arm_afbc := default_arm_afbc
    prop_dirty := true
    input_state := none
    info := { format := 0, width := 0, height := 0, fps_n := 0, fps_d := 0, hstride := 0,
              vstride := 0, size := 0 }
    flushing := false
    draining := false
    task_ret := GstFlowReturn.GST_FLOW_OK
    pending_frames := 0
    frames := []
    required_keyframe_number := 0
    mpp_cfg := MppEncCfg.zero
    mpp_frame := MppFrame.zero }

/-! ## Properties -/

/-- A property id together with the `GValue` handed to
`gst_mpp_enc_set_property`. -/
inductive Property
  | PROP_MAX_PENDING (v : Nat)
  | PROP_HEADER_MODE (v : MppEncHeaderMode)
  | PROP_SEI_MODE (v : MppEncSeiMode)
  | PROP_RC_MODE (v : MppEncRcMode)
  | PROP_ROTATION (v : Nat)
  | PROP_GOP (v : Int)
  | PROP_MAX_REENC (v : Nat)
  | PROP_BPS (v : Nat)
  | PROP_BPS_MIN (v : Nat)
  | PROP_BPS_MAX (v : Nat)
  | PROP_WIDTH (v : Nat)
  | PROP_HEIGHT (v : Nat)
  | PROP_ZERO_COPY_PKT (v : Bool)
  | PROP_ARM_AFBC (v : Bool)
  | PROP_INVALID (prop_id : Nat)
  deriving DecidableEq, Repr

/-- `gst_mpp_enc_set_property`. -/
def gst_mpp_enc_set_property (self : GstMppEnc) : Property → GstMppEnc
  | Property.PROP_MAX_PENDING v => { self with max_pending := v }
  | Property.PROP_HEADER_MODE v =>
    if self.header_mode = v then self
    else { self with header_mode := v, prop_dirty := true }
  | Property.PROP_SEI_MODE v =>
    if self.sei_mode = v then self
    else { self with sei_mode := v, prop_dirty := true }
  | Property.PROP_RC_MODE v =>
    if self.rc_mode = v then self
    else { self with rc_mode := v, prop_dirty := true }
  | Property.PROP_GOP v =>
    if self.gop = v then self
    else { self with gop := v, prop_dirty := true }
  | Property.PROP_MAX_REENC v =>
    if self.max_reenc = v then self
    else { self with max_reenc := v, prop_dirty := true }
  | Property.PROP_BPS v =>
    if self.bps = v then self
    else { self with bps := v, prop_dirty := true }
  | Property.PROP_BPS_MIN v =>
    if self.bps_min = v then self
    else { self with bps_min := v, prop_dirty := true }
  | Property.PROP_BPS_MAX v =>
    if self.bps_max = v then self
    else { self with bps_max := v, prop_dirty := true }
  | Property.PROP_ROTATION v =>
    if self.input_state.isSome then self else { self with rotation := v }
  | Property.PROP_WIDTH v =>
    if self.input_state.isSome then self else { self with width := v }
  | Property.PROP_HEIGHT v =>
    if self.input_state.isSome then self else { self with height := v }
  | Property.PROP_ZERO_COPY_PKT v => { self with zero_copy_pkt := v }
  | Property.PROP_ARM_AFBC v =>
    if self.input_state.isSome then self else { self with arm_afbc := v }
  | Property.PROP_INVALID _ => self

/-- The property values accepted by the `GParamSpec`s installed in
`gst_mpp_enc_class_init` (GObject validates a value before it calls
`gst_mpp_enc_set_property`). -/
def Property.valid : Property → Bool
  | Property.PROP_MAX_PENDING v => decide (1 ≤ v ∧ v ≤ 16)
  | Property.PROP_HEADER_MODE _ => true
  | Property.PROP_SEI_MODE _ => true
  | Property.PROP_RC_MODE v => decide (v ≠ MppEncRcMode.MPP_ENC_RC_MODE_AVBR)
  | Property.PROP_ROTATION v => decide (v = 0 ∨ v = 90 ∨ v = 180 ∨ v = 270)
  | Property.PROP_GOP v => decide (-1 ≤ v ∧ v ≤ 2147483647)
  | Property.PROP_MAX_REENC v => decide (v ≤ 3)
  | Property.PROP_BPS v => decide (v ≤ 2147483647)
  | Property.PROP_BPS_MIN v => decide (v ≤ 2147483647)
  | Property.PROP_BPS_MAX v => decide (v ≤ 2147483647)
  | Property.PROP_WIDTH v => decide (v ≤ 2147483647)
  | Property.PROP_HEIGHT v => decide (v ≤ 2147483647)
  | Property.PROP_ZERO_COPY_PKT _ => true
  | Property.PROP_ARM_AFBC _ => true
  | Property.PROP_INVALID _ => true

/-! ## Executions -/

/-- What the base class does with a new input frame (`gst_video_encoder_chain`):
the frame is appended to the frame list and handed to the `handle_frame`
method. -/
def gst_video_encoder_chain (s : Encoder) (frame : GstVideoCodecFrame) (e : ConvertEnv)
    (wake : Encoder → Option Encoder) : Option (GstFlowReturn × Encoder) :=
  gst_mpp_enc_handle_frame { s with priv_frames := s.priv_frames ++ [frame] } frame e wake

/-- Iterations of the worker, one after the other.  The task thread calls
`gst_mpp_enc_loop` only while the task is started. -/
def run_worker : List LoopEnv → Encoder → Option Encoder
  | [], s => some s
  | e :: es, s =>
    if s.task ≠ GstTaskState.GST_TASK_STARTED then none
    else
      match gst_mpp_enc_loop s e with
      | none => none
      | some s1 => run_worker es s1

/-- A step of an interleaving of input frames and worker iterations; the
worker iterations listed with a frame are those that run while
`gst_mpp_enc_handle_frame` waits for room in the queue. -/
inductive Action
  | handle_frame (frame : GstVideoCodecFrame) (e : ConvertEnv) (worker : List LoopEnv)
  | loop (e : LoopEnv)

/-- An interleaving of successful `gst_mpp_enc_handle_frame` calls (calls that
return `GST_FLOW_OK`) and worker iterations: the final state and the frame
numbers given to `gst_mpp_enc_handle_frame`, in call order.  The result is
`none` when a step does not return, or a call is not successful. -/
def run : List Action → Encoder → Option (Encoder × List Nat)
  | [], s => some (s, [])
  | Action.handle_frame frame e worker :: rest, s =>
    match gst_video_encoder_chain s frame e (run_worker worker) with
    | some (GstFlowReturn.GST_FLOW_OK, s1) =>
      match run rest s1 with
      | none => none
      | some (s2, enqueued) => some (s2, frame.system_frame_number :: enqueued)
    | _ => none
  | Action.loop e :: rest, s =>
    if s.task ≠ GstTaskState.GST_TASK_STARTED then none
    else
      match gst_mpp_enc_loop s e with
      | none => none
      | some s1 => run rest s1

/-- What other threads can do while the streaming thread is inside
`gst_mpp_enc_handle_frame`: an iteration of the worker, or a
`gst_mpp_enc_set_property` call (which takes no lock).  `allowed` restricts
the property calls that are considered. -/
inductive EnvStep (allowed : Encoder → Property → Prop) : Encoder → Encoder → Prop
  | loop (s s1 : Encoder) (e : LoopEnv) :
      s.task = GstTaskState.GST_TASK_STARTED → gst_mpp_enc_loop s e = some s1 →
      EnvStep allowed s s1
  | set_property (s : Encoder) (p : Property) :
      p.valid = true → allowed s p →
      EnvStep allowed s { s with self := gst_mpp_enc_set_property s.self p }

/-- The states reachable from a successful `gst_mpp_enc_start` through
`gst_mpp_enc_set_format`, `gst_mpp_enc_handle_frame` (called by the base class
with a new frame), worker iterations, `gst_mpp_enc_set_property` and
`gst_mpp_enc_reset`. -/
inductive Reachable (allowed : Encoder → Property → Prop) : Encoder → Prop
  | start (s0 s : Encoder) (e : StartEnv) :
      s0.self.max_pending < 4294967296 → gst_mpp_enc_start s0 e = (true, s) →
      Reachable allowed s
  | env (s s1 : Encoder) :
      Reachable allowed s → EnvStep allowed s s1 → Reachable allowed s1
  | handle_frame (s s1 : Encoder) (frame : GstVideoCodecFrame) (e : ConvertEnv)
      (wake : Encoder → Option Encoder) (ret : GstFlowReturn) :
      Reachable allowed s →
      (∀ t t1, wake t = some t1 → Relation.ReflTransGen (EnvStep allowed) t t1) →
      gst_video_encoder_chain s frame e wake = some (ret, s1) →
      Reachable allowed s1
  | reset (s s1 : Encoder) (drain final : Bool) (worker : List LoopEnv) :
      Reachable allowed s → gst_mpp_enc_reset s drain final worker = some s1 →
      Reachable allowed s1
  | set_format (s s1 : Encoder) (state : GstVideoCodecState) (e : SetFormatEnv)
      (ok : Bool) :
      Reachable allowed s → gst_mpp_enc_set_format s state e = some (ok, s1) →
      Reachable allowed s1

/-- Every valid property call is considered. -/
def any_property : Encoder → Property → Prop := fun _ _ => True

/-- Only the property calls that do not set `max-pending` below the current
`pending_frames` are considered. -/
def max_pending_not_below : Encoder → Property → Prop :=
  fun s p => ∀ v, p = Property.PROP_MAX_PENDING v → s.self.pending_frames ≤ v

/-! ## Views of the state used in the proofs -/

/-- The state with the fields written by a property push blanked. -/
def quiet (s : Encoder) : Encoder :=
  { s with
    self.prop_dirty := false
    self.bps := 0
    self.mpp_cfg := MppEncCfg.zero
    mpp.calls := [] }

/-- The state with the fields written by a keyframe request or revert
blanked. -/
def quietk (s : Encoder) : Encoder :=
  { s with
    self.prop_dirty := false
    self.bps := 0
    self.mpp_cfg := MppEncCfg.zero
    self.required_keyframe_number := 0
    mpp.calls := [] }

/-- The state with the fields written by `gst_mpp_enc_convert` blanked. -/
def quietc (s : Encoder) : Encoder :=
  { s with
    self.prop_dirty := false
    self.bps := 0
    self.mpp_cfg := MppEncCfg.zero
    self.info := gst_video_info_init
    self.mpp_frame := MppFrame.zero
    mpp.calls := [] }

/-- The state with the fields written by the worker blanked. -/
def stable (s : Encoder) : Encoder :=
  { s with
    self.prop_dirty := false
    self.bps := 0
    self.mpp_cfg := MppEncCfg.zero
    self.required_keyframe_number := 0
    self.frames := []
    self.pending_frames := 0
    self.task_ret := GstFlowReturn.GST_FLOW_OK
    task := GstTaskState.GST_TASK_STOPPED
    priv_frames := []
    finished := []
    mpp := { calls := [], inflight := [] } }

/-- Number of frames the element has accepted and the hardware has not yet
returned: the pending list plus the hardware queue. -/
def outstanding (s : Encoder) : Nat := s.self.frames.length + s.mpp.inflight.length

/-- The numbers of the frames held by the base class, oldest first. -/
def priv_numbers (s : Encoder) : List Nat :=
  s.priv_frames.map (fun f => f.system_frame_number)

/-- `WorkerProgress s s1 done`: going from `s` to `s1` the worker has finished
exactly the frames `done`, which were the oldest frames of the base class, and
has touched nothing outside its own fields. -/
structure WorkerProgress (s s1 : Encoder) (done : List (Nat × Option GstBuffer)) : Prop where
  stable_eq : stable s1 = stable s
  bps_eq : s.self.bps ≠ 0 → s1.self.bps = s.self.bps
  finished_eq : s1.finished = s.finished ++ done
  priv_eq : priv_numbers s = done.map Prod.fst ++ priv_numbers s1
  fifo_eq : done.length = 0 → s1.mpp.inflight ++ s1.self.frames = s.mpp.inflight ++ s.self.frames
  outstanding_eq : outstanding s1 + done.length = outstanding s
  pending_eq : outstanding s ≤ s.self.pending_frames → s.self.pending_frames < 4294967296 →
    s1.self.pending_frames + done.length = s.self.pending_frames


/-- The state in which `gst_mpp_enc_handle_frame` tests `self->flushing` for
the second time (after conversion and the back-pressure block); `none` when
the call does not get that far. -/
def handle_frame_resumed (s : Encoder) (frame : GstVideoCodecFrame) (e : ConvertEnv)
    (wake : Encoder → Option Encoder) : Option Encoder :=
  if s.self.flushing then none
  else
    match gst_mpp_enc_convert (handle_frame_start_task s) frame e with
    | some (some buffer, s1) =>
      handle_frame_wait (set_output_buffer s1 frame.system_frame_number (some buffer)) wake
    | _ => none

/-- The shared state as a call of `gst_mpp_enc_handle_frame` last saw it
before it goes to `drop:` or enqueues: the state in which it resumed after the
back-pressure block if it got that far, the state on entry otherwise. -/
def handle_frame_last_seen (s : Encoder) (frame : GstVideoCodecFrame) (e : ConvertEnv)
    (wake : Encoder → Option Encoder) : Encoder :=
  match handle_frame_resumed s frame e wake with
  | some s2 => s2
  | none => s

def demo_cfg : MppEncCfg := MppEncCfg.zero

def demo_info : GstVideoInfo :=
  { format := 23, width := 1920, height := 1080, fps_n := 30, fps_d := 1,
    hstride := 1920, vstride := 1080, size := 3110400 }

def demo_self : GstMppEnc :=
  { mpp_type := MppCodingType.MPP_VIDEO_CodingAVC, max_pending := 2, header_mode := MppEncHeaderMode.MPP_ENC_HEADER_MODE_DEFAULT,
    sei_mode := MppEncSeiMode.MPP_ENC_SEI_MODE_DISABLE,
    rc_mode := MppEncRcMode.MPP_ENC_RC_MODE_CBR, rotation := 0, gop := -1, max_reenc := 1,
    bps := 0, bps_min := 0, bps_max := 0, width := 0, height := 0, zero_copy_pkt := true,
    arm_afbc := false, prop_dirty := true,
    input_state := some { caps := 1, info := demo_info }, info := demo_info,
    flushing := false, draining := false, task_ret := GstFlowReturn.GST_FLOW_OK,
    pending_frames := 0, frames := [], required_keyframe_number := 0, mpp_cfg := demo_cfg,
    mpp_frame := { fmt := (MppFrameFormat.MPP_FMT_YUV420SP, false), width := 1920,
                   height := 1080, hor_stride := 1920, ver_stride := 1080 } }

def demo_encoder : Encoder :=
  { self := demo_self, task := GstTaskState.GST_TASK_STOPPED, priv_frames := [],
    finished := [], mpp := { calls := [], inflight := [] } }

def demo_ctl : ControlEnv := { sei_ret := 0, header_ret := 0, cfg_ret := 0 }

def demo_convert : ConvertEnv :=
  { video_meta := none, size := 3110400, buffer_new_ok := true, n_memory := 2,
    mem_import_ok := false, align := fun i _ _ => (true, i), matched := fun _ _ => true,
    unaligned_vstride := false, ctl := demo_ctl, alloc_ok := true, have_rga := false,
    use_rga := false, rga_convert_ok := false, map_src_ok := true, map_dst_ok := true,
    copy_ok := true }

def demo_frame (n : Nat) (keyframe : Bool) : GstVideoCodecFrame :=
  { system_frame_number := n, force_keyframe := keyframe, output_buffer := none }

/-- Frames 0 and 1 are pending, the queue is full, and the base class has just
created frame 2. -/
def demo_full : Encoder :=
  { demo_encoder with
    self := { demo_self with pending_frames := 2, frames := [0, 1] }
    task := GstTaskState.GST_TASK_STARTED
    priv_frames := [{ demo_frame 0 false with output_buffer := some (GstBuffer.sw_copied 0) },
      { demo_frame 1 false with output_buffer := some (GstBuffer.sw_copied 1) },
      demo_frame 2 false] }

def demo_wake_flushing : Encoder → Option Encoder :=
  fun t => some { t with self.flushing := true }



/-- The configured GOP: `fps_n / fps_d` when `gop` is negative, `gop`
otherwise. -/
def configured_gop (self : GstMppEnc) : Int :=
  if self.gop < 0 then info_fps self.info else self.gop

/-- The stored property values other than `bps` agree. -/
def same_properties_but_bps (a b : GstMppEnc) : Prop :=
  a.max_pending = b.max_pending ∧ a.header_mode = b.header_mode ∧ a.sei_mode = b.sei_mode ∧
  a.rc_mode = b.rc_mode ∧ a.rotation = b.rotation ∧ a.gop = b.gop ∧
  a.max_reenc = b.max_reenc ∧ a.bps_min = b.bps_min ∧ a.bps_max = b.bps_max ∧
  a.width = b.width ∧ a.height = b.height ∧ a.zero_copy_pkt = b.zero_copy_pkt ∧
  a.arm_afbc = b.arm_afbc

/-- Answers of a hardware that accepts every frame. -/
def demo_send : SendEnv := { frame_init_ret := 0, ctl := demo_ctl, put_frame_ret := 0 }

/-- Answers met when `mpp_frame_init` fails. -/
def demo_send_no_frame : SendEnv :=
  { frame_init_ret := -1, ctl := demo_ctl, put_frame_ret := 0 }

/-- Answers of a hardware that has the packet of its oldest frame ready. -/
def demo_poll : PollEnv :=
  { packet := some { index := 0, length := 4096, has_buffer := true }, ctl := demo_ctl,
    buffer_new_ok := true, mem_import_ok := true, alloc_ok := true }

/-- Answers of the outside world for one iteration of the worker in which the
hardware accepts every frame and returns every packet. -/
def demo_loop : LoopEnv := { sends := fun _ => demo_send, polls := fun _ => demo_poll }

/-- Frames 1 and 2, both flagged force-keyframe, are pending. -/
def demo_keyframes : Encoder :=
  { demo_encoder with
    self := { demo_self with pending_frames := 2, frames := [1, 2] }
    task := GstTaskState.GST_TASK_STARTED
    priv_frames := [{ demo_frame 1 true with output_buffer := some (GstBuffer.sw_copied 1) },
      { demo_frame 2 true with output_buffer := some (GstBuffer.sw_copied 2) }] }

/-- Frame 7, flagged force-keyframe, is pending and `bps` is 0 (automatic). -/
def demo_keyframe_pending : Encoder :=
  { demo_encoder with
    self := { demo_self with pending_frames := 1, frames := [7] }
    task := GstTaskState.GST_TASK_STARTED
    priv_frames := [{ demo_frame 7 true with output_buffer := some (GstBuffer.sw_copied 7) }] }


/-- Answers of a machine on which `gst_mpp_enc_start` succeeds. -/
def demo_start : StartEnv :=
  { allocator_ok := true, create_ret := 0, input_timeout_ret := 0, output_timeout_ret := 0,
    init_ret := 0, frame_init_ret := 0, cfg_init_ret := 0, get_cfg_ret := 0,
    cfg := MppEncCfg.zero }

/-- Answers of the outside world during format negotiation, without RGA. -/
def demo_set_format : SetFormatEnv :=
  { worker := [], align := fun i _ _ => (true, i), unaligned_vstride := false,
    to_mpp_format := fun _ => MppFrameFormat.MPP_FMT_YUV420SP, to_gst_format := fun _ => 23,
    update_format := fun i _ _ _ => i, use_rga := false }

/-- A new element with `max-pending` 2. -/
def demo_new : Encoder :=
  { self := gst_mpp_enc_init 2 false, task := GstTaskState.GST_TASK_STOPPED,
    priv_frames := [], finished := [], mpp := { calls := [], inflight := [] } }

/-- The element after `gst_mpp_enc_start` and format negotiation. -/
def demo_negotiated : Encoder :=
  (set_format_apply (gst_mpp_enc_start demo_new demo_start).2
    { caps := 1, info := demo_info } demo_set_format).2

/-- The element after frame 0 has been accepted. -/
def demo_one_pending : Encoder :=
  match gst_video_encoder_chain demo_negotiated (demo_frame 0 false) demo_convert
      (fun _ => none) with
  | some r => r.2
  | none => demo_negotiated

/-- The element after frames 0 and 1 have been accepted. -/
def demo_two_pending : Encoder :=
  match gst_video_encoder_chain demo_one_pending (demo_frame 1 false) demo_convert
      (fun _ => none) with
  | some r => r.2
  | none => demo_one_pending

/-- The state with the fields written by format negotiation blanked. -/
def quietf (s : Encoder) : Encoder :=
  { s with
    self.prop_dirty := false
    self.arm_afbc := false
    self.input_state := none
    self.mpp_cfg := MppEncCfg.zero
    self.info := gst_video_info_init
    self.mpp_frame := MppFrame.zero }

/-- What holds of the session counters in every reachable state:
`pending_frames` counts the pending list plus the hardware queue, the two
`guint` fields are in range, the worker has not reported a terminal status,
the task is not started while flushing is set, and nothing is pending while
the task is not started. -/
structure SessionInv (s : Encoder) : Prop where
  outstanding_eq : outstanding s = s.self.pending_frames
  pending_lt : s.self.pending_frames < 4294967296
  max_lt : s.self.max_pending < 4294967296
  task_ret_ok : s.self.task_ret = GstFlowReturn.GST_FLOW_OK
  flushing_idle : s.self.flushing = true → s.task ≠ GstTaskState.GST_TASK_STARTED
  idle_empty : s.task ≠ GstTaskState.GST_TASK_STARTED → s.self.pending_frames = 0


/-- Two input frames followed by one iteration of the worker. -/
def demo_actions : List Action :=
  [Action.handle_frame (demo_frame 0 false) demo_convert [],
   Action.handle_frame (demo_frame 1 false) demo_convert [],
   Action.loop demo_loop]

/-- The outcome of `demo_actions` on the negotiated element. -/
def demo_run : Encoder × List Nat :=
  match run demo_actions demo_negotiated with
  | some r => r
  | none => (demo_negotiated, [])

/-- The outcome of the call of `gst_mpp_enc_handle_frame` that is woken with
flushing set. -/
def demo_dropped : Encoder :=
  match gst_mpp_enc_handle_frame demo_full (demo_frame 2 false) demo_convert
      demo_wake_flushing with
  | some r => r.2
  | none => demo_full

/-- The outcome of `gst_mpp_enc_finish` on the element with two frames
pending, the worker running two iterations. -/
def demo_finished : Encoder :=
  match gst_mpp_enc_reset demo_two_pending true false [demo_loop, demo_loop] with
  | some s => s
  | none => demo_two_pending

/-- The element after frame 7 has been submitted to the hardware. -/
def demo_keyframe_sent : Encoder :=
  match gst_mpp_enc_send_frame_locked demo_keyframe_pending demo_send with
  | some r => r.2
  | none => demo_keyframe_pending

/-- The element is flushing with nothing pending and the task started, as the
worker sees it at the end of a drain. -/
def demo_drained : Encoder :=
  { demo_negotiated with
    self := { demo_negotiated.self with flushing := true, draining := true }
    task := GstTaskState.GST_TASK_STARTED }

/-! ## Defaults of the class -/

/-- `MPP_MAX_PENDING`: the largest number of frames MPP keeps pending. -/
def MPP_MAX_PENDING : Int := 16

/-- The GLib macro `MIN` on `int` operands. -/
def MIN (a b : Int) : Int := if a < b then a else b

/-- The GLib macro `MAX` on `int` operands. -/
def MAX (a b : Int) : Int := if a > b then a else b

/-- The value of the static `guint32 DEFAULT_PROP_MAX_PENDING` once
`gst_mpp_enc_class_init` has run: the argument is `atoi (env)` when the
environment variable `GST_MPP_ENC_MAX_PENDING` is set, nothing otherwise. -/
def DEFAULT_PROP_MAX_PENDING (env : Option Int) : Nat :=
  match env with
  | none => wrap_u32 MPP_MAX_PENDING
  | some v => wrap_u32 (MAX (MIN v MPP_MAX_PENDING) 1)

/-! ## Reading the properties -/

/-- The property ids of the generic encoder (the `enum` of `gstmppenc.c`
between `PROP_0` and `PROP_LAST`). -/
inductive PropertyId
  | PROP_MAX_PENDING
  | PROP_HEADER_MODE
  | PROP_RC_MODE
  | PROP_ROTATION
  | PROP_SEI_MODE
  | PROP_GOP
  | PROP_MAX_REENC
  | PROP_BPS
  | PROP_BPS_MIN
  | PROP_BPS_MAX
  | PROP_WIDTH
  | PROP_HEIGHT
  | PROP_ZERO_COPY_PKT
  | PROP_ARM_AFBC
  deriving DecidableEq, Repr

/-- The `prop_id` argument that comes with a `Property`; `none` for an id the
class has not installed. -/
def Property.id : Property → Option PropertyId
  | Property.PROP_MAX_PENDING _ => some PropertyId.PROP_MAX_PENDING
  | Property.PROP_HEADER_MODE _ => some PropertyId.PROP_HEADER_MODE
  | Property.PROP_SEI_MODE _ => some PropertyId.PROP_SEI_MODE
  | Property.PROP_RC_MODE _ => some PropertyId.PROP_RC_MODE
  | Property.PROP_ROTATION _ => some PropertyId.PROP_ROTATION
  | Property.PROP_GOP _ => some PropertyId.PROP_GOP
  | Property.PROP_MAX_REENC _ => some PropertyId.PROP_MAX_REENC
  | Property.PROP_BPS _ => some PropertyId.PROP_BPS
  | Property.PROP_BPS_MIN _ => some PropertyId.PROP_BPS_MIN
  | Property.PROP_BPS_MAX _ => some PropertyId.PROP_BPS_MAX
  | Property.PROP_WIDTH _ => some PropertyId.PROP_WIDTH
  | Property.PROP_HEIGHT _ => some PropertyId.PROP_HEIGHT
  | Property.PROP_ZERO_COPY_PKT _ => some PropertyId.PROP_ZERO_COPY_PKT
  | Property.PROP_ARM_AFBC _ => some PropertyId.PROP_ARM_AFBC
  | Property.PROP_INVALID _ => none

/-- `gst_mpp_enc_get_property`: the value written to the `GValue`, together
with the id it was asked for. -/
def gst_mpp_enc_get_property (self : GstMppEnc) : PropertyId → Property
  | PropertyId.PROP_MAX_PENDING => Property.PROP_MAX_PENDING self.max_pending
  | PropertyId.PROP_HEADER_MODE => Property.PROP_HEADER_MODE self.header_mode
  | PropertyId.PROP_SEI_MODE => Property.PROP_SEI_MODE self.sei_mode
  | PropertyId.PROP_RC_MODE => Property.PROP_RC_MODE self.rc_mode
  | PropertyId.PROP_ROTATION => Property.PROP_ROTATION self.rotation
  | PropertyId.PROP_GOP => Property.PROP_GOP self.gop
  | PropertyId.PROP_MAX_REENC => Property.PROP_MAX_REENC self.max_reenc
  | PropertyId.PROP_BPS => Property.PROP_BPS self.bps
  | PropertyId.PROP_BPS_MIN => Property.PROP_BPS_MIN self.bps_min
  | PropertyId.PROP_BPS_MAX => Property.PROP_BPS_MAX self.bps_max
  | PropertyId.PROP_WIDTH => Property.PROP_WIDTH self.width
  | PropertyId.PROP_HEIGHT => Property.PROP_HEIGHT self.height
  | PropertyId.PROP_ZERO_COPY_PKT => Property.PROP_ZERO_COPY_PKT self.zero_copy_pkt
  | PropertyId.PROP_ARM_AFBC => Property.PROP_ARM_AFBC self.arm_afbc

/-! ## The JPEG encoder (`gstmppjpegenc.c`) -/

/-- `struct _GstMppJpegEnc`: the parent instance (given with its
surroundings) and the three quality fields. -/
structure GstMppJpegEnc where
  parent : Encoder
  q_factor : Nat
  qf_min : Nat
  qf_max : Nat
  deriving DecidableEq, Repr

/-- The three `mpp_enc_cfg_set_s32` calls of
`gst_mpp_jpeg_enc_apply_properties` (the `guint` fields are passed as
`RK_S32`): the configuration object afterwards. -/
def jpeg_set_cfg (self : GstMppJpegEnc) : MppEncCfg :=
  let cfg := self.parent.self.mpp_cfg
  let cfg := { cfg with jpeg_q_factor := wrap_s32 self.q_factor }
  let cfg := { cfg with jpeg_qf_min := wrap_s32 self.qf_min }
  let cfg := { cfg with jpeg_qf_max := wrap_s32 self.qf_max }
  cfg

/-- `gst_mpp_jpeg_enc_apply_properties`. -/
def gst_mpp_jpeg_enc_apply_properties (self : GstMppJpegEnc) (e : ControlEnv) :
    Bool × GstMppJpegEnc :=
  if !self.parent.self.prop_dirty then (true, self)
  else
    let r := gst_mpp_enc_apply_properties
      { self.parent with self.mpp_cfg := jpeg_set_cfg self } e
    (r.1, { self with parent := r.2 })

/-- `gst_mpp_jpeg_enc_handle_frame`.  When the properties cannot be applied
the frame is only unreferenced: the base class keeps it in its list. -/
def gst_mpp_jpeg_enc_handle_frame (self : GstMppJpegEnc) (frame : GstVideoCodecFrame)
    (ctl : ControlEnv) (e : ConvertEnv) (wake : Encoder → Option Encoder) :
    Option (GstFlowReturn × GstMppJpegEnc) :=
  let r := gst_mpp_jpeg_enc_apply_properties self ctl
  if !r.1 then some (GstFlowReturn.GST_FLOW_NOT_NEGOTIATED, r.2)
  else
    match gst_mpp_enc_handle_frame r.2.parent frame e wake with
    | none => none
    | some (ret, s) => some (ret, { r.2 with parent := s })

/-- `gst_mpp_jpeg_enc_init`, run on the instance that `gst_mpp_enc_init` has
initialised. -/
def gst_mpp_jpeg_enc_init (parent : Encoder) : GstMppJpegEnc :=
  { parent := { parent with self.mpp_type := MppCodingType.MPP_VIDEO_CodingMJPEG }
    q_factor := 80
    qf_min := 1
    qf_max := 99 }

/-- The element after its dirty properties have been pushed once. -/
def demo_applied : Encoder := (gst_mpp_enc_apply_properties demo_encoder demo_ctl).2

/-- The negotiated frame rate is 1/2 (one frame every two seconds) and the
configuration read back from MPP holds a target of 2000000. -/
def demo_half_fps : Encoder :=
  { demo_encoder with
    self := { demo_self with
      info := { demo_info with fps_n := 1, fps_d := 2 }
      mpp_cfg := { demo_cfg with
        rc_bps_target := 2000000, rc_bps_max := 2500000, rc_bps_min := 1500000 } } }

/-- The properties are `bps` 1000000, `bps-max` 5000000, `bps-min` 100000, in
CBR mode. -/
def demo_band : Encoder :=
  { demo_encoder with
    self := { demo_self with bps := 1000000, bps_max := 5000000, bps_min := 100000 } }

/-- The properties are `rc-mode` VBR and `bps` 300000000, with `bps-min` and
`bps-max` unset. -/
def demo_vbr : Encoder :=
  { demo_encoder with
    self := { demo_self with
      rc_mode := MppEncRcMode.MPP_ENC_RC_MODE_VBR, bps := 300000000 } }

/-- Answers of a hardware that returns the packet of its oldest frame without
a buffer. -/
def demo_poll_no_buffer : PollEnv :=
  { demo_poll with packet := some { index := 0, length := 0, has_buffer := false } }

/-- Answers met when the input buffer can be imported as it is and the
`MPP_ENC_SET_CFG` control call fails. -/
def demo_import_cfg_fails : ConvertEnv :=
  { demo_convert with
    n_memory := 1, mem_import_ok := true
    ctl := { sei_ret := 0, header_ret := 0, cfg_ret := -1 } }

/-- Answers met when the input buffer can be imported as it is and every
control call succeeds. -/
def demo_import : ConvertEnv :=
  { demo_convert with n_memory := 1, mem_import_ok := true }

/-- A JPEG encoder after `gst_mpp_enc_start` and format negotiation, for which
the base class has just created frame 0. -/
def demo_jpeg : GstMppJpegEnc :=
  gst_mpp_jpeg_enc_init { demo_negotiated with priv_frames := [demo_frame 0 false] }

/-- Return codes of the control calls when `MPP_ENC_SET_CFG` fails. -/
def demo_ctl_cfg_fails : ControlEnv := { sei_ret := 0, header_ret := 0, cfg_ret := -1 }

/-! ## Calls after the worker has paused itself -/

/-- A call the element receives from the base class or the application,
other than `gst_mpp_enc_start` and `gst_mpp_enc_set_format`: a new input
frame, a property, or a reset (`gst_mpp_enc_flush`, `gst_mpp_enc_finish`,
`gst_mpp_enc_stop`, the state change to READY). -/
inductive Operation
  | handle_frame (frame : GstVideoCodecFrame) (e : ConvertEnv)
      (wake : Encoder → Option Encoder)
  | set_property (p : Property)
  | reset (drain final : Bool) (worker : List LoopEnv)

/-- The operation is not a reset with `final` FALSE. -/
def Operation.keeps_flushing : Operation → Bool
  | Operation.reset _ final _ => final
  | _ => true

/-- The input frames among the operations, in call order. -/
def handled : List Operation → List GstVideoCodecFrame
  | [] => []
  | Operation.handle_frame frame _ _ :: ops => frame :: handled ops
  | _ :: ops => handled ops

/-- The operations run one after the other: the final state and what the
`gst_mpp_enc_handle_frame` calls returned, in call order; `none` when a call
does not return. -/
def operate : List Operation → Encoder → Option (Encoder × List GstFlowReturn)
  | [], s => some (s, [])
  | Operation.handle_frame frame e wake :: ops, s =>
    match gst_video_encoder_chain s frame e wake with
    | none => none
    | some (ret, s1) =>
      match operate ops s1 with
      | none => none
      | some (s2, rets) => some (s2, ret :: rets)
  | Operation.set_property p :: ops, s =>
    operate ops { s with self := gst_mpp_enc_set_property s.self p }
  | Operation.reset drain final worker :: ops, s =>
    match gst_mpp_enc_reset s drain final worker with
    | none => none
    | some s1 => operate ops s1

/-- The element as the worker leaves it during `demo_finished`, while
`gst_mpp_enc_stop_task` waits: both frames are drained and the worker has
paused itself. -/
def demo_worker_paused : Encoder :=
  match wait_task_paused [demo_loop, demo_loop]
      { demo_two_pending with
        self := { demo_two_pending.self with flushing := true, draining := true } } with
  | some s => s
  | none => demo_two_pending

/-- The element after the final reset of `gst_mpp_enc_stop`. -/
def demo_stopped : Encoder :=
  match gst_mpp_enc_stop demo_two_pending [demo_loop, demo_loop] with
  | some s => s
  | none => demo_two_pending

/-! ## Single steps of the worker -/

/-- One call of the worker: `gst_mpp_enc_send_frame_locked` or
`gst_mpp_enc_poll_packet_locked`, with any answers of the outside world. -/
inductive WorkerStep : Encoder → Encoder → Prop
  | send (s s1 : Encoder) (e : SendEnv) (b : Bool) :
      gst_mpp_enc_send_frame_locked s e = some (b, s1) → WorkerStep s s1
  | poll (s s1 : Encoder) (e : PollEnv) (b : Bool) :
      gst_mpp_enc_poll_packet_locked s e = some (b, s1) → WorkerStep s s1

/-- The states reachable from a successful `gst_mpp_enc_start` by format
negotiation (which has to precede the first frame),
`gst_mpp_enc_handle_frame` (called by the base class with a new frame; only
the worker runs while the call waits) and single calls of
`gst_mpp_enc_send_frame_locked` and `gst_mpp_enc_poll_packet_locked`. -/
inductive StepReachable : Encoder → Prop
  | start (s0 s : Encoder) (e : StartEnv) :
      s0.self.max_pending < 4294967296 → gst_mpp_enc_start s0 e = (true, s) →
      StepReachable s
  | set_format (s s1 : Encoder) (state : GstVideoCodecState) (e : SetFormatEnv)
      (ok : Bool) :
      StepReachable s → gst_mpp_enc_set_format s state e = some (ok, s1) →
      StepReachable s1
  | handle_frame (s s1 : Encoder) (frame : GstVideoCodecFrame) (e : ConvertEnv)
      (wake : Encoder → Option Encoder) (ret : GstFlowReturn) :
      StepReachable s →
      (∀ t t1, wake t = some t1 → Relation.ReflTransGen WorkerStep t t1) →
      gst_video_encoder_chain s frame e wake = some (ret, s1) →
      StepReachable s1
  | worker (s s1 : Encoder) :
      StepReachable s → WorkerStep s s1 → StepReachable s1

/-- The element after frame 0, not flagged force-keyframe, has been accepted
with its input buffer imported as it is (the properties are pushed on the
way). -/
def demo_first_accepted : Encoder :=
  match gst_video_encoder_chain demo_negotiated (demo_frame 0 false) demo_import
      (fun _ => none) with
  | some r => r.2
  | none => demo_negotiated

/-- The element after frame 0 has then been submitted to the hardware. -/
def demo_first_sent : Encoder :=
  match gst_mpp_enc_send_frame_locked demo_first_accepted demo_send with
  | some r => r.2
  | none => demo_first_accepted

/-- The element after the packet of frame 0 has then been polled. -/
def demo_first_polled : Encoder :=
  match gst_mpp_enc_poll_packet_locked demo_first_sent demo_poll with
  | some r => r.2
  | none => demo_first_sent

/-- The element after frame 1, not flagged force-keyframe, has then been
accepted and submitted. -/
def demo_second_sent : Encoder :=
  match gst_video_encoder_chain demo_first_polled (demo_frame 1 false) demo_import
      (fun _ => none) with
  | some r =>
    match gst_mpp_enc_send_frame_locked r.2 demo_send with
    | some r1 => r1.2
    | none => r.2
  | none => demo_first_polled

/-- Answers met on the software path when `gst_video_frame_map` fails for the
source frame. -/
def demo_map_src_fails : ConvertEnv := { demo_convert with map_src_ok := false }

/-- Answers met on the software path when `gst_video_frame_map` fails for the
destination frame. -/
def demo_map_dst_fails : ConvertEnv := { demo_convert with map_dst_ok := false }

/-- Answers met on the software path when `gst_video_frame_copy` fails. -/
def demo_copy_fails : ConvertEnv := { demo_convert with copy_ok := false }

/-- The properties are the given `rc-mode` and `bps`, with `bps-min` and
`bps-max` unset. -/
def demo_rate (rc_mode : MppEncRcMode) (bps : Nat) : Encoder :=
  { demo_encoder with self := { demo_self with rc_mode := rc_mode, bps := bps } }

/-! ## The life of an instance -/

theorem quietk_of_quiet {s t : Encoder} (h : quiet t = quiet s) : quietk t = quietk s := by
  have := congrArg quietk h
  exact this

theorem stable_of_quietk {s t : Encoder} (h : quietk t = quietk s) : stable t = stable s := by
  have := congrArg stable h
  exact this

theorem quiet_apply_properties (s : Encoder) (e : ControlEnv) :
    quiet (gst_mpp_enc_apply_properties s e).2 = quiet s := by
  unfold gst_mpp_enc_apply_properties
  by_cases hd : s.self.prop_dirty = true
  · simp only [hd, quiet, mpi_call]
    split_ifs <;> rfl
  · simp [hd]

theorem bps_apply_properties (s : Encoder) (e : ControlEnv) (h : s.self.bps ≠ 0) :
    (gst_mpp_enc_apply_properties s e).2.self.bps = s.self.bps := by
  unfold gst_mpp_enc_apply_properties
  by_cases hd : s.self.prop_dirty = true
  · simp only [hd, mpi_call, derived_bps]
    split_ifs <;> simp_all
  · simp [hd]

theorem force_keyframe_false (s : Encoder) (e : ControlEnv) :
    gst_mpp_enc_force_keyframe s false e =
      gst_mpp_enc_apply_properties { s with self.prop_dirty := true } e := rfl

theorem force_keyframe_true (s : Encoder) (e : ControlEnv) :
    gst_mpp_enc_force_keyframe s true e =
      (decide (e.cfg_ret = 0),
        mpi_call { s with self.mpp_cfg.rc_gop := 1 }
          (MpiCall.control_set_cfg { s.self.mpp_cfg with rc_gop := 1 } e.cfg_ret)) := by
  unfold gst_mpp_enc_force_keyframe
  by_cases h : e.cfg_ret = 0 <;> simp [h]

theorem quiet_force_keyframe (s : Encoder) (k : Bool) (e : ControlEnv) :
    quiet (gst_mpp_enc_force_keyframe s k e).2 = quiet s := by
  cases k
  · rw [force_keyframe_false, quiet_apply_properties]
    rfl
  · rw [force_keyframe_true]
    rfl

theorem bps_force_keyframe (s : Encoder) (k : Bool) (e : ControlEnv) (h : s.self.bps ≠ 0) :
    (gst_mpp_enc_force_keyframe s k e).2.self.bps = s.self.bps := by
  cases k
  · rw [force_keyframe_false]
    exact bps_apply_properties _ _ h
  · rw [force_keyframe_true]
    rfl

theorem quietk_send_request_keyframe (s : Encoder) (f : GstVideoCodecFrame) (n : Nat)
    (e : ControlEnv) : quietk (send_request_keyframe s f n e) = quietk s := by
  unfold send_request_keyframe
  split
  · have := congrArg quietk (quiet_force_keyframe
      { s with self.required_keyframe_number := n } true e)
    exact this
  · rfl

theorem bps_send_request_keyframe (s : Encoder) (f : GstVideoCodecFrame) (n : Nat)
    (e : ControlEnv) (h : s.self.bps ≠ 0) :
    (send_request_keyframe s f n e).self.bps = s.self.bps := by
  unfold send_request_keyframe
  split
  · exact bps_force_keyframe { s with self.required_keyframe_number := n } true e h
  · rfl

/-- What one call of `gst_mpp_enc_send_frame_locked` does to the pending list
and to the hardware queue. -/
theorem send_frame_locked_queues (s s1 : Encoder) (e : SendEnv) (b : Bool)
    (h : gst_mpp_enc_send_frame_locked s e = some (b, s1)) :
    stable s1 = stable s ∧
    (s.self.bps ≠ 0 → s1.self.bps = s.self.bps) ∧
    s1.self.pending_frames = s.self.pending_frames ∧
    s1.self.task_ret = s.self.task_ret ∧ s1.task = s.task ∧
    s1.priv_frames = s.priv_frames ∧ s1.finished = s.finished ∧
    (b = false → s1.self.frames = s.self.frames ∧ s1.mpp.inflight = s.mpp.inflight) ∧
    (b = true → ∃ n rest, s.self.frames = n :: rest ∧ s1.self.frames = rest ∧
      s1.mpp.inflight = s.mpp.inflight ++ [n]) := by
  unfold gst_mpp_enc_send_frame_locked at h
  split at h
  · cases h
    simp
  · rename_i n rest hf
    split at h
    · cases h
      simp
    · split at h
      · cases h
      · rename_i frame hg
        have hq := quietk_send_request_keyframe s frame n e.ctl
        have hb := bps_send_request_keyframe s frame n e.ctl
        generalize send_request_keyframe s frame n e.ctl = t at h hq hb
        have k1 : stable t = stable s := stable_of_quietk hq
        have k3 : t.self.pending_frames = s.self.pending_frames :=
          congrArg (fun x => x.self.pending_frames) hq
        have k4 : t.self.task_ret = s.self.task_ret :=
          congrArg (fun x => x.self.task_ret) hq
        have k5 : t.task = s.task := congrArg (fun x => x.task) hq
        have k6 : t.priv_frames = s.priv_frames := congrArg (fun x => x.priv_frames) hq
        have k7 : t.finished = s.finished := congrArg (fun x => x.finished) hq
        have k8 : t.self.frames = s.self.frames := congrArg (fun x => x.self.frames) hq
        have k9 : t.mpp.inflight = s.mpp.inflight :=
          congrArg (fun x => x.mpp.inflight) hq
        unfold send_put_frame at h
        by_cases hp : e.put_frame_ret = 0
        · simp only [hp, ne_eq, not_true_eq_false, if_false, Option.some.injEq,
            Prod.mk.injEq] at h
          obtain ⟨hb1, hs⟩ := h
          subst hb1
          subst hs
          refine ⟨k1, hb, k3, k4, k5, k6, k7, ?_, ?_⟩
          · intro h; cases h
          · intro _
            exact ⟨n, rest, hf, rfl, by simp [mpi_call, k9]⟩
        · simp only [hp, ne_eq, not_false_eq_true, if_true, Option.some.injEq,
            Prod.mk.injEq] at h
          obtain ⟨hb1, hs⟩ := h
          subst hb1
          subst hs
          refine ⟨k1, hb, k3, k4, k5, k6, k7, ?_, ?_⟩
          · intro _
            exact ⟨k8, k9⟩
          · intro h; cases h

theorem quietk_poll_revert_keyframe (s : Encoder) (f : GstVideoCodecFrame) (e : ControlEnv) :
    quietk (poll_revert_keyframe s f e) = quietk s := by
  unfold poll_revert_keyframe
  split
  · have := congrArg quietk (quiet_force_keyframe s false e)
    exact this
  · rfl

theorem bps_poll_revert_keyframe (s : Encoder) (f : GstVideoCodecFrame) (e : ControlEnv)
    (h : s.self.bps ≠ 0) : (poll_revert_keyframe s f e).self.bps = s.self.bps := by
  unfold poll_revert_keyframe
  split
  · exact bps_force_keyframe s false e h
  · rfl

theorem encode_get_packet_some (mpp mpp1 : MppCtx) (ready : Option MppPacket)
    (pkt : MppPacket) (src : Nat) (h : encode_get_packet mpp ready = some (pkt, src, mpp1)) :
    ready = some pkt ∧ mpp.inflight[pkt.index]? = some src ∧ mpp1.calls = mpp.calls ∧
      mpp1.inflight = mpp.inflight.eraseIdx pkt.index ∧
      mpp1.inflight.length + 1 = mpp.inflight.length := by
  unfold encode_get_packet at h
  split at h
  · cases h
  · rename_i p
    split at h
    · cases h
    · rename_i n hn
      simp only [Option.some.injEq, Prod.mk.injEq] at h
      obtain ⟨h1, h2, h3⟩ := h
      subst h1
      subst h2
      subst h3
      have hlt : p.index < mpp.inflight.length := by
        by_contra hc
        rw [List.getElem?_eq_none (Nat.le_of_not_lt hc)] at hn
        cases hn
      refine ⟨rfl, hn, rfl, rfl, ?_⟩
      simp only [List.length_eraseIdx, hlt, if_true]
      omega

/-- The frame handed to `poll_finish` is finished, whatever the branch. -/
theorem poll_finish_queues (s : Encoder) (f : GstVideoCodecFrame) (rest : List GstVideoCodecFrame)
    (pkt : MppPacket) (src : Nat) (e : PollEnv) (hp : s.priv_frames = f :: rest) :
    stable (poll_finish s f pkt src e) = stable s ∧
    (s.self.bps ≠ 0 → (poll_finish s f pkt src e).self.bps = s.self.bps) ∧
    (poll_finish s f pkt src e).self.frames = s.self.frames ∧
    (poll_finish s f pkt src e).self.pending_frames = s.self.pending_frames ∧
    (poll_finish s f pkt src e).self.task_ret = s.self.task_ret ∧
    (poll_finish s f pkt src e).task = s.task ∧
    (poll_finish s f pkt src e).mpp.inflight = s.mpp.inflight ∧
    (poll_finish s f pkt src e).priv_frames = rest ∧
    ∃ out, (poll_finish s f pkt src e).finished
      = s.finished ++ [(f.system_frame_number, out)] := by
  have herase : ∀ (t : Encoder) (g : GstVideoCodecFrame), t.priv_frames = f :: rest →
      g.system_frame_number = f.system_frame_number →
      (gst_video_encoder_finish_frame t g).priv_frames = rest := by
    intro t g ht hg
    unfold gst_video_encoder_finish_frame
    simp [ht, hg]
  unfold poll_finish
  split
  · unfold poll_drop
    refine ⟨rfl, fun _ => rfl, rfl, rfl, rfl, rfl, rfl, herase _ _ hp rfl, ⟨none, rfl⟩⟩
  · have hq := quietk_poll_revert_keyframe s f e.ctl
    have hb := bps_poll_revert_keyframe s f e.ctl
    generalize poll_revert_keyframe s f e.ctl = t at hq hb
    have hpt : t.priv_frames = f :: rest := by
      rw [← hp]
      exact congrArg (fun x => x.priv_frames) hq
    have hfin : t.finished = s.finished := congrArg (fun x => x.finished) hq
    have k1 : stable t = stable s := stable_of_quietk hq
    have k3 : t.self.frames = s.self.frames := congrArg (fun x => x.self.frames) hq
    have k4 : t.self.pending_frames = s.self.pending_frames :=
      congrArg (fun x => x.self.pending_frames) hq
    have k5 : t.self.task_ret = s.self.task_ret := congrArg (fun x => x.self.task_ret) hq
    have k6 : t.task = s.task := congrArg (fun x => x.task) hq
    have k7 : t.mpp.inflight = s.mpp.inflight := congrArg (fun x => x.mpp.inflight) hq
    simp only []
    split
    · unfold poll_drop
      refine ⟨k1, hb, k3, k4, k5, k6, k7, herase _ _ hpt rfl, ⟨none, ?_⟩⟩
      simp [gst_video_encoder_finish_frame, hfin]
    · rename_i buffer _
      refine ⟨k1, hb, k3, k4, k5, k6, k7, herase _ _ hpt rfl, ⟨some buffer, ?_⟩⟩
      simp [gst_video_encoder_finish_frame, hfin]

/-- What one call of `gst_mpp_enc_poll_packet_locked` does to the counters and
queues. -/
theorem poll_packet_locked_queues (s s1 : Encoder) (e : PollEnv) (b : Bool)
    (h : gst_mpp_enc_poll_packet_locked s e = some (b, s1)) :
    stable s1 = stable s ∧
    (s.self.bps ≠ 0 → s1.self.bps = s.self.bps) ∧
    s1.self.frames = s.self.frames ∧
    s1.self.task_ret = s.self.task_ret ∧ s1.task = s.task ∧
    (b = false → s1 = s) ∧
    (b = true → ∃ f rest out, s.priv_frames = f :: rest ∧ s1.priv_frames = rest ∧
      s1.finished = s.finished ++ [(f.system_frame_number, out)] ∧
      s1.self.pending_frames = wrap_u32 ((s.self.pending_frames : Int) - 1) ∧
      s1.mpp.inflight.length + 1 = s.mpp.inflight.length) := by
  unfold gst_mpp_enc_poll_packet_locked at h
  split at h
  · cases h
    simp
  · rename_i pkt src mpp hg
    obtain ⟨_, _, _, _, hlen⟩ := encode_get_packet_some _ _ _ _ _ hg
    split at h
    · cases h
    · rename_i f hf
      simp only [Option.some.injEq, Prod.mk.injEq] at h
      obtain ⟨hb, hs⟩ := h
      subst hb
      subst hs
      have hpf : (poll_take_packet s mpp).priv_frames = s.priv_frames := rfl
      unfold gst_video_encoder_get_oldest_frame at hf
      rw [hpf] at hf
      cases hp : s.priv_frames with
      | nil => simp [hp] at hf
      | cons g rest =>
        rw [hp] at hf
        simp only [List.head?_cons, Option.some.injEq] at hf
        subst hf
        obtain ⟨k1, k2, k3, k4, k5, k6, k7, k8, out, k9⟩ :=
          poll_finish_queues (poll_take_packet s mpp) g rest pkt src e (hpf.trans hp)
        refine ⟨k1, k2, k3, k5, k6, ?_, ?_⟩
        · intro h; cases h
        · intro _
          refine ⟨g, rest, out, rfl, k8, k9, k4, ?_⟩
          rw [k7]
          exact hlen

theorem WorkerProgress.refl (s : Encoder) : WorkerProgress s s [] :=
  { stable_eq := rfl
    bps_eq := fun _ => rfl
    finished_eq := by simp
    priv_eq := by simp
    fifo_eq := fun _ => rfl
    outstanding_eq := by simp
    pending_eq := fun _ _ => by simp }

theorem WorkerProgress.trans {s s1 s2 : Encoder} {d1 d2 : List (Nat × Option GstBuffer)}
    (h1 : WorkerProgress s s1 d1) (h2 : WorkerProgress s1 s2 d2) :
    WorkerProgress s s2 (d1 ++ d2) := by
  have ho1 := h1.outstanding_eq
  have ho2 := h2.outstanding_eq
  refine
    { stable_eq := h2.stable_eq.trans h1.stable_eq
      bps_eq := ?_
      finished_eq := by rw [h2.finished_eq, h1.finished_eq, List.append_assoc]
      priv_eq := by rw [h1.priv_eq, h2.priv_eq]; simp
      fifo_eq := ?_
      outstanding_eq := by simp only [List.length_append]; omega
      pending_eq := ?_ }
  · intro hb
    have := h1.bps_eq hb
    rw [h2.bps_eq (by rw [this]; exact hb), this]
  · intro hl
    simp only [List.length_append] at hl
    rw [h2.fifo_eq (by omega), h1.fifo_eq (by omega)]
  · intro hle hlt
    have hp1 := h1.pending_eq hle hlt
    have hp2 := h2.pending_eq (by omega) (by omega)
    simp only [List.length_append]
    omega

theorem wrap_u32_pred (p : Nat) (h0 : 0 < p) (h : p < 4294967296) :
    wrap_u32 ((p : Int) - 1) = p - 1 := by
  unfold wrap_u32
  have h1 : ((p : Int) - 1) % 4294967296 = (p : Int) - 1 :=
    Int.emod_eq_of_lt (by omega) (by omega)
  rw [h1]
  omega

theorem wrap_u32_succ (p : Nat) (h : p + 1 < 4294967296) :
    wrap_u32 ((p : Int) + 1) = p + 1 := by
  unfold wrap_u32
  have h1 : ((p : Int) + 1) % 4294967296 = (p : Int) + 1 :=
    Int.emod_eq_of_lt (by omega) (by omega)
  rw [h1]
  omega

theorem send_frame_locked_progress (s s1 : Encoder) (e : SendEnv) (b : Bool)
    (h : gst_mpp_enc_send_frame_locked s e = some (b, s1)) : WorkerProgress s s1 [] := by
  obtain ⟨k1, k2, k3, _, _, k6, k7, k8, k9⟩ := send_frame_locked_queues s s1 e b h
  have hq : s1.mpp.inflight ++ s1.self.frames = s.mpp.inflight ++ s.self.frames := by
    cases b
    · obtain ⟨a, c⟩ := k8 rfl
      rw [a, c]
    · obtain ⟨n, rest, a, c, d⟩ := k9 rfl
      rw [a, c, d]
      simp
  have ho : outstanding s1 = outstanding s := by
    have := congrArg List.length hq
    simp only [List.length_append] at this
    unfold outstanding
    omega
  exact
    { stable_eq := k1
      bps_eq := k2
      finished_eq := by simp [k7]
      priv_eq := by simp [priv_numbers, k6]
      fifo_eq := fun _ => hq
      outstanding_eq := by simp [ho]
      pending_eq := fun _ _ => by simp [k3] }

theorem poll_packet_locked_progress (s s1 : Encoder) (e : PollEnv)
    (h : gst_mpp_enc_poll_packet_locked s e = some (true, s1)) :
    ∃ n out, WorkerProgress s s1 [(n, out)] ∧ priv_numbers s = n :: priv_numbers s1 := by
  obtain ⟨k1, k2, k3, _, _, _, k7⟩ := poll_packet_locked_queues s s1 e true h
  obtain ⟨f, rest, out, a, c, d, p, l⟩ := k7 rfl
  refine ⟨f.system_frame_number, out, ?_, by simp [priv_numbers, a, c]⟩
  exact
    { stable_eq := k1
      bps_eq := k2
      finished_eq := d
      priv_eq := by simp [priv_numbers, a, c]
      fifo_eq := fun hl => by simp at hl
      outstanding_eq := by
        unfold outstanding
        rw [k3]
        simp only [List.length_singleton]
        omega
      pending_eq := by
        intro hle hlt
        have hpos : 0 < s.self.pending_frames := by
          unfold outstanding at hle
          omega
        rw [p, wrap_u32_pred _ hpos hlt]
        simp only [List.length_singleton]
        omega }

theorem send_frames_progress (e : Nat → SendEnv) (fuel : Nat) :
    ∀ (i : Nat) (s s1 : Encoder), send_frames e fuel i s = some s1 →
      WorkerProgress s s1 [] ∧ s1.self.task_ret = s.self.task_ret ∧ s1.task = s.task := by
  induction fuel with
  | zero =>
    intro i s s1 h
    simp [send_frames] at h
  | succ fuel ih =>
    intro i s s1 h
    rw [send_frames] at h
    split at h
    · cases h
    · rename_i t hs
      obtain ⟨p, q, r⟩ := ih _ _ _ h
      obtain ⟨_, _, _, k4, k5, _⟩ := send_frame_locked_queues s t (e i) true hs
      have := (send_frame_locked_progress s t (e i) true hs).trans p
      exact ⟨by simpa using this, q.trans k4, r.trans k5⟩
    · rename_i t hs
      cases h
      obtain ⟨_, _, _, k4, k5, _⟩ := send_frame_locked_queues s s1 (e i) false hs
      exact ⟨send_frame_locked_progress s s1 (e i) false hs, k4, k5⟩

theorem poll_packets_progress (e : Nat → PollEnv) (fuel : Nat) :
    ∀ (i : Nat) (s s1 : Encoder), poll_packets e fuel i s = some s1 →
      ∃ done, WorkerProgress s s1 done ∧ s1.self.task_ret = s.self.task_ret ∧
        s1.task = s.task ∧ s1.self.frames = s.self.frames := by
  induction fuel with
  | zero =>
    intro i s s1 h
    simp [poll_packets] at h
  | succ fuel ih =>
    intro i s s1 h
    rw [poll_packets] at h
    split at h
    · cases h
    · rename_i t hs
      obtain ⟨done, p, q, r, u⟩ := ih _ _ _ h
      obtain ⟨_, _, k3, k4, k5, _⟩ := poll_packet_locked_queues s t (e i) true hs
      obtain ⟨n, out, hw, _⟩ := poll_packet_locked_progress s t (e i) hs
      exact ⟨(n, out) :: done, by simpa using hw.trans p, q.trans k4, r.trans k5,
        u.trans k3⟩
    · rename_i t hs
      cases h
      obtain ⟨_, _, _, _, _, k6, _⟩ := poll_packet_locked_queues s s1 (e i) false hs
      have := k6 rfl
      subst this
      exact ⟨[], WorkerProgress.refl _, rfl, rfl, rfl⟩

/-- One iteration of the worker: either it only sets the terminal status
(it saw `flushing` with nothing pending), or it sends and polls and leaves the
status alone. -/
theorem loop_progress (s s1 : Encoder) (e : LoopEnv) (h : gst_mpp_enc_loop s e = some s1) :
    (s.self.flushing = true ∧ s.self.pending_frames = 0 ∧
      s1 = { s with
        self.task_ret := GstFlowReturn.GST_FLOW_FLUSHING
        task := GstTaskState.GST_TASK_PAUSED }) ∨
    (¬ (s.self.flushing = true ∧ s.self.pending_frames = 0) ∧
      s1.self.task_ret = s.self.task_ret ∧
      (s.self.task_ret = GstFlowReturn.GST_FLOW_OK → s1.task = s.task) ∧
      ∃ done, WorkerProgress s s1 done) := by
  unfold gst_mpp_enc_loop at h
  split at h
  · cases h
  · by_cases hc : s.self.flushing = true ∧ s.self.pending_frames = 0
    · left
      obtain ⟨hf, hp⟩ := hc
      have hc1 : (s.self.flushing && s.self.pending_frames == 0) = true := by simp [hf, hp]
      rw [if_pos hc1] at h
      simp only [ne_eq, reduceCtorEq, not_false_eq_true, if_true, Option.some.injEq] at h
      exact ⟨hf, hp, h.symm⟩
    · right
      refine ⟨hc, ?_⟩
      have hc2 : (s.self.flushing && s.self.pending_frames == 0) = false := by
        cases hf : s.self.flushing
        · simp
        · simp only [Bool.true_and, beq_eq_false_iff_ne, ne_eq]
          intro hp
          exact hc ⟨hf, hp⟩
      simp only [hc2, Bool.false_eq_true, if_false] at h
      split at h
      · cases h
      · rename_i r s2 hr
        split at hr
        · cases hr
        · rename_i t hs
          obtain ⟨p1, q1, r1⟩ := send_frames_progress _ _ _ _ _ hs
          obtain ⟨done, p2, q2, r2, _⟩ := poll_packets_progress _ _ _ _ _ hr
          have hp : WorkerProgress s s2 done := by simpa using p1.trans p2
          have hret : s2.self.task_ret = s.self.task_ret := q2.trans q1
          have htask : s2.task = s.task := r2.trans r1
          split at h
          · rename_i hne
            cases h
            refine ⟨hret, ?_, done, ?_⟩
            · intro hok
              rw [hret] at hne
              exact absurd hok hne
            · exact
                { stable_eq := hp.stable_eq
                  bps_eq := hp.bps_eq
                  finished_eq := hp.finished_eq
                  priv_eq := hp.priv_eq
                  fifo_eq := hp.fifo_eq
                  outstanding_eq := hp.outstanding_eq
                  pending_eq := hp.pending_eq }
          · cases h
            exact ⟨hret, fun _ => htask, done, hp⟩

theorem loop_worker_progress (s s1 : Encoder) (e : LoopEnv)
    (h : gst_mpp_enc_loop s e = some s1) : ∃ done, WorkerProgress s s1 done := by
  rcases loop_progress s s1 e h with ⟨_, _, hs⟩ | ⟨_, _, _, hd⟩
  · subst hs
    exact ⟨[],
      { stable_eq := rfl
        bps_eq := fun _ => rfl
        finished_eq := by simp
        priv_eq := by simp [priv_numbers]
        fifo_eq := fun _ => rfl
        outstanding_eq := by simp [outstanding]
        pending_eq := fun _ _ => by simp }⟩
  · exact hd

theorem run_worker_progress (w : List LoopEnv) :
    ∀ (s s1 : Encoder), run_worker w s = some s1 → ∃ done, WorkerProgress s s1 done := by
  induction w with
  | nil =>
    intro s s1 h
    simp only [run_worker, Option.some.injEq] at h
    subst h
    exact ⟨[], WorkerProgress.refl _⟩
  | cons e es ih =>
    intro s s1 h
    rw [run_worker] at h
    split at h
    · cases h
    · split at h
      · cases h
      · rename_i t ht
        obtain ⟨d1, p1⟩ := loop_worker_progress s t e ht
        obtain ⟨d2, p2⟩ := ih t s1 h
        exact ⟨d1 ++ d2, p1.trans p2⟩

/-- The wait of `gst_mpp_enc_stop_task` ends with the worker paused; until
then the worker has only made progress. -/
theorem wait_task_paused_progress (w : List LoopEnv) :
    ∀ (s s1 : Encoder), wait_task_paused w s = some s1 →
      s1.task ≠ GstTaskState.GST_TASK_STARTED ∧ ∃ done, WorkerProgress s s1 done := by
  induction w with
  | nil =>
    intro s s1 h
    rw [wait_task_paused] at h
    split at h
    · rename_i hne
      cases h
      exact ⟨hne, [], WorkerProgress.refl _⟩
    · cases h
  | cons e es ih =>
    intro s s1 h
    rw [wait_task_paused] at h
    split at h
    · rename_i hne
      cases h
      exact ⟨hne, [], WorkerProgress.refl _⟩
    · split at h
      · cases h
      · rename_i t ht
        obtain ⟨d1, p1⟩ := loop_worker_progress s t e ht
        obtain ⟨hp, d2, p2⟩ := ih t s1 h
        exact ⟨hp, d1 ++ d2, p1.trans p2⟩

/-- While the element is flushing and the status is still ok, the wait of
`gst_mpp_enc_stop_task` ends only after every outstanding frame has been
finished: as many frames are finished as were pending. -/
theorem wait_task_paused_drains (w : List LoopEnv) :
    ∀ (s s1 : Encoder), wait_task_paused w s = some s1 →
      s.task = GstTaskState.GST_TASK_STARTED →
      s.self.task_ret = GstFlowReturn.GST_FLOW_OK →
      s.self.flushing = true →
      outstanding s = s.self.pending_frames → s.self.pending_frames < 4294967296 →
      ∃ done, WorkerProgress s s1 done ∧ done.length = s.self.pending_frames ∧
        s1.self.pending_frames = 0 ∧
        s1.self.task_ret = GstFlowReturn.GST_FLOW_FLUSHING ∧
        s1.task = GstTaskState.GST_TASK_PAUSED := by
  induction w with
  | nil =>
    intro s s1 h hs _ _ _ _
    rw [wait_task_paused] at h
    split at h
    · rename_i hne
      exact absurd hs hne
    · cases h
  | cons e es ih =>
    intro s s1 h hs hr hf ho hlt
    rw [wait_task_paused] at h
    split at h
    · rename_i hne
      exact absurd hs hne
    · split at h
      · cases h
      · rename_i t ht
        rcases loop_progress s t e ht with ⟨_, hp0, hst⟩ | ⟨_, hret, htask, d1, p1⟩
        · obtain ⟨d, pd⟩ := loop_worker_progress s t e ht
          subst hst
          have hpaused : wait_task_paused es
              { s with
                self.task_ret := GstFlowReturn.GST_FLOW_FLUSHING
                task := GstTaskState.GST_TASK_PAUSED } =
              some { s with
                self.task_ret := GstFlowReturn.GST_FLOW_FLUSHING
                task := GstTaskState.GST_TASK_PAUSED } := by
            cases es <;> simp [wait_task_paused]
          rw [hpaused] at h
          cases h
          refine ⟨[], ?_, by simp [hp0], hp0, rfl, rfl⟩
          exact
            { stable_eq := rfl
              bps_eq := fun _ => rfl
              finished_eq := by simp
              priv_eq := by simp [priv_numbers]
              fifo_eq := fun _ => rfl
              outstanding_eq := by simp [outstanding]
              pending_eq := fun _ _ => by simp }
        · have hpe := p1.pending_eq (by omega) hlt
          have hoe := p1.outstanding_eq
          have hfl : t.self.flushing = true := by
            have := congrArg (fun x => x.self.flushing) p1.stable_eq
            exact this.trans hf
          obtain ⟨d2, p2, hl2, hz, hfr, hpa⟩ :=
            ih t s1 h ((htask hr).trans hs) (hret.trans hr) hfl (by omega) (by omega)
          refine ⟨d1 ++ d2, p1.trans p2, ?_, hz, hfr, hpa⟩
          simp only [List.length_append]
          omega

theorem quietc_of_quiet {s t : Encoder} (h : quiet t = quiet s) : quietc t = quietc s := by
  have := congrArg quietc h
  exact this

theorem quietc_apply_strides (s : Encoder)
    (align : GstVideoInfo → Int → Int → Bool × GstVideoInfo) (hs vs : Int) :
    quietc (gst_mpp_enc_apply_strides s align hs vs).2 = quietc s := by
  unfold gst_mpp_enc_apply_strides
  simp only []
  split <;> rfl

/-- `gst_mpp_enc_convert` writes only the configuration fields. -/
theorem quietc_convert (s t : Encoder) (f : GstVideoCodecFrame) (e : ConvertEnv)
    (r : Option GstBuffer) (h : gst_mpp_enc_convert s f e = some (r, t)) :
    quietc t = quietc s := by
  unfold gst_mpp_enc_convert at h
  split at h
  · cases h
  · simp only [] at h
    repeat' split at h
    all_goals first
      | (cases h; rfl)
      | (simp only [Option.some.injEq, Prod.mk.injEq] at h
         obtain ⟨_, ht⟩ := h
         subst ht
         exact (quietc_of_quiet (quiet_apply_properties _ _)).trans
           (quietc_apply_strides _ _ _ _))

theorem handle_frame_start_task_self (s : Encoder) :
    (handle_frame_start_task s).self = s.self := by
  unfold handle_frame_start_task
  split <;> rfl

theorem handle_frame_start_task_rest (s : Encoder) :
    (handle_frame_start_task s).priv_frames = s.priv_frames ∧
    (handle_frame_start_task s).finished = s.finished ∧
    (handle_frame_start_task s).mpp = s.mpp := by
  unfold handle_frame_start_task
  split <;> exact ⟨rfl, rfl, rfl⟩

theorem handle_frame_wait_room (s : Encoder) (wake : Encoder → Option Encoder)
    (h : s.self.pending_frames < s.self.max_pending) : handle_frame_wait s wake = some s := by
  unfold handle_frame_wait
  rw [if_neg (by omega)]

/-- C8: with flushing false, a successful conversion and room in the queue,
`gst_mpp_enc_handle_frame` returns, appends the number of the frame at the
tail of the pending id list (the entries already there keep their place) and
increments `pending_frames` by exactly one. -/
theorem handle_frame_enqueues_at_tail (s t : Encoder) (frame : GstVideoCodecFrame)
    (e : ConvertEnv) (wake : Encoder → Option Encoder) (buffer : GstBuffer)
    (hflushing : s.self.flushing = false)
    (hconvert : gst_mpp_enc_convert (handle_frame_start_task s) frame e
      = some (some buffer, t))
    (hroom : s.self.pending_frames < s.self.max_pending)
    (hmax : s.self.max_pending < 4294967296) :
    ∃ s1, gst_mpp_enc_handle_frame s frame e wake = some (s1.self.task_ret, s1) ∧
      s1.self.frames = s.self.frames ++ [frame.system_frame_number] ∧
      s1.self.pending_frames = s.self.pending_frames + 1 ∧
      s1.finished = s.finished := by
  have hq := quietc_convert _ _ _ _ _ hconvert
  have hst := handle_frame_start_task_self s
  have hp : t.self.pending_frames = s.self.pending_frames :=
    (congrArg (fun x => x.self.pending_frames) hq).trans
      (congrArg (fun x => x.pending_frames) hst)
  have hm : t.self.max_pending = s.self.max_pending :=
    (congrArg (fun x => x.self.max_pending) hq).trans
      (congrArg (fun x => x.max_pending) hst)
  have hf : t.self.flushing = s.self.flushing :=
    (congrArg (fun x => x.self.flushing) hq).trans (congrArg (fun x => x.flushing) hst)
  have hfr : t.self.frames = s.self.frames :=
    (congrArg (fun x => x.self.frames) hq).trans (congrArg (fun x => x.frames) hst)
  have hfin : t.finished = s.finished :=
    (congrArg (fun x => x.finished) hq).trans (handle_frame_start_task_rest s).2.1
  have hw : handle_frame_wait
      (set_output_buffer t frame.system_frame_number (some buffer)) wake
      = some (set_output_buffer t frame.system_frame_number (some buffer)) := by
    apply handle_frame_wait_room
    show t.self.pending_frames < t.self.max_pending
    omega
  unfold gst_mpp_enc_handle_frame
  rw [if_neg (by simp [hflushing]), hconvert]
  simp only [hw]
  unfold handle_frame_enqueue
  have hf2 : (set_output_buffer t frame.system_frame_number (some buffer)).self.flushing
      = false := by
    show t.self.flushing = false
    rw [hf, hflushing]
  rw [if_neg (by simp [hf2])]
  refine ⟨_, rfl, ?_, ?_, ?_⟩
  · show t.self.frames ++ [frame.system_frame_number] = _
    rw [hfr]
  · show wrap_u32 ((t.self.pending_frames : Int) + 1) = _
    rw [wrap_u32_succ _ (by omega), hp]
  · exact hfin

theorem handle_frame_enqueues_at_tail_witness :
    (demo_encoder.self.flushing = false ∧
      gst_mpp_enc_convert (handle_frame_start_task demo_encoder) (demo_frame 0 false)
        demo_convert = some (some (GstBuffer.sw_copied 0), handle_frame_start_task demo_encoder) ∧
      demo_encoder.self.pending_frames < demo_encoder.self.max_pending ∧
      demo_encoder.self.max_pending < 4294967296) ∧
    (∃ s1, gst_mpp_enc_handle_frame demo_encoder (demo_frame 0 false) demo_convert
        (fun _ => none) = some (s1.self.task_ret, s1) ∧
      s1.self.frames = demo_encoder.self.frames ++ [(demo_frame 0 false).system_frame_number] ∧
      s1.self.pending_frames = demo_encoder.self.pending_frames + 1 ∧
      s1.finished = demo_encoder.finished) :=
  ⟨by decide,
    handle_frame_enqueues_at_tail demo_encoder
      (handle_frame_start_task demo_encoder) (demo_frame 0 false) demo_convert (fun _ => none)
      (GstBuffer.sw_copied 0) (by decide) (by decide) (by decide) (by decide)⟩

/-- C6: a call of `gst_mpp_enc_handle_frame` that does not enqueue returns
`GST_FLOW_FLUSHING` exactly when flushing is set on entry or after the
back-pressure wait, and `GST_FLOW_NOT_NEGOTIATED` exactly when flushing is
clear on entry and the conversion fails; in both cases the frame is finished
once, and the pending id list and `pending_frames` are left as the call last
saw them. -/
theorem handle_frame_not_enqueued (s s1 : Encoder) (frame : GstVideoCodecFrame)
    (e : ConvertEnv) (wake : Encoder → Option Encoder) (ret : GstFlowReturn)
    (h : gst_mpp_enc_handle_frame s frame e wake = some (ret, s1))
    (hdrop : ∀ s2, handle_frame_resumed s frame e wake = some s2 →
      s2.self.flushing = true) :
    (ret = GstFlowReturn.GST_FLOW_FLUSHING ↔
      (s.self.flushing = true ∨ ∃ s2, handle_frame_resumed s frame e wake = some s2 ∧
        s2.self.flushing = true)) ∧
    (ret = GstFlowReturn.GST_FLOW_NOT_NEGOTIATED ↔
      (s.self.flushing = false ∧
        ∃ t, gst_mpp_enc_convert (handle_frame_start_task s) frame e = some (none, t))) ∧
    (∃ out, s1.finished = (handle_frame_last_seen s frame e wake).finished
      ++ [(frame.system_frame_number, out)]) ∧
    s1.self.frames = (handle_frame_last_seen s frame e wake).self.frames ∧
    s1.self.pending_frames = (handle_frame_last_seen s frame e wake).self.pending_frames := by
  unfold handle_frame_last_seen
  unfold handle_frame_resumed at hdrop ⊢
  unfold gst_mpp_enc_handle_frame at h
  cases hfl : s.self.flushing
  · simp only [hfl, Bool.false_eq_true, if_false] at h hdrop ⊢
    cases hc : gst_mpp_enc_convert (handle_frame_start_task s) frame e with
    | none => simp [hc] at h
    | some r =>
      obtain ⟨r1, t⟩ := r
      have hq := quietc_convert _ _ _ _ _ hc
      have hst := handle_frame_start_task_self s
      cases r1 with
      | none =>
        simp only [hc, Option.some.injEq] at h ⊢
        unfold handle_frame_drop at h
        simp only [Prod.mk.injEq] at h
        obtain ⟨hr, hs⟩ := h
        subst hr
        subst hs
        refine ⟨by simp, by simp, ⟨frame.output_buffer, ?_⟩, ?_, ?_⟩
        · have hfin : t.finished = s.finished :=
            (congrArg (fun x => x.finished) hq).trans (handle_frame_start_task_rest s).2.1
          show t.finished ++ _ = _
          rw [hfin]
        · exact (congrArg (fun x => x.self.frames) hq).trans
            (congrArg (fun x => x.frames) hst)
        · exact (congrArg (fun x => x.self.pending_frames) hq).trans
            (congrArg (fun x => x.pending_frames) hst)
      | some buffer =>
        simp only [hc] at h hdrop ⊢
        cases hw : handle_frame_wait
            (set_output_buffer t frame.system_frame_number (some buffer)) wake with
        | none => simp [hw] at h
        | some s2 =>
          simp only [hw, Option.some.injEq] at h hdrop ⊢
          have hf2 : s2.self.flushing = true := hdrop s2 rfl
          unfold handle_frame_enqueue at h
          rw [if_pos hf2] at h
          unfold handle_frame_drop at h
          simp only [Prod.mk.injEq] at h
          obtain ⟨hr, hs⟩ := h
          subst hr
          subst hs
          refine ⟨by simp [hf2], by simp, ⟨some buffer, rfl⟩, rfl, rfl⟩
  · simp only [hfl, if_true, Option.some.injEq] at h hdrop ⊢
    unfold handle_frame_drop at h
    simp only [Prod.mk.injEq] at h
    obtain ⟨hr, hs⟩ := h
    subst hr
    subst hs
    exact ⟨by simp, by simp, ⟨frame.output_buffer, rfl⟩, rfl, rfl⟩

theorem apply_properties_dirty (s : Encoder) (e : ControlEnv)
    (h : s.self.prop_dirty = true) :
    (gst_mpp_enc_apply_properties s e).2.self.mpp_cfg.rc_gop = configured_gop s.self ∧
    (gst_mpp_enc_apply_properties s e).2.mpp.calls.getLast? =
      some (MpiCall.control_set_cfg (gst_mpp_enc_apply_properties s e).2.self.mpp_cfg
        e.cfg_ret) := by
  unfold gst_mpp_enc_apply_properties configured_gop
  simp only [h, Bool.not_true, Bool.false_eq_true, if_false, mpi_call]
  split_ifs <;> simp

theorem poll_revert_keyframe_match (s : Encoder) (frame : GstVideoCodecFrame) (e : ControlEnv)
    (h : frame.system_frame_number = s.self.required_keyframe_number) :
    (poll_revert_keyframe s frame e).self.mpp_cfg.rc_gop = configured_gop s.self ∧
    (poll_revert_keyframe s frame e).self.required_keyframe_number = 0 ∧
    (poll_revert_keyframe s frame e).mpp.calls.getLast? =
      some (MpiCall.control_set_cfg (poll_revert_keyframe s frame e).self.mpp_cfg
        e.cfg_ret) := by
  unfold poll_revert_keyframe
  rw [if_pos h, force_keyframe_false]
  obtain ⟨h1, h2⟩ := apply_properties_dirty { s with self.prop_dirty := true } e rfl
  exact ⟨h1, rfl, h2⟩

theorem send_request_keyframe_calls (s : Encoder) (frame : GstVideoCodecFrame) (n : Nat)
    (e : ControlEnv) :
    ∃ pushed, (send_request_keyframe s frame n e).mpp.calls = s.mpp.calls ++ pushed ∧
      (∀ c ∈ pushed, ∃ cfg ret, c = MpiCall.control_set_cfg cfg ret) ∧
      (frame.force_keyframe = true →
        (send_request_keyframe s frame n e).self.mpp_cfg.rc_gop = 1 ∧
        (send_request_keyframe s frame n e).self.required_keyframe_number = n ∧
        pushed = [MpiCall.control_set_cfg
          (send_request_keyframe s frame n e).self.mpp_cfg e.cfg_ret]) := by
  unfold send_request_keyframe
  cases hk : frame.force_keyframe
  · exact ⟨[], by simp, by simp, by simp⟩
  · simp only [if_true, force_keyframe_true]
    exact ⟨[_], rfl, by simp, fun _ => ⟨rfl, rfl, rfl⟩⟩

theorem send_put_frame_spec (t : Encoder) (frame : GstVideoCodecFrame) (n : Nat)
    (rest : List Nat) (ret : MPP_RET) :
    (send_put_frame t frame n rest ret).1 = decide (ret = 0) ∧
    (send_put_frame t frame n rest ret).2.mpp.calls =
      t.mpp.calls ++ [MpiCall.encode_put_frame n frame.output_buffer ret] ∧
    (send_put_frame t frame n rest ret).2.self.pending_frames = t.self.pending_frames ∧
    (send_put_frame t frame n rest ret).2.self.mpp_cfg = t.self.mpp_cfg ∧
    (send_put_frame t frame n rest ret).2.self.required_keyframe_number
      = t.self.required_keyframe_number ∧
    (ret ≠ 0 → (send_put_frame t frame n rest ret).2.self.frames = t.self.frames ∧
      (send_put_frame t frame n rest ret).2.mpp.inflight = t.mpp.inflight) ∧
    (ret = 0 → (send_put_frame t frame n rest ret).2.self.frames = rest ∧
      (send_put_frame t frame n rest ret).2.mpp.inflight = t.mpp.inflight ++ [n]) := by
  unfold send_put_frame
  by_cases hp : ret = 0 <;> simp [hp, mpi_call]

theorem send_frame_locked_eq (s : Encoder) (e : SendEnv) (n : Nat) (rest : List Nat)
    (frame : GstVideoCodecFrame) (hfr : s.self.frames = n :: rest)
    (hinit : e.frame_init_ret = 0) (hframe : gst_video_encoder_get_frame s n = some frame) :
    gst_mpp_enc_send_frame_locked s e =
      some (send_put_frame (send_request_keyframe s frame n e.ctl) frame n rest
        e.put_frame_ret) := by
  unfold gst_mpp_enc_send_frame_locked
  split
  · rename_i hf
    rw [hfr] at hf
    cases hf
  · rename_i m r hf
    rw [hfr] at hf
    cases hf
    rw [if_neg (by simp [hinit]), hframe]

theorem send_frame_locked_nil (s : Encoder) (e : SendEnv) (h : s.self.frames = []) :
    gst_mpp_enc_send_frame_locked s e = some (false, s) := by
  unfold gst_mpp_enc_send_frame_locked
  split
  · rfl
  · rename_i hf
    rw [h] at hf
    cases hf

theorem send_frame_locked_init_fails (s : Encoder) (e : SendEnv)
    (h : e.frame_init_ret ≠ 0) : gst_mpp_enc_send_frame_locked s e = some (false, s) := by
  unfold gst_mpp_enc_send_frame_locked
  split
  · rfl
  · rw [if_pos h]

theorem send_frame_locked_submits (s : Encoder) (e : SendEnv) (n : Nat) (rest : List Nat)
    (frame : GstVideoCodecFrame) (hfr : s.self.frames = n :: rest)
    (hinit : e.frame_init_ret = 0)
    (hframe : gst_video_encoder_get_frame s n = some frame) :
    ∃ s1 pushed,
      gst_mpp_enc_send_frame_locked s e = some (decide (e.put_frame_ret = 0), s1) ∧
      s1.mpp.calls = s.mpp.calls ++ pushed ++
        [MpiCall.encode_put_frame n frame.output_buffer e.put_frame_ret] ∧
      (∀ c ∈ pushed, ∃ cfg ret, c = MpiCall.control_set_cfg cfg ret) ∧
      s1.self.pending_frames = s.self.pending_frames ∧
      (e.put_frame_ret ≠ 0 →
        s1.self.frames = n :: rest ∧ s1.mpp.inflight = s.mpp.inflight) ∧
      (e.put_frame_ret = 0 →
        s1.self.frames = rest ∧ s1.mpp.inflight = s.mpp.inflight ++ [n]) := by
  obtain ⟨pushed, hcalls, hpushed, _⟩ := send_request_keyframe_calls s frame n e.ctl
  have hq := quietk_send_request_keyframe s frame n e.ctl
  have h := send_frame_locked_eq s e n rest frame hfr hinit hframe
  generalize send_request_keyframe s frame n e.ctl = t at h hq hcalls
  have k3 : t.self.pending_frames = s.self.pending_frames :=
    congrArg (fun x => x.self.pending_frames) hq
  have k8 : t.self.frames = s.self.frames := congrArg (fun x => x.self.frames) hq
  have k9 : t.mpp.inflight = s.mpp.inflight := congrArg (fun x => x.mpp.inflight) hq
  obtain ⟨p1, p2, p3, _, _, p6, p7⟩ := send_put_frame_spec t frame n rest e.put_frame_ret
  refine ⟨(send_put_frame t frame n rest e.put_frame_ret).2, pushed, ?_, ?_, hpushed,
    p3.trans k3, ?_, ?_⟩
  · rw [h, ← p1]
  · rw [p2, hcalls]
  · intro hp
    obtain ⟨a, b⟩ := p6 hp
    exact ⟨by rw [a, k8, hfr], b.trans k9⟩
  · intro hp
    obtain ⟨a, b⟩ := p7 hp
    exact ⟨a, by rw [b, k9]⟩

/-- C9 (amended): on an empty pending id list, or when `mpp_frame_init` fails,
`gst_mpp_enc_send_frame_locked` returns FALSE without any submit and changes
nothing; otherwise (the base class holding the frame of the head id) it
submits the head id, and only that one: when `encode_put_frame` fails it
returns FALSE and leaves the pending id list, the hardware queue and
`pending_frames` unchanged; when it succeeds it returns TRUE and removes
exactly the head from the pending id list, keeping the rest in order. -/
theorem send_frame_locked_head :
    (∀ (s : Encoder) (e : SendEnv), s.self.frames = [] →
      gst_mpp_enc_send_frame_locked s e = some (false, s)) ∧
    (∀ (s : Encoder) (e : SendEnv), e.frame_init_ret ≠ 0 →
      gst_mpp_enc_send_frame_locked s e = some (false, s)) ∧
    (∀ (s : Encoder) (e : SendEnv) (n : Nat) (rest : List Nat) (frame : GstVideoCodecFrame),
      s.self.frames = n :: rest → e.frame_init_ret = 0 →
      gst_video_encoder_get_frame s n = some frame →
      ∃ s1 pushed,
        gst_mpp_enc_send_frame_locked s e = some (decide (e.put_frame_ret = 0), s1) ∧
        s1.mpp.calls = s.mpp.calls ++ pushed ++
          [MpiCall.encode_put_frame n frame.output_buffer e.put_frame_ret] ∧
        (∀ c ∈ pushed, ∃ cfg ret, c = MpiCall.control_set_cfg cfg ret) ∧
        s1.self.pending_frames = s.self.pending_frames ∧
        (e.put_frame_ret ≠ 0 →
          s1.self.frames = n :: rest ∧ s1.mpp.inflight = s.mpp.inflight) ∧
        (e.put_frame_ret = 0 →
          s1.self.frames = rest ∧ s1.mpp.inflight = s.mpp.inflight ++ [n])) :=
  ⟨send_frame_locked_nil, fun s e h => send_frame_locked_init_fails s e h,
    send_frame_locked_submits⟩

/-- The bound given to `send_frames` in `gst_mpp_enc_loop` is never reached:
any larger bound gives the same result. -/
theorem send_frames_fuel (e : Nat → SendEnv) (fuel : Nat) :
    ∀ (i : Nat) (s : Encoder), s.self.frames.length < fuel →
      send_frames e fuel i s = send_frames e (s.self.frames.length + 1) i s := by
  induction fuel with
  | zero =>
    intro i s h
    omega
  | succ k ih =>
    intro i s h
    rw [send_frames, send_frames]
    cases hs : gst_mpp_enc_send_frame_locked s (e i) with
    | none => rfl
    | some r =>
      obtain ⟨b, s1⟩ := r
      cases b
      · rfl
      · obtain ⟨_, _, _, _, _, _, _, _, k9⟩ := send_frame_locked_queues s s1 (e i) true hs
        obtain ⟨n, rest, a, c, _⟩ := k9 rfl
        have hl : s.self.frames.length = s1.self.frames.length + 1 := by
          rw [a, c]
          rfl
        simp only []
        rw [ih (i + 1) s1 (by omega), hl]

/-- The bound given to `poll_packets` in `gst_mpp_enc_loop` is never reached:
any larger bound gives the same result. -/
theorem poll_packets_fuel (e : Nat → PollEnv) (fuel : Nat) :
    ∀ (i : Nat) (s : Encoder), s.mpp.inflight.length < fuel →
      poll_packets e fuel i s = poll_packets e (s.mpp.inflight.length + 1) i s := by
  induction fuel with
  | zero =>
    intro i s h
    omega
  | succ k ih =>
    intro i s h
    rw [poll_packets, poll_packets]
    cases hs : gst_mpp_enc_poll_packet_locked s (e i) with
    | none => rfl
    | some r =>
      obtain ⟨b, s1⟩ := r
      cases b
      · rfl
      · obtain ⟨_, _, _, _, _, _, k7⟩ := poll_packet_locked_queues s s1 (e i) true hs
        obtain ⟨_, _, _, _, _, _, _, hl⟩ := k7 rfl
        simp only []
        rw [ih (i + 1) s1 (by omega), ← hl]

/-- The send loop of the worker returns whenever the base class holds a frame
for every pending id. -/
theorem send_frames_returns (e : Nat → SendEnv) (l : Nat) :
    ∀ (i : Nat) (s : Encoder), s.self.frames.length = l →
      (∀ n ∈ s.self.frames, ∃ f, gst_video_encoder_get_frame s n = some f) →
      ∃ s1, send_frames e (l + 1) i s = some s1 := by
  induction l with
  | zero =>
    intro i s hl _
    have hnil : s.self.frames = [] := List.length_eq_zero.mp hl
    rw [send_frames, send_frame_locked_nil s (e i) hnil]
    exact ⟨s, rfl⟩
  | succ k ih =>
    intro i s hl hall
    cases hf : s.self.frames with
    | nil =>
      rw [hf] at hl
      cases hl
    | cons m rest =>
      rw [send_frames]
      by_cases hinit : (e i).frame_init_ret = 0
      · obtain ⟨f, hg⟩ := hall m (by rw [hf]; exact List.mem_cons_self _ _)
        obtain ⟨s1, _, hs, _, _, _, _, hok⟩ :=
          send_frame_locked_submits s (e i) m rest f hf hinit hg
        rw [hs]
        by_cases hp : (e i).put_frame_ret = 0
        · simp only [hp, decide_True]
          obtain ⟨hfr, _⟩ := hok hp
          obtain ⟨_, _, _, _, _, k6, _⟩ := send_frame_locked_queues s s1 (e i) _ hs
          apply ih (i + 1) s1
          · rw [hfr]
            rw [hf] at hl
            simpa using hl
          · intro n hn
            have hmem : n ∈ s.self.frames := by
              rw [hf]
              rw [hfr] at hn
              exact List.mem_cons_of_mem _ hn
            obtain ⟨g, hg2⟩ := hall n hmem
            refine ⟨g, ?_⟩
            unfold gst_video_encoder_get_frame at hg2 ⊢
            rw [k6]
            exact hg2
        · simp only [hp, decide_False]
          exact ⟨s1, rfl⟩
      · rw [send_frame_locked_init_fails s (e i) hinit]
        exact ⟨s, rfl⟩

/-- The poll loop of the worker returns whenever the base class holds at
least as many frames as the hardware. -/
theorem poll_packets_returns (e : Nat → PollEnv) (l : Nat) :
    ∀ (i : Nat) (s : Encoder), s.mpp.inflight.length = l →
      l ≤ s.priv_frames.length → ∃ s1, poll_packets e (l + 1) i s = some s1 := by
  induction l with
  | zero =>
    intro i s hl _
    rw [poll_packets]
    have hnone : encode_get_packet s.mpp (e i).packet = none := by
      unfold encode_get_packet
      split
      · rfl
      · rw [List.getElem?_eq_none (by omega)]
    have : gst_mpp_enc_poll_packet_locked s (e i) = some (false, s) := by
      unfold gst_mpp_enc_poll_packet_locked
      rw [hnone]
    rw [this]
    exact ⟨s, rfl⟩
  | succ k ih =>
    intro i s hl hle
    rw [poll_packets]
    cases hg : encode_get_packet s.mpp (e i).packet with
    | none =>
      have : gst_mpp_enc_poll_packet_locked s (e i) = some (false, s) := by
        unfold gst_mpp_enc_poll_packet_locked
        rw [hg]
      rw [this]
      exact ⟨s, rfl⟩
    | some r =>
      obtain ⟨pkt, src, mpp⟩ := r
      cases hp : s.priv_frames with
      | nil =>
        rw [hp] at hle
        simp at hle
      | cons f rest =>
        have hpoll : gst_mpp_enc_poll_packet_locked s (e i) =
            some (true, poll_finish (poll_take_packet s mpp) f pkt src (e i)) := by
          unfold gst_mpp_enc_poll_packet_locked
          rw [hg]
          simp only []
          have : gst_video_encoder_get_oldest_frame (poll_take_packet s mpp) = some f := by
            show s.priv_frames.head? = some f
            rw [hp]
            rfl
          rw [this]
        rw [hpoll]
        obtain ⟨_, _, _, _, _, _, k7⟩ := poll_packet_locked_queues s _ (e i) true hpoll
        obtain ⟨g, rest2, _, a, c, _, _, hlen⟩ := k7 rfl
        simp only []
        apply ih
        · omega
        · rw [c]
          rw [a] at hle
          simp only [List.length_cons] at hle
          omega

/-- C10 (amended): when `gst_mpp_enc_send_frame_locked` handles a frame K
flagged force-keyframe it sets rc:gop to 1, pushes it and records K in
`required_keyframe_number`; when `gst_mpp_enc_poll_packet_locked` matches a
packet to frame K while `required_keyframe_number` still holds K (and not in
the discard branch), it sets rc:gop back to the configured GOP, pushes that
configuration as its last hardware call and clears `required_keyframe_number`
to 0. -/
theorem keyframe_request_and_revert :
    (∀ (s : Encoder) (e : SendEnv) (n : Nat) (rest : List Nat) (frame : GstVideoCodecFrame),
      s.self.frames = n :: rest → e.frame_init_ret = 0 →
      gst_video_encoder_get_frame s n = some frame → frame.force_keyframe = true →
      ∃ s1 pushed cfg, gst_mpp_enc_send_frame_locked s e
          = some (decide (e.put_frame_ret = 0), s1) ∧
        s1.self.mpp_cfg.rc_gop = 1 ∧ s1.self.required_keyframe_number = n ∧
        cfg.rc_gop = 1 ∧
        s1.mpp.calls = s.mpp.calls ++ [MpiCall.control_set_cfg cfg e.ctl.cfg_ret] ++ pushed) ∧
    (∀ (s : Encoder) (e : PollEnv) (pkt : MppPacket) (src : Nat) (mpp : MppCtx)
      (frame : GstVideoCodecFrame) (rest : List GstVideoCodecFrame),
      encode_get_packet s.mpp e.packet = some (pkt, src, mpp) →
      s.priv_frames = frame :: rest →
      frame.system_frame_number = s.self.required_keyframe_number →
      ¬ (s.self.flushing = true ∧ s.self.draining = false) →
      ∃ s1, gst_mpp_enc_poll_packet_locked s e = some (true, s1) ∧
        s1.self.mpp_cfg.rc_gop = configured_gop s.self ∧
        s1.self.required_keyframe_number = 0 ∧
        s1.mpp.calls.getLast? = some (MpiCall.control_set_cfg s1.self.mpp_cfg e.ctl.cfg_ret)) := by
  refine ⟨?_, ?_⟩
  · intro s e n rest frame hfr hinit hframe hkey
    obtain ⟨pushed, hcalls, _, hk⟩ := send_request_keyframe_calls s frame n e.ctl
    obtain ⟨hgop, hreq, hpushed⟩ := hk hkey
    have h := send_frame_locked_eq s e n rest frame hfr hinit hframe
    subst hpushed
    generalize send_request_keyframe s frame n e.ctl = t at h hcalls hgop hreq
    obtain ⟨p1, p2, _, p4, p5, _, _⟩ := send_put_frame_spec t frame n rest e.put_frame_ret
    refine ⟨(send_put_frame t frame n rest e.put_frame_ret).2,
      [MpiCall.encode_put_frame n frame.output_buffer e.put_frame_ret],
      t.self.mpp_cfg, ?_, ?_, ?_, hgop, ?_⟩
    · rw [h, ← p1]
    · rw [p4, hgop]
    · rw [p5, hreq]
    · rw [p2, hcalls]
  · intro s e pkt src mpp frame rest hget hpriv hnum hdisc
    obtain ⟨_, _, hcalls, _, _⟩ := encode_get_packet_some _ _ _ _ _ hget
    have hnd : ((poll_take_packet s mpp).self.flushing &&
        !(poll_take_packet s mpp).self.draining) = false := by
      show (s.self.flushing && !s.self.draining) = false
      cases hf : s.self.flushing <;> cases hd : s.self.draining <;> simp_all
    have hnum1 : frame.system_frame_number
        = (poll_take_packet s mpp).self.required_keyframe_number := hnum
    obtain ⟨h1, h2, h3⟩ := poll_revert_keyframe_match (poll_take_packet s mpp) frame e.ctl hnum1
    have h : gst_mpp_enc_poll_packet_locked s e =
        some (true, poll_finish (poll_take_packet s mpp) frame pkt src e) := by
      unfold gst_mpp_enc_poll_packet_locked
      rw [hget]
      simp only []
      have : gst_video_encoder_get_oldest_frame (poll_take_packet s mpp) = some frame := by
        show s.priv_frames.head? = some frame
        rw [hpriv]
        rfl
      rw [this]
    refine ⟨_, h, ?_, ?_, ?_⟩
    all_goals
      unfold poll_finish
      rw [if_neg (by simp [hnd])]
      simp only []
      generalize poll_revert_keyframe (poll_take_packet s mpp) frame e.ctl = t at h1 h2 h3
      split
    · exact h1
    · exact h1
    · exact h2
    · exact h2
    · exact h3
    · exact h3

theorem set_property_session (self : GstMppEnc) (p : Property) :
    (gst_mpp_enc_set_property self p).pending_frames = self.pending_frames ∧
    (gst_mpp_enc_set_property self p).frames = self.frames ∧
    (gst_mpp_enc_set_property self p).flushing = self.flushing ∧
    (gst_mpp_enc_set_property self p).task_ret = self.task_ret ∧
    (∀ v, p = Property.PROP_MAX_PENDING v →
      (gst_mpp_enc_set_property self p).max_pending = v) ∧
    ((∀ v, p ≠ Property.PROP_MAX_PENDING v) →
      (gst_mpp_enc_set_property self p).max_pending = self.max_pending) := by
  cases p <;> simp only [gst_mpp_enc_set_property] <;> (try split_ifs) <;> simp

theorem loop_step_inv (s s1 : Encoder) (e : LoopEnv) (hi : SessionInv s)
    (ht : s.task = GstTaskState.GST_TASK_STARTED) (h : gst_mpp_enc_loop s e = some s1) :
    SessionInv s1 ∧ s1.task = s.task ∧ s1.self.flushing = s.self.flushing ∧
      s1.self.max_pending = s.self.max_pending ∧
      s1.self.pending_frames ≤ s.self.pending_frames := by
  have hnf : ¬ s.self.flushing = true := fun hf => hi.flushing_idle hf ht
  rcases loop_progress s s1 e h with ⟨hf, _, _⟩ | ⟨_, hret, htask, done, p⟩
  · exact absurd hf hnf
  · have hpe := p.pending_eq (by rw [hi.outstanding_eq]) hi.pending_lt
    have hoe := p.outstanding_eq
    have hfl : s1.self.flushing = s.self.flushing :=
      congrArg (fun x => x.self.flushing) p.stable_eq
    have hmax : s1.self.max_pending = s.self.max_pending :=
      congrArg (fun x => x.self.max_pending) p.stable_eq
    have htk := htask hi.task_ret_ok
    have ho := hi.outstanding_eq
    have hl := hi.pending_lt
    refine ⟨?_, htk, hfl, hmax, by omega⟩
    exact
      { outstanding_eq := by omega
        pending_lt := by omega
        max_lt := by rw [hmax]; exact hi.max_lt
        task_ret_ok := hret.trans hi.task_ret_ok
        flushing_idle := by
          intro hf
          rw [hfl] at hf
          exact absurd hf hnf
        idle_empty := by
          intro hne
          rw [htk] at hne
          exact absurd ht hne }

theorem valid_max_pending (v : Nat) (h : (Property.PROP_MAX_PENDING v).valid = true) :
    v < 4294967296 := by
  simp only [Property.valid, decide_eq_true_eq] at h
  omega

theorem env_step_inv (allowed : Encoder → Property → Prop) (s s1 : Encoder)
    (hi : SessionInv s) (h : EnvStep allowed s s1) :
    SessionInv s1 ∧ s1.task = s.task ∧ s1.self.flushing = s.self.flushing ∧
      ((∀ t p, allowed t p → max_pending_not_below t p) →
        s.self.pending_frames ≤ s.self.max_pending →
        s1.self.pending_frames ≤ s1.self.max_pending) := by
  cases h with
  | loop _ e ht hl =>
    obtain ⟨a, b, c, d, f⟩ := loop_step_inv s s1 e hi ht hl
    exact ⟨a, b, c, fun _ hb => by omega⟩
  | set_property p hv ha =>
    obtain ⟨k1, k2, k3, k4, k5, k6⟩ := set_property_session s.self p
    have hmax : (gst_mpp_enc_set_property s.self p).max_pending < 4294967296 := by
      by_cases hp : ∃ v, p = Property.PROP_MAX_PENDING v
      · obtain ⟨v, hp⟩ := hp
        rw [k5 v hp]
        subst hp
        exact valid_max_pending v hv
      · rw [k6 (fun v hv2 => hp ⟨v, hv2⟩)]
        exact hi.max_lt
    refine ⟨?_, rfl, k3, ?_⟩
    · exact
        { outstanding_eq := by
            show (gst_mpp_enc_set_property s.self p).frames.length + s.mpp.inflight.length
              = (gst_mpp_enc_set_property s.self p).pending_frames
            rw [k1, k2]
            exact hi.outstanding_eq
          pending_lt := by
            show (gst_mpp_enc_set_property s.self p).pending_frames < _
            rw [k1]
            exact hi.pending_lt
          max_lt := hmax
          task_ret_ok := k4.trans hi.task_ret_ok
          flushing_idle := by
            intro hf
            exact hi.flushing_idle (k3.symm.trans hf)
          idle_empty := by
            intro hne
            exact k1.trans (hi.idle_empty hne) }
    · intro hall hb
      show (gst_mpp_enc_set_property s.self p).pending_frames
        ≤ (gst_mpp_enc_set_property s.self p).max_pending
      rw [k1]
      by_cases hp : ∃ v, p = Property.PROP_MAX_PENDING v
      · obtain ⟨v, hp⟩ := hp
        rw [k5 v hp]
        exact hall s p ha v hp
      · rw [k6 (fun v hv2 => hp ⟨v, hv2⟩)]
        exact hb

theorem env_steps_inv (allowed : Encoder → Property → Prop) (s s1 : Encoder)
    (hi : SessionInv s) (h : Relation.ReflTransGen (EnvStep allowed) s s1) :
    SessionInv s1 ∧ s1.task = s.task ∧ s1.self.flushing = s.self.flushing ∧
      ((∀ t p, allowed t p → max_pending_not_below t p) →
        s.self.pending_frames ≤ s.self.max_pending →
        s1.self.pending_frames ≤ s1.self.max_pending) := by
  induction h with
  | refl => exact ⟨hi, rfl, rfl, fun _ hb => hb⟩
  | tail _ hstep ih =>
    obtain ⟨a, b, c, d⟩ := ih
    obtain ⟨a1, b1, c1, d1⟩ := env_step_inv allowed _ _ a hstep
    exact ⟨a1, b1.trans b, c1.trans c, fun hall hb => d1 hall (d hall hb)⟩
theorem SessionInv.congr {s t : Encoder} (hi : SessionInv s)
    (h1 : t.self.frames = s.self.frames) (h2 : t.mpp.inflight = s.mpp.inflight)
    (h3 : t.self.pending_frames = s.self.pending_frames)
    (h4 : t.self.max_pending = s.self.max_pending)
    (h5 : t.self.task_ret = s.self.task_ret)
    (h6 : t.self.flushing = s.self.flushing)
    (h7 : t.task = s.task) : SessionInv t :=
  { outstanding_eq := by
      unfold outstanding
      rw [h1, h2, h3]
      exact hi.outstanding_eq
    pending_lt := by rw [h3]; exact hi.pending_lt
    max_lt := by rw [h4]; exact hi.max_lt
    task_ret_ok := h5.trans hi.task_ret_ok
    flushing_idle := by
      intro hf
      rw [h7]
      exact hi.flushing_idle (h6.symm.trans hf)
    idle_empty := by
      intro hne
      rw [h7] at hne
      exact h3.trans (hi.idle_empty hne) }

theorem handle_frame_wait_spec (t s2 : Encoder) (wake : Encoder → Option Encoder)
    (h : handle_frame_wait t wake = some s2) :
    (s2 = t ∨ wake t = some s2) ∧
    (s2.self.pending_frames < s2.self.max_pending ∨ s2.self.flushing = true) := by
  unfold handle_frame_wait at h
  split at h
  · unfold GST_MPP_ENC_WAIT at h
    split at h
    · rename_i hc
      cases h
      refine ⟨Or.inl rfl, ?_⟩
      simpa using hc
    · split at h
      · cases h
      · rename_i s3 hw
        split at h
        · rename_i hc
          cases h
          refine ⟨Or.inr hw, ?_⟩
          simpa using hc
        · cases h
  · rename_i hc
    cases h
    exact ⟨Or.inl rfl, Or.inl (by omega)⟩

theorem handle_frame_inv (allowed : Encoder → Property → Prop) (s s1 : Encoder)
    (frame : GstVideoCodecFrame) (e : ConvertEnv) (wake : Encoder → Option Encoder)
    (ret : GstFlowReturn) (hi : SessionInv s)
    (hw : ∀ t t1, wake t = some t1 → Relation.ReflTransGen (EnvStep allowed) t t1)
    (h : gst_mpp_enc_handle_frame s frame e wake = some (ret, s1)) :
    SessionInv s1 ∧
      ((∀ t p, allowed t p → max_pending_not_below t p) →
        s.self.pending_frames ≤ s.self.max_pending →
        s1.self.pending_frames ≤ s1.self.max_pending) := by
  unfold gst_mpp_enc_handle_frame at h
  split at h
  · cases h
    exact ⟨hi.congr rfl rfl rfl rfl rfl rfl rfl, fun _ hb => hb⟩
  · rename_i hnf
    have hfl : s.self.flushing = false := by simpa using hnf
    have hst := handle_frame_start_task_self s
    have htask : (handle_frame_start_task s).task = GstTaskState.GST_TASK_STARTED := by
      unfold handle_frame_start_task
      split
      · rfl
      · rename_i hne
        simpa using hne
    have hconv : ∀ (r : Option GstBuffer) (t : Encoder),
        gst_mpp_enc_convert (handle_frame_start_task s) frame e = some (r, t) →
        SessionInv t ∧ t.task = GstTaskState.GST_TASK_STARTED ∧ t.self.flushing = false ∧
          t.self.pending_frames = s.self.pending_frames ∧
          t.self.max_pending = s.self.max_pending := by
      intro r t hc
      have hq := quietc_convert _ _ _ _ _ hc
      have k1 : t.self.frames = s.self.frames :=
        (congrArg (fun x => x.self.frames) hq).trans (congrArg (fun x => x.frames) hst)
      have k2 : t.mpp.inflight = s.mpp.inflight :=
        (congrArg (fun x => x.mpp.inflight) hq).trans
          (congrArg (fun x => x.inflight) (handle_frame_start_task_rest s).2.2)
      have k3 : t.self.pending_frames = s.self.pending_frames :=
        (congrArg (fun x => x.self.pending_frames) hq).trans
          (congrArg (fun x => x.pending_frames) hst)
      have k4 : t.self.max_pending = s.self.max_pending :=
        (congrArg (fun x => x.self.max_pending) hq).trans
          (congrArg (fun x => x.max_pending) hst)
      have k5 : t.self.task_ret = s.self.task_ret :=
        (congrArg (fun x => x.self.task_ret) hq).trans (congrArg (fun x => x.task_ret) hst)
      have k6 : t.self.flushing = s.self.flushing :=
        (congrArg (fun x => x.self.flushing) hq).trans (congrArg (fun x => x.flushing) hst)
      have k7 : t.task = GstTaskState.GST_TASK_STARTED :=
        (congrArg (fun x => x.task) hq).trans htask
      refine ⟨?_, k7, k6.trans hfl, k3, k4⟩
      exact
        { outstanding_eq := by
            unfold outstanding
            rw [k1, k2, k3]
            exact hi.outstanding_eq
          pending_lt := by rw [k3]; exact hi.pending_lt
          max_lt := by rw [k4]; exact hi.max_lt
          task_ret_ok := k5.trans hi.task_ret_ok
          flushing_idle := by
            intro hf
            rw [k6, hfl] at hf
            cases hf
          idle_empty := by
            intro hne
            exact absurd k7 hne }
    split at h
    · cases h
    · rename_i t hc
      cases h
      obtain ⟨a, _, _, b, c⟩ := hconv _ _ hc
      exact ⟨a.congr rfl rfl rfl rfl rfl rfl rfl, fun _ hb => by
        show t.self.pending_frames ≤ t.self.max_pending
        omega⟩
    · rename_i buffer t hc
      obtain ⟨a, b, c, d, f⟩ := hconv _ _ hc
      split at h
      · cases h
      · rename_i s2 hwait
        obtain ⟨hfrom, hcond⟩ := handle_frame_wait_spec _ _ _ hwait
        have hpre : SessionInv
            (set_output_buffer t frame.system_frame_number (some buffer)) :=
          a.congr rfl rfl rfl rfl rfl rfl rfl
        have hsteps : Relation.ReflTransGen (EnvStep allowed)
            (set_output_buffer t frame.system_frame_number (some buffer)) s2 := by
          rcases hfrom with h1 | h1
          · rw [h1]
          · exact hw _ _ h1
        obtain ⟨i2, t2, f2, b2⟩ := env_steps_inv allowed _ _ hpre hsteps
        have hf2 : s2.self.flushing = false := f2.trans c
        have ht2 : s2.task = GstTaskState.GST_TASK_STARTED := t2.trans b
        have hroom : s2.self.pending_frames < s2.self.max_pending := by
          rcases hcond with h1 | h1
          · exact h1
          · rw [hf2] at h1
            cases h1
        unfold handle_frame_enqueue at h
        rw [if_neg (by simp [hf2])] at h
        simp only [Option.some.injEq, Prod.mk.injEq] at h
        obtain ⟨_, hs⟩ := h
        subst hs
        have hml := i2.max_lt
        have hwr : wrap_u32 ((s2.self.pending_frames : Int) + 1)
            = s2.self.pending_frames + 1 := wrap_u32_succ _ (by omega)
        refine ⟨?_, fun _ _ => ?_⟩
        · exact
            { outstanding_eq := by
                show (s2.self.frames ++ [frame.system_frame_number]).length
                  + s2.mpp.inflight.length = wrap_u32 ((s2.self.pending_frames : Int) + 1)
                rw [hwr]
                have := i2.outstanding_eq
                unfold outstanding at this
                simp only [List.length_append, List.length_singleton]
                omega
              pending_lt := by
                show wrap_u32 ((s2.self.pending_frames : Int) + 1) < _
                rw [hwr]
                omega
              max_lt := hml
              task_ret_ok := i2.task_ret_ok
              flushing_idle := by
                intro hf
                have : s2.self.flushing = true := hf
                rw [hf2] at this
                cases this
              idle_empty := by
                intro hne
                exact absurd ht2 hne }
        · show wrap_u32 ((s2.self.pending_frames : Int) + 1) ≤ s2.self.max_pending
          rw [hwr]
          omega
/-- `gst_mpp_enc_stop_task` with drain returns with the task not started, the
worker having only made progress in between. -/
theorem stop_task_spec (s t : Encoder) (w : List LoopEnv)
    (h : gst_mpp_enc_stop_task s true w = some t) :
    t.task ≠ GstTaskState.GST_TASK_STARTED ∧
    (s.task ≠ GstTaskState.GST_TASK_STARTED → t = s) ∧
    ∃ done, WorkerProgress s t done := by
  unfold gst_mpp_enc_stop_task at h
  split at h
  · rename_i hne
    cases h
    exact ⟨hne, fun _ => rfl, [], WorkerProgress.refl _⟩
  · rename_i hst
    simp only [Bool.not_true, Bool.false_eq_true, if_false] at h
    split at h
    · cases h
    · rename_i t1 hw
      cases h
      obtain ⟨_, done, p⟩ := wait_task_paused_progress w s t1 hw
      refine ⟨by simp, fun hne => absurd hne hst, done, ?_⟩
      exact
        { stable_eq := p.stable_eq
          bps_eq := p.bps_eq
          finished_eq := p.finished_eq
          priv_eq := p.priv_eq
          fifo_eq := p.fifo_eq
          outstanding_eq := p.outstanding_eq
          pending_eq := p.pending_eq }

theorem reset_eq (s : Encoder) (drain final : Bool) (w : List LoopEnv) :
    gst_mpp_enc_reset s drain final w =
      (gst_mpp_enc_stop_task { s with self.flushing := true, self.draining := true } true w).map
        (fun t => reset_state t final) := by
  unfold gst_mpp_enc_reset
  simp only []
  cases gst_mpp_enc_stop_task _ true w <;> rfl

theorem reset_inv (s s1 : Encoder) (drain final : Bool) (w : List LoopEnv)
    (hi : SessionInv s) (h : gst_mpp_enc_reset s drain final w = some s1) :
    SessionInv s1 ∧ s1.self.pending_frames ≤ s1.self.max_pending := by
  rw [reset_eq] at h
  cases hs : gst_mpp_enc_stop_task
      { s with self.flushing := true, self.draining := true } true w with
  | none => simp [hs] at h
  | some t =>
    simp only [hs, Option.map_some', Option.some.injEq] at h
    subst h
    obtain ⟨hne, _, done, p⟩ := stop_task_spec _ _ _ hs
    have hmax : t.self.max_pending = s.self.max_pending :=
      congrArg (fun x => x.self.max_pending) p.stable_eq
    refine ⟨?_, Nat.zero_le _⟩
    exact
      { outstanding_eq := rfl
        pending_lt := by show (0 : Nat) < _; omega
        max_lt := by
          show t.self.max_pending < _
          rw [hmax]
          exact hi.max_lt
        task_ret_ok := rfl
        flushing_idle := fun _ => hne
        idle_empty := fun _ => rfl }

theorem quietf_apply_strides (s : Encoder)
    (align : GstVideoInfo → Int → Int → Bool × GstVideoInfo) (hs vs : Int) :
    quietf (gst_mpp_enc_apply_strides s align hs vs).2 = quietf s := by
  unfold gst_mpp_enc_apply_strides
  simp only []
  split <;> rfl

theorem quietf_set_format_conversion (s : Encoder) (format : MppFrameFormat)
    (width height : Int) (e : SetFormatEnv) :
    quietf (set_format_conversion s format width height e).2 = quietf s := by
  unfold set_format_conversion
  simp only []
  repeat' split
  all_goals rfl

theorem quietf_set_format_configure (s : Encoder) (format : MppFrameFormat)
    (width height : Int) (e : SetFormatEnv) :
    quietf (set_format_configure s format width height e).2 = quietf s := by
  unfold set_format_configure
  simp only []
  rw [quietf_apply_strides]
  repeat' split
  all_goals rfl

theorem quietf_set_format_apply (s : Encoder) (state : GstVideoCodecState)
    (e : SetFormatEnv) : quietf (set_format_apply s state e).2 = quietf s := by
  unfold set_format_apply
  simp only []
  split
  · rfl
  · split
    · rename_i t hc
      have h1 := congrArg (fun r => quietf r.2) hc
      have h2 := h1.symm.trans (quietf_set_format_conversion _ _ _ _ _)
      exact h2
    · rename_i fmt t hc
      have h1 := congrArg (fun r => quietf r.2) hc
      have h2 := h1.symm.trans (quietf_set_format_conversion _ _ _ _ _)
      rw [quietf_set_format_configure]
      exact h2

theorem SessionInv.of_quietf {s t : Encoder} (hi : SessionInv s) (h : quietf t = quietf s) :
    SessionInv t :=
  hi.congr (congrArg (fun x => x.self.frames) h) (congrArg (fun x => x.mpp.inflight) h)
    (congrArg (fun x => x.self.pending_frames) h) (congrArg (fun x => x.self.max_pending) h)
    (congrArg (fun x => x.self.task_ret) h) (congrArg (fun x => x.self.flushing) h)
    (congrArg (fun x => x.task) h)

theorem set_format_inv (s s1 : Encoder) (state : GstVideoCodecState) (e : SetFormatEnv)
    (ok : Bool) (hi : SessionInv s)
    (h : gst_mpp_enc_set_format s state e = some (ok, s1)) :
    SessionInv s1 ∧ (s.self.pending_frames ≤ s.self.max_pending →
      s1.self.pending_frames ≤ s1.self.max_pending) := by
  unfold gst_mpp_enc_set_format at h
  split at h
  · split at h
    · cases h
      exact ⟨hi, fun hb => hb⟩
    · split at h
      · cases h
      · rename_i t hr
        simp only [Option.some.injEq] at h
        obtain ⟨i1, b1⟩ := reset_inv _ _ _ _ _ hi hr
        have hq := quietf_set_format_apply { t with self.input_state := none } state e
        rw [h] at hq
        have hq2 : quietf s1 = quietf t := hq
        have hp : s1.self.pending_frames = t.self.pending_frames :=
          congrArg (fun x => x.self.pending_frames) hq2
        have hm : s1.self.max_pending = t.self.max_pending :=
          congrArg (fun x => x.self.max_pending) hq2
        exact ⟨i1.of_quietf hq2, fun _ => by rw [hp, hm]; exact b1⟩
  · simp only [Option.some.injEq] at h
    have hq := quietf_set_format_apply s state e
    rw [h] at hq
    have hq2 : quietf s1 = quietf s := hq
    have hp : s1.self.pending_frames = s.self.pending_frames :=
      congrArg (fun x => x.self.pending_frames) hq2
    have hm : s1.self.max_pending = s.self.max_pending :=
      congrArg (fun x => x.self.max_pending) hq2
    exact ⟨hi.of_quietf hq2, fun hb => by rw [hp, hm]; exact hb⟩

theorem start_inv (s0 s : Encoder) (e : StartEnv) (hm : s0.self.max_pending < 4294967296)
    (h : gst_mpp_enc_start s0 e = (true, s)) :
    SessionInv s ∧ s.self.pending_frames ≤ s.self.max_pending := by
  unfold gst_mpp_enc_start at h
  simp only [] at h
  repeat' split at h
  all_goals first
    | (cases h; done)
    | (cases h
       exact ⟨{ outstanding_eq := rfl
                pending_lt := by show (0 : Nat) < _; omega
                max_lt := hm
                task_ret_ok := rfl
                flushing_idle := fun hf => by cases hf
                idle_empty := fun _ => rfl }, Nat.zero_le _⟩)

/-- In every reachable state the session invariant holds; and when no
property call lowers `max-pending` below `pending_frames`, `pending_frames`
never exceeds `max_pending`. -/
theorem reachable_inv (allowed : Encoder → Property → Prop) (s : Encoder)
    (h : Reachable allowed s) :
    SessionInv s ∧ ((∀ t p, allowed t p → max_pending_not_below t p) →
      s.self.pending_frames ≤ s.self.max_pending) := by
  induction h with
  | start s0 s e hm hs =>
    obtain ⟨a, b⟩ := start_inv s0 s e hm hs
    exact ⟨a, fun _ => b⟩
  | env s s1 _ hstep ih =>
    obtain ⟨a, b⟩ := ih
    obtain ⟨a1, _, _, d1⟩ := env_step_inv allowed s s1 a hstep
    exact ⟨a1, fun hall => d1 hall (b hall)⟩
  | handle_frame s s1 frame e wake ret _ hw hc ih =>
    obtain ⟨a, b⟩ := ih
    have a0 : SessionInv { s with priv_frames := s.priv_frames ++ [frame] } :=
      a.congr rfl rfl rfl rfl rfl rfl rfl
    obtain ⟨a1, b1⟩ := handle_frame_inv allowed _ s1 frame e wake ret a0 hw hc
    exact ⟨a1, fun hall => b1 hall (b hall)⟩
  | reset s s1 drain final w _ hr ih =>
    obtain ⟨a1, b1⟩ := reset_inv s s1 drain final w ih.1 hr
    exact ⟨a1, fun _ => b1⟩
  | set_format s s1 state e ok _ hf ih =>
    obtain ⟨a1, b1⟩ := set_format_inv s s1 state e ok ih.1 hf
    exact ⟨a1, fun hall => b1 (ih.2 hall)⟩
theorem priv_numbers_set_output_buffer (s : Encoder) (n : Nat) (b : Option GstBuffer) :
    priv_numbers (set_output_buffer s n b) = priv_numbers s := by
  unfold priv_numbers set_output_buffer
  simp only [List.map_map]
  apply List.map_congr_left
  intro f _
  simp only [Function.comp]
  split <;> rfl

/-- A successful `gst_mpp_enc_handle_frame` on a new frame leaves the order of
finished and held frames alone and adds the new frame at the end. -/
theorem chain_order (s s1 : Encoder) (frame : GstVideoCodecFrame) (e : ConvertEnv)
    (w : List LoopEnv)
    (h : gst_video_encoder_chain s frame e (run_worker w)
      = some (GstFlowReturn.GST_FLOW_OK, s1)) :
    s1.finished.map Prod.fst ++ priv_numbers s1 =
      s.finished.map Prod.fst ++ priv_numbers s ++ [frame.system_frame_number] := by
  unfold gst_video_encoder_chain gst_mpp_enc_handle_frame at h
  split at h
  · simp [handle_frame_drop] at h
  · split at h
    · cases h
    · simp [handle_frame_drop] at h
    · rename_i buffer t hc
      have hq := quietc_convert _ _ _ _ _ hc
      have hrest := handle_frame_start_task_rest { s with priv_frames := s.priv_frames ++ [frame] }
      have hpriv : t.priv_frames = s.priv_frames ++ [frame] :=
        (congrArg (fun x => x.priv_frames) hq).trans hrest.1
      have hfin : t.finished = s.finished :=
        (congrArg (fun x => x.finished) hq).trans hrest.2.1
      split at h
      · cases h
      · rename_i s2 hwait
        obtain ⟨hfrom, _⟩ := handle_frame_wait_spec _ _ _ hwait
        have hprog : ∃ done, WorkerProgress
            (set_output_buffer t frame.system_frame_number (some buffer)) s2 done := by
          rcases hfrom with h1 | h1
          · rw [h1]
            exact ⟨[], WorkerProgress.refl _⟩
          · exact run_worker_progress w _ _ h1
        obtain ⟨done, p⟩ := hprog
        unfold handle_frame_enqueue at h
        split at h
        · simp [handle_frame_drop] at h
        · simp only [Option.some.injEq, Prod.mk.injEq] at h
          obtain ⟨_, hs⟩ := h
          subst hs
          show s2.finished.map Prod.fst ++ priv_numbers s2 = _
          have h1 := p.finished_eq
          have h2 := p.priv_eq
          rw [priv_numbers_set_output_buffer] at h2
          have h3 : (set_output_buffer t frame.system_frame_number (some buffer)).finished
              = s.finished := hfin
          rw [h3] at h1
          have h4 : priv_numbers t = priv_numbers s ++ [frame.system_frame_number] := by
            unfold priv_numbers
            rw [hpriv]
            simp
          rw [h1, List.map_append, List.append_assoc, ← h2, h4, List.append_assoc]

theorem run_order (acts : List Action) :
    ∀ (s s1 : Encoder) (enqueued : List Nat), run acts s = some (s1, enqueued) →
      s1.finished.map Prod.fst ++ priv_numbers s1 =
        s.finished.map Prod.fst ++ priv_numbers s ++ enqueued := by
  induction acts with
  | nil =>
    intro s s1 enqueued h
    simp only [run, Option.some.injEq, Prod.mk.injEq] at h
    obtain ⟨h1, h2⟩ := h
    subst h1
    subst h2
    simp
  | cons a rest ih =>
    intro s s1 enqueued h
    cases a with
    | handle_frame frame e w =>
      rw [run] at h
      split at h
      · rename_i t hc
        split at h
        · cases h
        · rename_i s2 enq hr
          simp only [Option.some.injEq, Prod.mk.injEq] at h
          obtain ⟨h1, h2⟩ := h
          subst h1
          subst h2
          rw [ih _ _ _ hr, chain_order _ _ _ _ _ hc]
          simp
      · cases h
    | loop e =>
      rw [run] at h
      split at h
      · cases h
      · split at h
        · cases h
        · rename_i t hl
          obtain ⟨done, p⟩ := loop_worker_progress _ _ _ hl
          rw [ih _ _ _ h, p.finished_eq, p.priv_eq]
          simp

/-- C1: in every interleaving of successful `gst_mpp_enc_handle_frame` calls
and worker iterations (the hardware returning packets only for frames it has
accepted, in any order and at any time), the frame numbers finished by
`gst_mpp_enc_poll_packet_locked` are a prefix of the frame numbers enqueued,
in the same order: the n-th finished frame is the n-th enqueued frame. -/
theorem polled_frames_follow_enqueue_order (acts : List Action) (s0 s : Encoder)
    (enqueued : List Nat) (hpriv : s0.priv_frames = []) (hfin : s0.finished = [])
    (h : run acts s0 = some (s, enqueued)) :
    s.finished.map Prod.fst <+: enqueued ∧
    ∀ (n : Nat) (x : Nat × Option GstBuffer), s.finished[n]? = some x →
      enqueued[n]? = some x.1 := by
  have ho := run_order acts s0 s enqueued h
  simp only [hfin, hpriv, priv_numbers, List.map_nil, List.nil_append] at ho
  refine ⟨⟨_, ho⟩, ?_⟩
  intro n x hx
  rw [← ho]
  have hlt : n < s.finished.length := by
    by_contra hc
    rw [List.getElem?_eq_none (Nat.le_of_not_lt hc)] at hx
    cases hx
  rw [List.getElem?_append_left (by simpa using hlt), List.getElem?_map, hx]
  rfl

theorem polled_frames_follow_enqueue_order_witness :
    (demo_negotiated.priv_frames = [] ∧ demo_negotiated.finished = [] ∧
      run demo_actions demo_negotiated = some demo_run ∧ demo_run.2 = [0, 1] ∧
      demo_run.1.finished.map Prod.fst = [0, 1]) ∧
    (demo_run.1.finished.map Prod.fst <+: demo_run.2 ∧
      ∀ (n : Nat) (x : Nat × Option GstBuffer), demo_run.1.finished[n]? = some x →
        demo_run.2[n]? = some x.1) :=
  ⟨by decide,
    polled_frames_follow_enqueue_order demo_actions demo_negotiated demo_run.1 demo_run.2
      (by decide) (by decide) (by decide)⟩
theorem demo_negotiated_reachable (allowed : Encoder → Property → Prop) :
    Reachable allowed demo_negotiated :=
  Reachable.set_format (gst_mpp_enc_start demo_new demo_start).2 demo_negotiated
    { caps := 1, info := demo_info } demo_set_format true
    (Reachable.start demo_new _ demo_start (by decide) (by decide)) (by decide)

theorem demo_two_pending_reachable (allowed : Encoder → Property → Prop) :
    Reachable allowed demo_two_pending :=
  Reachable.handle_frame demo_one_pending demo_two_pending (demo_frame 1 false) demo_convert
    (fun _ => none) GstFlowReturn.GST_FLOW_OK
    (Reachable.handle_frame demo_negotiated demo_one_pending (demo_frame 0 false)
      demo_convert (fun _ => none) GstFlowReturn.GST_FLOW_OK
      (demo_negotiated_reachable allowed) (fun _ _ h => by cases h) (by decide))
    (fun _ _ h => by cases h) (by decide)

/-- C3 (counterexample): `gst_mpp_enc_reset` called while frame 7, flagged
force-keyframe, is in flight and `bps` is 0 returns with `bps` 7776000: the
worker, while draining, reverts the keyframe request, which pushes the
properties and stores the derived bit rate. -/
theorem reset_drain_derives_bps :
    demo_keyframe_pending.self.bps = 0 ∧
    (gst_mpp_enc_reset demo_keyframe_pending true false [demo_loop, demo_loop]).map
      (fun s1 => (s1.self.bps, s1.finished.map Prod.fst)) = some (7776000, [7]) := by
  decide

/-- C3 (amended): after `gst_mpp_enc_reset` returns, flushing equals final,
draining is false, `task_ret` is `GST_FLOW_OK`, `pending_frames` is 0, the
pending id list is empty and `prop_dirty` is true; all stored property values
other than `bps` are unchanged, and `bps` is unchanged when it is not 0 on
entry or the worker task is not started. -/
theorem reset_postcondition (s s1 : Encoder) (drain final : Bool) (w : List LoopEnv)
    (h : gst_mpp_enc_reset s drain final w = some s1) :
    s1.self.flushing = final ∧ s1.self.draining = false ∧
    s1.self.task_ret = GstFlowReturn.GST_FLOW_OK ∧ s1.self.pending_frames = 0 ∧
    s1.self.frames = [] ∧ s1.self.prop_dirty = true ∧
    same_properties_but_bps s1.self s.self ∧
    (s.self.bps ≠ 0 → s1.self.bps = s.self.bps) ∧
    (s.task ≠ GstTaskState.GST_TASK_STARTED → s1.self.bps = s.self.bps) := by
  rw [reset_eq] at h
  cases hs : gst_mpp_enc_stop_task
      { s with self.flushing := true, self.draining := true } true w with
  | none => simp [hs] at h
  | some t =>
    simp only [hs, Option.map_some', Option.some.injEq] at h
    subst h
    obtain ⟨_, hidle, done, p⟩ := stop_task_spec _ _ _ hs
    have hst := p.stable_eq
    refine ⟨rfl, rfl, rfl, rfl, rfl, rfl, ?_, ?_, ?_⟩
    · exact ⟨congrArg (fun x => x.self.max_pending) hst,
        congrArg (fun x => x.self.header_mode) hst,
        congrArg (fun x => x.self.sei_mode) hst,
        congrArg (fun x => x.self.rc_mode) hst,
        congrArg (fun x => x.self.rotation) hst,
        congrArg (fun x => x.self.gop) hst,
        congrArg (fun x => x.self.max_reenc) hst,
        congrArg (fun x => x.self.bps_min) hst,
        congrArg (fun x => x.self.bps_max) hst,
        congrArg (fun x => x.self.width) hst,
        congrArg (fun x => x.self.height) hst,
        congrArg (fun x => x.self.zero_copy_pkt) hst,
        congrArg (fun x => x.self.arm_afbc) hst⟩
    · intro hb
      exact p.bps_eq hb
    · intro hne
      rw [hidle hne]
      rfl

theorem reset_postcondition_witness :
    gst_mpp_enc_reset demo_two_pending true false [demo_loop, demo_loop]
      = some demo_finished ∧
    (demo_finished.self.flushing = false ∧ demo_finished.self.draining = false ∧
      demo_finished.self.task_ret = GstFlowReturn.GST_FLOW_OK ∧
      demo_finished.self.pending_frames = 0 ∧
      demo_finished.self.frames = [] ∧ demo_finished.self.prop_dirty = true ∧
      same_properties_but_bps demo_finished.self demo_two_pending.self ∧
      (demo_two_pending.self.bps ≠ 0 → demo_finished.self.bps = demo_two_pending.self.bps) ∧
      (demo_two_pending.task ≠ GstTaskState.GST_TASK_STARTED →
        demo_finished.self.bps = demo_two_pending.self.bps)) :=
  ⟨by decide,
    reset_postcondition demo_two_pending demo_finished true false [demo_loop, demo_loop]
      (by decide)⟩

/-- C4: `gst_mpp_enc_reset` behaves the same for drain TRUE and drain FALSE:
both call `gst_mpp_enc_stop_task` with drain TRUE on the state with flushing
and draining set (so `pending_frames` is not zeroed before the worker has
stopped: with drain TRUE `gst_mpp_enc_stop_task` hands the state unchanged to
the wait for the worker) and then run the same statements; hence
`gst_mpp_enc_flush` and `gst_mpp_enc_finish` have the same effect. -/
theorem reset_ignores_drain (s : Encoder) (final : Bool) (w : List LoopEnv) :
    gst_mpp_enc_reset s true final w = gst_mpp_enc_reset s false final w ∧
    (∀ drain, gst_mpp_enc_reset s drain final w =
      (gst_mpp_enc_stop_task
        { s with self.flushing := true, self.draining := true } true w).map
        (fun t => reset_state t final)) ∧
    (∀ t : Encoder, gst_mpp_enc_stop_task t true w =
      if t.task ≠ GstTaskState.GST_TASK_STARTED then some t
      else (wait_task_paused w t).map
        (fun t1 => { t1 with task := GstTaskState.GST_TASK_STOPPED })) ∧
    gst_mpp_enc_flush s w = gst_mpp_enc_finish s w := by
  refine ⟨rfl, fun drain => reset_eq s drain final w, ?_, rfl⟩
  intro t
  unfold gst_mpp_enc_stop_task
  split
  · rfl
  · simp only [Bool.not_true, Bool.false_eq_true, if_false]
    cases wait_task_paused w t <;> rfl

/-- C5: the worker sets the terminal status and pauses only in an iteration
that sees flushing with `pending_frames` 0, and finishes no frame in that
iteration; so when `gst_mpp_enc_reset` is called with drain in a reachable
state with K frames in flight and returns, exactly K frames have been finished
on the way, they are the K oldest frames of the base class, in order, and no
frame is left in flight. -/
theorem finish_drains_pending_frames :
    (∀ (t t1 : Encoder) (e : LoopEnv), gst_mpp_enc_loop t e = some t1 →
      t.self.task_ret = GstFlowReturn.GST_FLOW_OK →
      (t1.self.task_ret ≠ GstFlowReturn.GST_FLOW_OK ∨ t1.task ≠ t.task) →
      t.self.flushing = true ∧ t.self.pending_frames = 0 ∧
      t1.self.task_ret = GstFlowReturn.GST_FLOW_FLUSHING ∧ t1.finished = t.finished) ∧
    (∀ (s s1 : Encoder) (final : Bool) (w : List LoopEnv),
      Reachable any_property s → gst_mpp_enc_reset s true final w = some s1 →
      ∃ done, s1.finished = s.finished ++ done ∧
        done.length = s.self.pending_frames ∧
        priv_numbers s = done.map Prod.fst ++ priv_numbers s1 ∧
        outstanding s1 = 0 ∧ s1.self.pending_frames = 0) := by
  refine ⟨?_, ?_⟩
  · intro t t1 e h hok hch
    rcases loop_progress t t1 e h with ⟨hf, hp, hs⟩ | ⟨_, hret, htask, _⟩
    · subst hs
      exact ⟨hf, hp, rfl, rfl⟩
    · rcases hch with h1 | h1
      · rw [hret] at h1
        exact absurd hok h1
      · exact absurd (htask hok) h1
  · intro s s1 final w hreach h
    have hi := (reachable_inv _ s hreach).1
    rw [reset_eq] at h
    cases hs : gst_mpp_enc_stop_task
        { s with self.flushing := true, self.draining := true } true w with
    | none => simp [hs] at h
    | some t =>
      simp only [hs, Option.map_some', Option.some.injEq] at h
      subst h
      by_cases hst : s.task = GstTaskState.GST_TASK_STARTED
      · unfold gst_mpp_enc_stop_task at hs
        rw [if_neg (by simp [hst])] at hs
        simp only [Bool.not_true, Bool.false_eq_true, if_false] at hs
        cases hw : wait_task_paused w
            { s with self.flushing := true, self.draining := true } with
        | none => simp [hw] at hs
        | some t1 =>
          simp only [hw, Option.some.injEq] at hs
          subst hs
          obtain ⟨done, p, hl, _, _, _⟩ := wait_task_paused_drains w _ t1 hw hst
            hi.task_ret_ok rfl hi.outstanding_eq hi.pending_lt
          exact ⟨done, p.finished_eq, hl, p.priv_eq, rfl, rfl⟩
      · obtain ⟨_, hidle, _⟩ := stop_task_spec _ _ _ hs
        have ht := hidle hst
        subst ht
        refine ⟨[], by simp [reset_state, mpi_call], ?_, by simp [priv_numbers, reset_state,
          mpi_call], rfl, rfl⟩
        rw [hi.idle_empty hst]
        rfl

theorem finish_drains_pending_frames_witness :
    (Reachable any_property demo_two_pending ∧
      gst_mpp_enc_reset demo_two_pending true false [demo_loop, demo_loop]
        = some demo_finished ∧ demo_two_pending.self.pending_frames = 2 ∧
      demo_finished.finished.map Prod.fst = [0, 1] ∧
      gst_mpp_enc_loop demo_drained demo_loop
        = some { demo_drained with
            self.task_ret := GstFlowReturn.GST_FLOW_FLUSHING
            task := GstTaskState.GST_TASK_PAUSED }) ∧
    (demo_drained.self.flushing = true ∧ demo_drained.self.pending_frames = 0 ∧
      ({ demo_drained with
          self.task_ret := GstFlowReturn.GST_FLOW_FLUSHING
          task := GstTaskState.GST_TASK_PAUSED } : Encoder).self.task_ret
        = GstFlowReturn.GST_FLOW_FLUSHING ∧
      ({ demo_drained with
          self.task_ret := GstFlowReturn.GST_FLOW_FLUSHING
          task := GstTaskState.GST_TASK_PAUSED } : Encoder).finished
        = demo_drained.finished) ∧
    (∃ done, demo_finished.finished = demo_two_pending.finished ++ done ∧
      done.length = demo_two_pending.self.pending_frames ∧
      priv_numbers demo_two_pending = done.map Prod.fst ++ priv_numbers demo_finished ∧
      outstanding demo_finished = 0 ∧ demo_finished.self.pending_frames = 0) :=
  ⟨⟨demo_two_pending_reachable any_property, by decide, by decide, by decide, by decide⟩,
    finish_drains_pending_frames.1 demo_drained _ demo_loop
      (by decide : gst_mpp_enc_loop demo_drained demo_loop
        = some { demo_drained with
            self.task_ret := GstFlowReturn.GST_FLOW_FLUSHING
            task := GstTaskState.GST_TASK_PAUSED })
      (by decide) (Or.inl (by decide)),
    finish_drains_pending_frames.2 demo_two_pending demo_finished false
      [demo_loop, demo_loop] (demo_two_pending_reachable any_property) (by decide)⟩

theorem handle_frame_not_enqueued_witness :
    (gst_mpp_enc_handle_frame demo_full (demo_frame 2 false) demo_convert demo_wake_flushing
        = some (GstFlowReturn.GST_FLOW_FLUSHING, demo_dropped) ∧
      (handle_frame_resumed demo_full (demo_frame 2 false) demo_convert
        demo_wake_flushing).map (fun s2 => s2.self.flushing) = some true) ∧
    ((GstFlowReturn.GST_FLOW_FLUSHING = GstFlowReturn.GST_FLOW_FLUSHING ↔
      (demo_full.self.flushing = true ∨
        ∃ s2, handle_frame_resumed demo_full (demo_frame 2 false) demo_convert
          demo_wake_flushing = some s2 ∧ s2.self.flushing = true)) ∧
    (GstFlowReturn.GST_FLOW_FLUSHING = GstFlowReturn.GST_FLOW_NOT_NEGOTIATED ↔
      (demo_full.self.flushing = false ∧
        ∃ t, gst_mpp_enc_convert (handle_frame_start_task demo_full) (demo_frame 2 false)
          demo_convert = some (none, t))) ∧
    (∃ out, demo_dropped.finished =
      (handle_frame_last_seen demo_full (demo_frame 2 false) demo_convert
        demo_wake_flushing).finished ++ [((demo_frame 2 false).system_frame_number, out)]) ∧
    demo_dropped.self.frames =
      (handle_frame_last_seen demo_full (demo_frame 2 false) demo_convert
        demo_wake_flushing).self.frames ∧
    demo_dropped.self.pending_frames =
      (handle_frame_last_seen demo_full (demo_frame 2 false) demo_convert
        demo_wake_flushing).self.pending_frames) := by
  have hres : (handle_frame_resumed demo_full (demo_frame 2 false) demo_convert
      demo_wake_flushing).map (fun s2 => s2.self.flushing) = some true := by decide
  refine ⟨⟨by decide, hres⟩, ?_⟩
  apply handle_frame_not_enqueued demo_full demo_dropped (demo_frame 2 false) demo_convert
    demo_wake_flushing GstFlowReturn.GST_FLOW_FLUSHING (by decide)
  intro s2 h2
  rw [h2] at hres
  simpa using hres

/-- The second test of `self->flushing` in `gst_mpp_enc_handle_frame`,
evaluated with a wake-up that sets flushing: the branch finishes the frame
with `frame->output_buffer` as conversion left it.  No iteration of the worker
and no property call makes such a wake-up (`handle_frame_resumed_spec`). -/
theorem handle_frame_drop_after_wait_keeps_input_buffer :
    (handle_frame_resumed demo_full (demo_frame 2 false) demo_convert
      demo_wake_flushing).map (fun s2 => s2.self.flushing) = some true ∧
    (gst_mpp_enc_convert (handle_frame_start_task demo_full) (demo_frame 2 false)
      demo_convert).map Prod.fst = some (some (GstBuffer.sw_copied 2)) ∧
    (gst_mpp_enc_handle_frame demo_full (demo_frame 2 false) demo_convert
      demo_wake_flushing).map (fun r => (r.1, r.2.finished, r.2.self.frames))
      = some (GstFlowReturn.GST_FLOW_FLUSHING, [(2, some (GstBuffer.sw_copied 2))], [0, 1]) := by
  decide

/-- C9 (counterexample): with two ids pending, a call in which
`mpp_frame_init` fails returns FALSE and changes nothing; in particular the
head id is not submitted (the hardware has received no call). -/
theorem send_frame_locked_no_submit_without_frame :
    demo_full.self.frames = [0, 1] ∧
    gst_mpp_enc_send_frame_locked demo_full demo_send_no_frame = some (false, demo_full) ∧
    demo_full.mpp.calls = [] := by
  decide

theorem send_frame_locked_head_witness :
    (demo_encoder.self.frames = [] ∧ demo_send_no_frame.frame_init_ret ≠ 0 ∧
      demo_full.self.frames = 0 :: [1] ∧ demo_send.frame_init_ret = 0 ∧
      gst_video_encoder_get_frame demo_full 0
        = some { demo_frame 0 false with output_buffer := some (GstBuffer.sw_copied 0) }) ∧
    gst_mpp_enc_send_frame_locked demo_encoder demo_send = some (false, demo_encoder) ∧
    gst_mpp_enc_send_frame_locked demo_full demo_send_no_frame = some (false, demo_full) ∧
    (∃ s1 pushed,
      gst_mpp_enc_send_frame_locked demo_full demo_send
        = some (decide (demo_send.put_frame_ret = 0), s1) ∧
      s1.mpp.calls = demo_full.mpp.calls ++ pushed ++
        [MpiCall.encode_put_frame 0
          ({ demo_frame 0 false with
            output_buffer := some (GstBuffer.sw_copied 0) } : GstVideoCodecFrame).output_buffer
          demo_send.put_frame_ret] ∧
      (∀ c ∈ pushed, ∃ cfg ret, c = MpiCall.control_set_cfg cfg ret) ∧
      s1.self.pending_frames = demo_full.self.pending_frames ∧
      (demo_send.put_frame_ret ≠ 0 →
        s1.self.frames = 0 :: [1] ∧ s1.mpp.inflight = demo_full.mpp.inflight) ∧
      (demo_send.put_frame_ret = 0 →
        s1.self.frames = [1] ∧ s1.mpp.inflight = demo_full.mpp.inflight ++ [0])) :=
  ⟨by decide,
    send_frame_locked_head.1 demo_encoder demo_send (by decide),
    send_frame_locked_head.2.1 demo_full demo_send_no_frame (by decide),
    send_frame_locked_head.2.2 demo_full demo_send 0 [1]
      { demo_frame 0 false with output_buffer := some (GstBuffer.sw_copied 0) }
      (by decide) (by decide) (by decide)⟩

/-- C10 (counterexample): frames 1 and 2 are both flagged force-keyframe and
both are submitted before the first packet is polled; when the packet of
frame 1 is matched, rc:gop is still 1 (the configured GOP is 30) and
`required_keyframe_number` is 2, not 0. -/
theorem keyframe_override_outlives_first_packet :
    demo_keyframes.self.frames = [1, 2] ∧
    (match gst_mpp_enc_send_frame_locked demo_keyframes demo_send with
     | some (true, s1) =>
       match gst_mpp_enc_send_frame_locked s1 demo_send with
       | some (true, s2) =>
         match gst_mpp_enc_poll_packet_locked s2 demo_poll with
         | some (true, s3) =>
           some (s3.finished.map Prod.fst, s3.self.mpp_cfg.rc_gop,
             s3.self.required_keyframe_number, configured_gop s3.self)
         | _ => none
       | _ => none
     | _ => none) = some ([1], 1, 2, 30) := by
  decide

theorem keyframe_request_and_revert_witness :
    (demo_keyframe_pending.self.frames = 7 :: [] ∧
      gst_video_encoder_get_frame demo_keyframe_pending 7
        = some { demo_frame 7 true with output_buffer := some (GstBuffer.sw_copied 7) } ∧
      encode_get_packet demo_keyframe_sent.mpp demo_poll.packet
        = some ({ index := 0, length := 4096, has_buffer := true }, 7,
            { demo_keyframe_sent.mpp with inflight := [] }) ∧
      demo_keyframe_sent.self.required_keyframe_number = 7) ∧
    (∃ s1 pushed cfg, gst_mpp_enc_send_frame_locked demo_keyframe_pending demo_send
        = some (decide (demo_send.put_frame_ret = 0), s1) ∧
      s1.self.mpp_cfg.rc_gop = 1 ∧ s1.self.required_keyframe_number = 7 ∧
      cfg.rc_gop = 1 ∧
      s1.mpp.calls = demo_keyframe_pending.mpp.calls
        ++ [MpiCall.control_set_cfg cfg demo_send.ctl.cfg_ret] ++ pushed) ∧
    (∃ s1, gst_mpp_enc_poll_packet_locked demo_keyframe_sent demo_poll = some (true, s1) ∧
      s1.self.mpp_cfg.rc_gop = configured_gop demo_keyframe_sent.self ∧
      s1.self.required_keyframe_number = 0 ∧
      s1.mpp.calls.getLast? =
        some (MpiCall.control_set_cfg s1.self.mpp_cfg demo_poll.ctl.cfg_ret)) :=
  ⟨by decide,
    keyframe_request_and_revert.1 demo_keyframe_pending demo_send 7 []
      { demo_frame 7 true with output_buffer := some (GstBuffer.sw_copied 7) }
      (by decide) (by decide) (by decide) (by decide),
    keyframe_request_and_revert.2 demo_keyframe_sent demo_poll
      { index := 0, length := 4096, has_buffer := true } 7
      { demo_keyframe_sent.mpp with inflight := [] }
      { demo_frame 7 true with output_buffer := some (GstBuffer.sw_copied 7) } []
      (by decide) (by decide) (by decide) (by decide)⟩

/-! ## The bit rate band -/

theorem derived_bps_congr (a b : GstMppEnc) (h1 : a.bps = b.bps) (h2 : a.info = b.info) :
    derived_bps a = derived_bps b := by
  simp only [derived_bps, h1, h2]

theorem apply_properties_push (s : Encoder) (e : ControlEnv)
    (hd : s.self.prop_dirty = true) :
    (gst_mpp_enc_apply_properties s e).1 = decide (e.cfg_ret = 0) ∧
    (gst_mpp_enc_apply_properties s e).2.self.prop_dirty = false ∧
    (gst_mpp_enc_apply_properties s e).2.self.bps = derived_bps s.self ∧
    (gst_mpp_enc_apply_properties s e).2.mpp.calls = s.mpp.calls ++
      [MpiCall.control_set_sei_cfg s.self.sei_mode e.sei_ret,
       MpiCall.control_set_header_mode s.self.header_mode e.header_ret,
       MpiCall.control_set_cfg (gst_mpp_enc_apply_properties s e).2.self.mpp_cfg e.cfg_ret] := by
  unfold gst_mpp_enc_apply_properties
  simp only [hd, mpi_call, Bool.not_true, Bool.false_eq_true, if_false]
  by_cases hc : e.cfg_ret = 0
  · simp only [hc, ne_eq, not_true_eq_false, if_false, decide_True]
    split_ifs <;>
      exact ⟨by first | rfl | trivial, rfl, derived_bps_congr _ _ rfl rfl, by simp⟩
  · simp only [hc, ne_eq, not_false_eq_true, if_true, decide_False]
    split_ifs <;>
      exact ⟨by first | rfl | trivial, rfl, derived_bps_congr _ _ rfl rfl, by simp⟩

theorem apply_properties_band (s : Encoder) (e : ControlEnv)
    (hd : s.self.prop_dirty = true) :
    (derived_bps s.self = 0 ∨ s.self.rc_mode = MppEncRcMode.MPP_ENC_RC_MODE_FIXQP →
      (gst_mpp_enc_apply_properties s e).2.self.mpp_cfg.rc_bps_target =
        s.self.mpp_cfg.rc_bps_target ∧
      (gst_mpp_enc_apply_properties s e).2.self.mpp_cfg.rc_bps_max =
        s.self.mpp_cfg.rc_bps_max ∧
      (gst_mpp_enc_apply_properties s e).2.self.mpp_cfg.rc_bps_min =
        s.self.mpp_cfg.rc_bps_min) ∧
    (derived_bps s.self ≠ 0 → s.self.rc_mode = MppEncRcMode.MPP_ENC_RC_MODE_CBR →
      (gst_mpp_enc_apply_properties s e).2.self.mpp_cfg.rc_bps_target =
        wrap_s32 (derived_bps s.self) ∧
      (gst_mpp_enc_apply_properties s e).2.self.mpp_cfg.rc_bps_max =
        bps_bound s.self.bps_max (derived_bps s.self) 17 ∧
      (gst_mpp_enc_apply_properties s e).2.self.mpp_cfg.rc_bps_min =
        bps_bound s.self.bps_min (derived_bps s.self) 15) ∧
    (derived_bps s.self ≠ 0 → s.self.rc_mode ≠ MppEncRcMode.MPP_ENC_RC_MODE_CBR →
      s.self.rc_mode ≠ MppEncRcMode.MPP_ENC_RC_MODE_FIXQP →
      (gst_mpp_enc_apply_properties s e).2.self.mpp_cfg.rc_bps_target =
        wrap_s32 (derived_bps s.self) ∧
      (gst_mpp_enc_apply_properties s e).2.self.mpp_cfg.rc_bps_max =
        bps_bound s.self.bps_max (derived_bps s.self) 17 ∧
      (gst_mpp_enc_apply_properties s e).2.self.mpp_cfg.rc_bps_min =
        bps_bound s.self.bps_min (derived_bps s.self) 1) := by
  unfold gst_mpp_enc_apply_properties
  simp only [hd, mpi_call, Bool.not_true, Bool.false_eq_true, if_false, derived_bps]
  refine ⟨?_, ?_, ?_⟩
  · intro h
    by_cases hc : e.cfg_ret = 0 <;>
      simp only [hc, ne_eq, not_true_eq_false, not_false_eq_true, if_false, if_true, h] <;>
      (refine ⟨?_, ?_, ?_⟩ <;> first | rfl | trivial)
  · intro h1 h2
    by_cases hc : e.cfg_ret = 0 <;>
      simp only [hc, ne_eq, not_true_eq_false, not_false_eq_true, if_false, if_true, h1,
        h2, reduceCtorEq, or_self, or_false, false_or] <;>
      (refine ⟨?_, ?_, ?_⟩ <;> first | rfl | trivial)
  · intro h1 h2 h3
    by_cases hc : e.cfg_ret = 0 <;>
      simp only [hc, ne_eq, not_true_eq_false, not_false_eq_true, if_false, if_true, h1,
        h2, h3, or_self, or_false, false_or] <;>
      (refine ⟨?_, ?_, ?_⟩ <;> first | rfl | trivial)

theorem wrap_s32_small (x : Int) (h0 : 0 ≤ x) (h1 : x < 2147483648) : wrap_s32 x = x := by
  unfold wrap_s32
  omega

theorem wrap_u32_natCast (x : Nat) (h : x < 4294967296) : wrap_u32 (x : Int) = x := by
  unfold wrap_u32
  omega

theorem derived_bps_auto (self : GstMppEnc) (w h n d : Nat)
    (hw : self.info.width = w) (hh : self.info.height = h)
    (hn : self.info.fps_n = n) (hd : self.info.fps_d = d) (hb : self.bps = 0)
    (hwh : w * h < 2147483648) (ht : w * h / 8 * (n / d) < 2147483648) :
    derived_bps self = w * h / 8 * (n / d) := by
  have e1 : wrap_s32 ((w : Int) * (h : Int)) = ((w * h : Nat) : Int) := by
    rw [wrap_s32_small] <;> norm_cast
    omega
  have e2 : Int.tdiv ((w * h : Nat) : Int) 8 = ((w * h / 8 : Nat) : Int) :=
    (Int.ofNat_tdiv (w * h) 8).symm
  have e3 : Int.tdiv (n : Int) (d : Int) = ((n / d : Nat) : Int) := (Int.ofNat_tdiv n d).symm
  have e4 : ((w * h / 8 : Nat) : Int) * ((n / d : Nat) : Int) =
      ((w * h / 8 * (n / d) : Nat) : Int) :=
    (Int.ofNat_mul _ _).symm
  simp only [derived_bps, hb, if_true, info_fps, hw, hh, hn, hd, e1, e2, e3, e4]
  rw [wrap_s32_small _ (Int.ofNat_nonneg _) (by exact_mod_cast ht)]
  exact wrap_u32_natCast _ (by omega)

theorem bound_aux (x : Nat) (hx : x < 4294967296) :
    wrap_s32 (((x % 4294967296 / 16 : Nat) : Int)) = ((x / 16 : Nat) : Int) := by
  rw [Nat.mod_eq_of_lt hx, wrap_s32_small] <;> omega

theorem bps_bound_unset (bps num : Nat) (h : bps * 17 < 4294967296) (hn : num ≤ 17) :
    bps_bound 0 bps num = ((bps * num / 16 : Nat) : Int) := by
  have h1 : bps * num ≤ bps * 17 := Nat.mul_le_mul_left _ hn
  have h2 := bound_aux (bps * num) (lt_of_le_of_lt h1 h)
  simpa [bps_bound] using h2

theorem bps_bound_set (v bps num : Nat) (h0 : v ≠ 0) (h : v ≤ 2147483647) :
    bps_bound v bps num = (v : Int) := by
  simp only [bps_bound, ne_eq, h0, not_false_eq_true, if_true]
  exact wrap_s32_small _ (by positivity) (by omega)

/-- C11 (counterexample): at 1920x1080 with the frame rate 1/2 the derived
target `1920*1080/8*(1/2)` is 0; the configuration that is pushed still
carries the target 2000000 it held before, not the derived one. -/
theorem derived_bitrate_zero_keeps_old_target :
    demo_half_fps.self.bps = 0 ∧ demo_half_fps.self.bps_min = 0 ∧
    demo_half_fps.self.bps_max = 0 ∧
    demo_half_fps.self.rc_mode = MppEncRcMode.MPP_ENC_RC_MODE_CBR ∧
    demo_half_fps.self.prop_dirty = true ∧
    (1920 * 1080 / 8 * (1 / 2) : Nat) = 0 ∧
    ∃ cfg, (gst_mpp_enc_apply_properties demo_half_fps demo_ctl).2.mpp.calls.getLast? =
        some (MpiCall.control_set_cfg cfg 0) ∧
      cfg.rc_bps_target = 2000000 ∧
      cfg.rc_bps_target ≠ ((1920 * 1080 / 8 * (1 / 2) : Nat) : Int) :=
  ⟨by decide, by decide, by decide, by decide, by decide, by decide,
    ⟨_, rfl, by decide, by decide⟩⟩

/-- C11 (amended): with bps, bps-min and bps-max unset, CBR mode, dirty
properties and a negotiated size and frame rate (`fps_d` positive, `w*h`
within a `gint`), `gst_mpp_enc_apply_properties` derives
`target = w*h/8*(fps_n/fps_d)` (floor divisions) and pushes a configuration
that holds rc:bps_target = target, rc:bps_max = target*17/16 and
rc:bps_min = target*15/16 when the target is not 0 and target*17 fits 32
bits; when the derived target is 0 the three rc:bps entries of the pushed
configuration are the ones it held before. -/
theorem derived_bitrate_band (s : Encoder) (e : ControlEnv) (w h n d : Nat)
    (hw : s.self.info.width = w) (hh : s.self.info.height = h)
    (hn : s.self.info.fps_n = n) (hd : s.self.info.fps_d = d)
    (hbps : s.self.bps = 0) (hmin : s.self.bps_min = 0) (hmax : s.self.bps_max = 0)
    (hrc : s.self.rc_mode = MppEncRcMode.MPP_ENC_RC_MODE_CBR)
    (hdirty : s.self.prop_dirty = true) (_ : 0 < d) (hwh : w * h < 2147483648) :
    ∃ cfg, (gst_mpp_enc_apply_properties s e).2.mpp.calls = s.mpp.calls ++
        [MpiCall.control_set_sei_cfg s.self.sei_mode e.sei_ret,
         MpiCall.control_set_header_mode s.self.header_mode e.header_ret,
         MpiCall.control_set_cfg cfg e.cfg_ret] ∧
      (w * h / 8 * (n / d) ≠ 0 → w * h / 8 * (n / d) * 17 < 4294967296 →
        (gst_mpp_enc_apply_properties s e).2.self.bps = w * h / 8 * (n / d) ∧
        cfg.rc_bps_target = ((w * h / 8 * (n / d) : Nat) : Int) ∧
        cfg.rc_bps_max = ((w * h / 8 * (n / d) * 17 / 16 : Nat) : Int) ∧
        cfg.rc_bps_min = ((w * h / 8 * (n / d) * 15 / 16 : Nat) : Int)) ∧
      (w * h / 8 * (n / d) = 0 →
        (gst_mpp_enc_apply_properties s e).2.self.bps = 0 ∧
        cfg.rc_bps_target = s.self.mpp_cfg.rc_bps_target ∧
        cfg.rc_bps_max = s.self.mpp_cfg.rc_bps_max ∧
        cfg.rc_bps_min = s.self.mpp_cfg.rc_bps_min) := by
  obtain ⟨_, _, pb, pc⟩ := apply_properties_push s e hdirty
  obtain ⟨b0, b1, _⟩ := apply_properties_band s e hdirty
  refine ⟨_, pc, ?_, ?_⟩
  · intro h0 h17
    have hder := derived_bps_auto s.self w h n d hw hh hn hd hbps hwh (by omega)
    obtain ⟨c1, c2, c3⟩ := b1 (by rw [hder]; exact h0) hrc
    rw [hder] at c1 c2 c3
    rw [hmax, bps_bound_unset _ _ h17 (le_refl _)] at c2
    rw [hmin, bps_bound_unset _ _ h17 (by decide)] at c3
    rw [wrap_s32_small _ (by positivity) (by omega)] at c1
    exact ⟨pb.trans hder, c1, c2, c3⟩
  · intro h0
    have hder := derived_bps_auto s.self w h n d hw hh hn hd hbps hwh (by omega)
    rw [h0] at hder
    obtain ⟨c1, c2, c3⟩ := b0 (Or.inl hder)
    exact ⟨pb.trans hder, c1, c2, c3⟩

theorem derived_bitrate_band_witness :
    ∃ cfg, (gst_mpp_enc_apply_properties demo_encoder demo_ctl).2.mpp.calls =
        [MpiCall.control_set_sei_cfg MppEncSeiMode.MPP_ENC_SEI_MODE_DISABLE 0,
         MpiCall.control_set_header_mode MppEncHeaderMode.MPP_ENC_HEADER_MODE_DEFAULT 0,
         MpiCall.control_set_cfg cfg 0] ∧
      cfg.rc_bps_target = 7776000 ∧ cfg.rc_bps_max = 8262000 ∧ cfg.rc_bps_min = 7290000 := by
  obtain ⟨cfg, hc, h1, _⟩ :=
    derived_bitrate_band demo_encoder demo_ctl 1920 1080 30 1 rfl rfl rfl rfl rfl rfl rfl rfl
      rfl (by decide) (by decide)
  obtain ⟨_, a, b, c⟩ := h1 (by decide) (by decide)
  exact ⟨cfg, hc, a, b, c⟩

/-- C12 (counterexample): in CBR mode with bps 1000000, bps-max 5000000 and
bps-min 100000 the pushed rc:bps_max is 5000000, above 1000000*17/16, and the
pushed rc:bps_min is 100000, below 1000000*15/16. -/
theorem cbr_bounds_not_clamped :
    demo_band.self.rc_mode = MppEncRcMode.MPP_ENC_RC_MODE_CBR ∧
    ∃ cfg, (gst_mpp_enc_apply_properties demo_band demo_ctl).2.mpp.calls.getLast? =
        some (MpiCall.control_set_cfg cfg 0) ∧
      cfg.rc_bps_target = 1000000 ∧
      cfg.rc_bps_max = 5000000 ∧ ¬ cfg.rc_bps_max ≤ ((1000000 * 17 / 16 : Nat) : Int) ∧
      cfg.rc_bps_min = 100000 ∧ ¬ ((1000000 * 15 / 16 : Nat) : Int) ≤ cfg.rc_bps_min :=
  ⟨by decide, ⟨_, rfl, by decide, by decide, by decide, by decide, by decide⟩⟩

/-- C12 (amended): in CBR mode with a non-zero target whose 17-fold fits 32
bits, the pushed rc:bps_max is the bps-max property when that is set and
target*17/16 otherwise, and the pushed rc:bps_min is the bps-min property when
that is set and target*15/16 otherwise; so rc:bps_max ≤ target*17/16 when
bps-max is not above that bound (in particular unset) and
target*15/16 ≤ rc:bps_min when bps-min is unset or not below that bound. -/
theorem cbr_band (s : Encoder) (e : ControlEnv)
    (hdirty : s.self.prop_dirty = true)
    (hrc : s.self.rc_mode = MppEncRcMode.MPP_ENC_RC_MODE_CBR)
    (hb : s.self.bps ≠ 0) (h17 : s.self.bps * 17 < 4294967296)
    (hmin : s.self.bps_min ≤ 2147483647) (hmax : s.self.bps_max ≤ 2147483647) :
    ∃ cfg, (gst_mpp_enc_apply_properties s e).2.mpp.calls = s.mpp.calls ++
        [MpiCall.control_set_sei_cfg s.self.sei_mode e.sei_ret,
         MpiCall.control_set_header_mode s.self.header_mode e.header_ret,
         MpiCall.control_set_cfg cfg e.cfg_ret] ∧
      cfg.rc_bps_target = (s.self.bps : Int) ∧
      cfg.rc_bps_max =
        ((if s.self.bps_max ≠ 0 then s.self.bps_max else s.self.bps * 17 / 16 : Nat) : Int) ∧
      cfg.rc_bps_min =
        ((if s.self.bps_min ≠ 0 then s.self.bps_min else s.self.bps * 15 / 16 : Nat) : Int) ∧
      (s.self.bps_max ≤ s.self.bps * 17 / 16 →
        cfg.rc_bps_max ≤ ((s.self.bps * 17 / 16 : Nat) : Int)) ∧
      (s.self.bps_min = 0 ∨ s.self.bps * 15 / 16 ≤ s.self.bps_min →
        ((s.self.bps * 15 / 16 : Nat) : Int) ≤ cfg.rc_bps_min) := by
  obtain ⟨_, _, _, pc⟩ := apply_properties_push s e hdirty
  obtain ⟨_, b1, _⟩ := apply_properties_band s e hdirty
  have hder : derived_bps s.self = s.self.bps := by simp [derived_bps, hb]
  obtain ⟨c1, c2, c3⟩ := b1 (by rw [hder]; exact hb) hrc
  rw [hder] at c1 c2 c3
  rw [wrap_s32_small _ (by positivity) (by omega)] at c1
  have c2b : (gst_mpp_enc_apply_properties s e).2.self.mpp_cfg.rc_bps_max =
      ((if s.self.bps_max ≠ 0 then s.self.bps_max else s.self.bps * 17 / 16 : Nat) : Int) := by
    by_cases hz : s.self.bps_max = 0
    · rw [c2, hz, bps_bound_unset _ _ h17 (le_refl _)]
      simp
    · rw [c2, bps_bound_set _ _ _ hz hmax]
      simp [hz]
  have c3b : (gst_mpp_enc_apply_properties s e).2.self.mpp_cfg.rc_bps_min =
      ((if s.self.bps_min ≠ 0 then s.self.bps_min else s.self.bps * 15 / 16 : Nat) : Int) := by
    by_cases hz : s.self.bps_min = 0
    · rw [c3, hz, bps_bound_unset _ _ h17 (by decide)]
      simp
    · rw [c3, bps_bound_set _ _ _ hz hmin]
      simp [hz]
  refine ⟨_, pc, c1, c2b, c3b, ?_, ?_⟩
  · intro hle
    rw [c2b]
    split_ifs <;> omega
  · intro hle
    rw [c3b]
    split_ifs <;> omega

theorem cbr_band_witness :
    ∃ cfg, (gst_mpp_enc_apply_properties demo_band demo_ctl).2.mpp.calls =
        [MpiCall.control_set_sei_cfg MppEncSeiMode.MPP_ENC_SEI_MODE_DISABLE 0,
         MpiCall.control_set_header_mode MppEncHeaderMode.MPP_ENC_HEADER_MODE_DEFAULT 0,
         MpiCall.control_set_cfg cfg 0] ∧
      cfg.rc_bps_target = 1000000 ∧ cfg.rc_bps_max = 5000000 ∧ cfg.rc_bps_min = 100000 := by
  obtain ⟨cfg, hc, a, b, c, _⟩ :=
    cbr_band demo_band demo_ctl rfl rfl (by decide) (by decide) (by decide) (by decide)
  exact ⟨cfg, hc, a, b, c⟩

/-- C13 (code at the failing input): in VBR mode with bps 300000000 and
bps-min, bps-max unset, the pushed configuration holds rc:bps_target
300000000, rc:bps_min 18750000 and rc:bps_max 50314544, which is not
300000000*17/16 = 318750000 and lies below the target: the product
`bps * 17` has wrapped in 32-bit unsigned arithmetic. -/
theorem vbr_band_wraps :
    demo_vbr.self.rc_mode = MppEncRcMode.MPP_ENC_RC_MODE_VBR ∧
    Property.valid (Property.PROP_BPS 300000000) = true ∧
    ∃ cfg, (gst_mpp_enc_apply_properties demo_vbr demo_ctl).2.mpp.calls.getLast? =
        some (MpiCall.control_set_cfg cfg 0) ∧
      cfg.rc_bps_target = 300000000 ∧ cfg.rc_bps_min = 18750000 ∧
      cfg.rc_bps_max = 50314544 ∧
      cfg.rc_bps_max ≠ ((300000000 * 17 / 16 : Nat) : Int) ∧
      cfg.rc_bps_max < cfg.rc_bps_target :=
  ⟨by decide, by decide, ⟨_, rfl, by decide, by decide, by decide, by decide, by decide⟩⟩

/-- C19: the default of `max-pending` is 16 when `GST_MPP_ENC_MAX_PENDING` is
absent; for every integer `v` parsed from it the default is
`max (min v 16) 1`, which lies in 1..16 (the range of the property), equals
`v` for `1 ≤ v ≤ 16`, is 1 for `v ≤ 0` and 16 for `v ≥ 16`; a new instance
gets that value as its `max_pending`. -/
theorem default_max_pending_clamped :
    DEFAULT_PROP_MAX_PENDING none = 16 ∧
    (∀ v : Int,
      (DEFAULT_PROP_MAX_PENDING (some v) : Int) = max (min v 16) 1 ∧
      1 ≤ DEFAULT_PROP_MAX_PENDING (some v) ∧ DEFAULT_PROP_MAX_PENDING (some v) ≤ 16 ∧
      (1 ≤ v → v ≤ 16 → (DEFAULT_PROP_MAX_PENDING (some v) : Int) = v) ∧
      (v ≤ 0 → DEFAULT_PROP_MAX_PENDING (some v) = 1) ∧
      (16 ≤ v → DEFAULT_PROP_MAX_PENDING (some v) = 16)) ∧
    (∀ (env : Option Int) (afbc : Bool),
      (gst_mpp_enc_init (DEFAULT_PROP_MAX_PENDING env) afbc).max_pending =
        DEFAULT_PROP_MAX_PENDING env ∧
      Property.valid (Property.PROP_MAX_PENDING (DEFAULT_PROP_MAX_PENDING env)) = true) := by
  have key : ∀ v : Int,
      (DEFAULT_PROP_MAX_PENDING (some v) : Int) = max (min v 16) 1 := by
    intro v
    simp only [DEFAULT_PROP_MAX_PENDING, MAX, MIN, MPP_MAX_PENDING, wrap_u32]
    split_ifs <;> omega
  refine ⟨by decide, fun v => ?_, fun env afbc => ⟨rfl, ?_⟩⟩
  · have h := key v
    refine ⟨h, ?_, ?_, ?_, ?_, ?_⟩ <;> omega
  · cases env with
    | none => decide
    | some v =>
      have h := key v
      simp only [Property.valid, decide_eq_true_eq]
      omega

theorem default_max_pending_clamped_witness :
    (DEFAULT_PROP_MAX_PENDING (some 4) : Int) = 4 ∧ DEFAULT_PROP_MAX_PENDING (some (-3)) = 1 ∧
    DEFAULT_PROP_MAX_PENDING (some 40) = 16 :=
  ⟨(default_max_pending_clamped.2.1 4).2.2.2.1 (by decide) (by decide),
   (default_max_pending_clamped.2.1 (-3)).2.2.2.2.1 (by decide),
   (default_max_pending_clamped.2.1 40).2.2.2.2.2 (by decide)⟩

/-- What `gst_mpp_enc_set_property` writes when the value differs from the
stored one: the new value and `prop_dirty` for bps, bps-min, bps-max, rc-mode,
gop, max-reenc, header-mode and sei-mode; the new value alone for
zero-copy-pkt and, before format negotiation, for rotation, width, height and
arm-afbc (these cases return before `self->prop_dirty = TRUE`). -/
theorem set_property_stores_new_value (self : GstMppEnc) (p : Property) (id : PropertyId)
    (hid : p.id = some id) (hne : gst_mpp_enc_get_property self id ≠ p) :
    (id = PropertyId.PROP_BPS ∨ id = PropertyId.PROP_BPS_MIN ∨ id = PropertyId.PROP_BPS_MAX ∨
      id = PropertyId.PROP_RC_MODE ∨ id = PropertyId.PROP_GOP ∨
      id = PropertyId.PROP_MAX_REENC ∨ id = PropertyId.PROP_HEADER_MODE ∨
      id = PropertyId.PROP_SEI_MODE →
      gst_mpp_enc_get_property (gst_mpp_enc_set_property self p) id = p ∧
      (gst_mpp_enc_set_property self p).prop_dirty = true) ∧
    (id = PropertyId.PROP_ZERO_COPY_PKT →
      gst_mpp_enc_get_property (gst_mpp_enc_set_property self p) id = p ∧
      (gst_mpp_enc_set_property self p).prop_dirty = self.prop_dirty) ∧
    (id = PropertyId.PROP_ROTATION ∨ id = PropertyId.PROP_WIDTH ∨
      id = PropertyId.PROP_HEIGHT ∨ id = PropertyId.PROP_ARM_AFBC →
      self.input_state = none →
      gst_mpp_enc_get_property (gst_mpp_enc_set_property self p) id = p ∧
      (gst_mpp_enc_set_property self p).prop_dirty = self.prop_dirty) := by
  cases p <;> simp only [Property.id, Option.some.injEq, reduceCtorEq] at hid <;> subst hid <;>
    simp only [gst_mpp_enc_get_property, ne_eq, Property.PROP_HEADER_MODE.injEq,
      Property.PROP_SEI_MODE.injEq, Property.PROP_RC_MODE.injEq, Property.PROP_GOP.injEq,
      Property.PROP_MAX_REENC.injEq, Property.PROP_BPS.injEq, Property.PROP_BPS_MIN.injEq,
      Property.PROP_BPS_MAX.injEq, Property.PROP_MAX_PENDING.injEq,
      Property.PROP_ROTATION.injEq, Property.PROP_WIDTH.injEq, Property.PROP_HEIGHT.injEq,
      Property.PROP_ZERO_COPY_PKT.injEq, Property.PROP_ARM_AFBC.injEq] at hne <;>
    refine ⟨?_, ?_, ?_⟩ <;>
    simp [gst_mpp_enc_set_property, gst_mpp_enc_get_property, hne] <;>
    intro h <;> simp [h]

/-- C16: once `input_state` is set, `gst_mpp_enc_set_property` on rotation,
width, height or arm-afbc returns with the whole instance unchanged, whatever
the value; while `input_state` is NULL the same call stores the new value and
changes no other property nor `prop_dirty`. -/
theorem set_property_immutable_after_negotiation (self : GstMppEnc) (p : Property)
    (id : PropertyId) (hid : p.id = some id)
    (h4 : id = PropertyId.PROP_ROTATION ∨ id = PropertyId.PROP_WIDTH ∨
      id = PropertyId.PROP_HEIGHT ∨ id = PropertyId.PROP_ARM_AFBC) :
    (self.input_state.isSome = true → gst_mpp_enc_set_property self p = self) ∧
    (self.input_state = none →
      gst_mpp_enc_get_property (gst_mpp_enc_set_property self p) id = p ∧
      (∀ other : PropertyId, other ≠ id →
        gst_mpp_enc_get_property (gst_mpp_enc_set_property self p) other =
          gst_mpp_enc_get_property self other) ∧
      (gst_mpp_enc_set_property self p).prop_dirty = self.prop_dirty ∧
      (gst_mpp_enc_set_property self p).input_state = none) := by
  cases p <;> simp only [Property.id, Option.some.injEq, reduceCtorEq] at hid <;> subst hid <;>
    simp only [reduceCtorEq, or_false, false_or, or_self] at h4 <;>
    refine ⟨fun h => by simp [gst_mpp_enc_set_property, h], fun h => ⟨?_, ?_, ?_, ?_⟩⟩ <;>
    first
    | (intro other hother
       cases other <;> simp [gst_mpp_enc_set_property, gst_mpp_enc_get_property, h] at hother ⊢)
    | simp [gst_mpp_enc_set_property, gst_mpp_enc_get_property, h]

theorem set_property_immutable_after_negotiation_witness :
    gst_mpp_enc_set_property demo_self (Property.PROP_WIDTH 640) = demo_self ∧
    (gst_mpp_enc_set_property (gst_mpp_enc_init 16 false) (Property.PROP_WIDTH 640)).width =
      640 :=
  ⟨(set_property_immutable_after_negotiation demo_self (Property.PROP_WIDTH 640)
      PropertyId.PROP_WIDTH rfl (Or.inr (Or.inl rfl))).1 (by decide),
   by decide⟩

/-! ## Packets that cannot be processed -/

theorem poll_finish_unprocessable (t : Encoder) (frame : GstVideoCodecFrame)
    (pkt : MppPacket) (src : Nat) (e : PollEnv)
    (hbad : pkt.has_buffer = false ∨
      (t.self.zero_copy_pkt = true ∧ (e.buffer_new_ok = false ∨ e.mem_import_ok = false)) ∨
      (t.self.zero_copy_pkt = false ∧ e.alloc_ok = false)) :
    (poll_finish t frame pkt src e).finished =
      t.finished ++ [(frame.system_frame_number, none)] := by
  have hz : (poll_revert_keyframe t frame e.ctl).self.zero_copy_pkt = t.self.zero_copy_pkt :=
    congrArg (fun x => x.self.zero_copy_pkt) (quietk_poll_revert_keyframe t frame e.ctl)
  have hfin : (poll_revert_keyframe t frame e.ctl).finished = t.finished :=
    congrArg (fun x => x.finished) (quietk_poll_revert_keyframe t frame e.ctl)
  have hnone : poll_output_buffer (poll_revert_keyframe t frame e.ctl) pkt src e = none := by
    unfold poll_output_buffer
    rw [hz]
    rcases hbad with h | ⟨h1, h | h⟩ | ⟨h1, h2⟩ <;> simp_all
  unfold poll_finish
  split_ifs
  · simp [poll_drop, gst_video_encoder_finish_frame]
  · simp only [hnone]
    simp [poll_drop, gst_video_encoder_finish_frame, hfin]

/-- C18: when `gst_mpp_enc_poll_packet_locked` receives a packet that cannot
be processed (`mpp_packet_get_buffer` is NULL, or in zero-copy mode
`gst_buffer_new` or the import fails, or otherwise the allocation of the
output buffer fails), it returns TRUE, `pending_frames` is one less, the
oldest frame has left the list of the base class and has been finished with
an empty output buffer, and `task_ret` is unchanged; the poll loop of the
worker goes on with its next call. -/
theorem poll_packet_locked_unprocessable (s : Encoder) (e : PollEnv) (pkt : MppPacket)
    (src : Nat) (mpp : MppCtx) (frame : GstVideoCodecFrame)
    (hp : encode_get_packet s.mpp e.packet = some (pkt, src, mpp))
    (hf : gst_video_encoder_get_oldest_frame s = some frame)
    (hout : outstanding s = s.self.pending_frames)
    (hlt : s.self.pending_frames < 4294967296)
    (hbad : pkt.has_buffer = false ∨
      (s.self.zero_copy_pkt = true ∧ (e.buffer_new_ok = false ∨ e.mem_import_ok = false)) ∨
      (s.self.zero_copy_pkt = false ∧ e.alloc_ok = false)) :
    ∃ s1, gst_mpp_enc_poll_packet_locked s e = some (true, s1) ∧
      s1.self.pending_frames + 1 = s.self.pending_frames ∧
      s1.finished = s.finished ++ [(frame.system_frame_number, none)] ∧
      frame :: s1.priv_frames = s.priv_frames ∧
      s1.self.task_ret = s.self.task_ret ∧
      ∀ (es : Nat → PollEnv) (fuel i : Nat), es i = e →
        poll_packets es (fuel + 1) i s = poll_packets es fuel (i + 1) s1 := by
  obtain ⟨rest, hrest⟩ : ∃ rest, s.priv_frames = frame :: rest := by
    unfold gst_video_encoder_get_oldest_frame at hf
    cases hs : s.priv_frames with
    | nil => rw [hs] at hf; cases hf
    | cons a rest =>
      rw [hs] at hf
      simp only [List.head?_cons, Option.some.injEq] at hf
      exact ⟨rest, by rw [hf]⟩
  have hpos : 0 < s.self.pending_frames := by
    have := (encode_get_packet_some _ _ _ _ _ hp).2.2.2.2
    unfold outstanding at hout
    omega
  have hr : gst_mpp_enc_poll_packet_locked s e =
      some (true, poll_finish (poll_take_packet s mpp) frame pkt src e) := by
    unfold gst_mpp_enc_poll_packet_locked
    rw [hp]
    have : gst_video_encoder_get_oldest_frame (poll_take_packet s mpp) = some frame := hf
    simp only [this]
  have hq := poll_finish_queues (poll_take_packet s mpp) frame rest pkt src e hrest
  have hfin := poll_finish_unprocessable (poll_take_packet s mpp) frame pkt src e hbad
  refine ⟨_, hr, ?_, hfin, ?_, hq.2.2.2.2.1, ?_⟩
  · rw [hq.2.2.2.1]
    show wrap_u32 ((s.self.pending_frames : Int) - 1) + 1 = s.self.pending_frames
    rw [wrap_u32_pred _ hpos hlt]
    omega
  · rw [hq.2.2.2.2.2.2.2.1, hrest]
  · intro es fuel i hi
    conv_lhs => unfold poll_packets
    rw [hi, hr]

theorem poll_packet_locked_unprocessable_witness :
    ∃ s1, gst_mpp_enc_poll_packet_locked demo_keyframe_sent demo_poll_no_buffer =
        some (true, s1) ∧
      s1.self.pending_frames + 1 = 1 ∧ s1.finished = [(7, none)] := by
  obtain ⟨s1, h1, h2, h3, _⟩ :=
    poll_packet_locked_unprocessable demo_keyframe_sent demo_poll_no_buffer
      { index := 0, length := 0, has_buffer := false } 7
      { demo_keyframe_sent.mpp with inflight := [] }
      { demo_frame 7 true with output_buffer := some (GstBuffer.sw_copied 7) }
      rfl rfl (by decide) (by decide) (Or.inl rfl)
  exact ⟨s1, h1, h2, h3⟩

/-! ## A failed configuration push -/

theorem apply_properties_clean (s : Encoder) (e : ControlEnv)
    (hd : s.self.prop_dirty = false) : gst_mpp_enc_apply_properties s e = (true, s) := by
  simp [gst_mpp_enc_apply_properties, hd]

theorem apply_properties_ok (s : Encoder) (e : ControlEnv) :
    (gst_mpp_enc_apply_properties s e).1 = true ↔
      (s.self.prop_dirty = false ∨ e.cfg_ret = 0) := by
  by_cases hd : s.self.prop_dirty = true
  · rw [(apply_properties_push s e hd).1]
    simp [hd]
  · have hd1 : s.self.prop_dirty = false := by simpa using hd
    rw [apply_properties_clean s e hd1]
    simp [hd1]

theorem apply_strides_calls (s : Encoder)
    (align : GstVideoInfo → Int → Int → Bool × GstVideoInfo) (hstride vstride : Int) :
    (gst_mpp_enc_apply_strides s align hstride vstride).2.mpp = s.mpp := by
  unfold gst_mpp_enc_apply_strides
  simp only
  split_ifs <;> rfl

theorem convert_failed_push (s t : Encoder) (frame : GstVideoCodecFrame) (e : ConvertEnv)
    (r : Option GstBuffer) (h : gst_mpp_enc_convert s frame e = some (r, t))
    (hc : t.mpp.calls ≠ s.mpp.calls) (hcfg : e.ctl.cfg_ret ≠ 0) :
    r = none ∧ t.self.prop_dirty = false := by
  unfold gst_mpp_enc_convert at h
  cases hi : s.self.input_state with
  | none => rw [hi] at h; cases h
  | some input_state =>
    rw [hi] at h
    simp only at h
    generalize hu : (gst_mpp_enc_apply_strides s e.align _ _).2 = u at h
    have hm : u.mpp = s.mpp := by
      rw [← hu]
      exact apply_strides_calls _ _ _ _
    have hdirty : u.self.prop_dirty = true := by
      by_contra hd
      have hd1 : u.self.prop_dirty = false := by simpa using hd
      rw [apply_properties_clean u e.ctl hd1] at h
      split_ifs at h <;> simp only [Option.some.injEq, Prod.mk.injEq] at h <;>
        apply hc <;> rw [← h.2] <;> first | rfl | rw [hm]
    have hp := apply_properties_push u e.ctl hdirty
    have hfalse : (gst_mpp_enc_apply_properties u e.ctl).1 = false := by
      rw [hp.1]
      simpa using hcfg
    rw [hfalse] at h
    split_ifs at h <;> simp only [Option.some.injEq, Prod.mk.injEq] at h
    all_goals first
      | (refine ⟨h.1.symm, ?_⟩
         rw [← h.2]
         exact hp.2.1)
      | (exfalso
         apply hc
         rw [← h.2]
         done)
      | (exfalso
         simp at *)


theorem quiet_set_cfg (s : Encoder) (cfg : MppEncCfg) :
    quiet { s with self.mpp_cfg := cfg } = quiet s := rfl

theorem set_cfg_dirty (s : Encoder) (cfg : MppEncCfg) :
    ({ s with self.mpp_cfg := cfg } : Encoder).self.prop_dirty = s.self.prop_dirty := rfl

theorem jpeg_apply_properties_dirty (u : GstMppJpegEnc) (ctl : ControlEnv)
    (hu : u.parent.self.prop_dirty = true) :
    gst_mpp_jpeg_enc_apply_properties u ctl =
      ((gst_mpp_enc_apply_properties
          { u.parent with self.mpp_cfg := jpeg_set_cfg u } ctl).1,
       { u with parent := (gst_mpp_enc_apply_properties
          { u.parent with self.mpp_cfg := jpeg_set_cfg u } ctl).2 }) := by
  unfold gst_mpp_jpeg_enc_apply_properties
  rw [if_neg (by simp [hu])]

theorem jpeg_apply_properties_clean (u : GstMppJpegEnc) (ctl : ControlEnv)
    (hu : u.parent.self.prop_dirty = false) :
    gst_mpp_jpeg_enc_apply_properties u ctl = (true, u) := by
  unfold gst_mpp_jpeg_enc_apply_properties
  rw [if_pos (by simp [hu])]

theorem jpeg_apply_properties_quiet (u : GstMppJpegEnc) (ctl : ControlEnv) :
    quiet (gst_mpp_jpeg_enc_apply_properties u ctl).2.parent = quiet u.parent := by
  by_cases hu : u.parent.self.prop_dirty = true
  · rw [jpeg_apply_properties_dirty u ctl hu]
    show quiet (gst_mpp_enc_apply_properties _ ctl).2 = _
    rw [quiet_apply_properties]
    exact quiet_set_cfg _ _
  · rw [jpeg_apply_properties_clean u ctl (by simpa using hu)]

theorem jpeg_apply_properties_ok (u : GstMppJpegEnc) (ctl : ControlEnv) :
    (gst_mpp_jpeg_enc_apply_properties u ctl).1 = true ↔
      (u.parent.self.prop_dirty = false ∨ ctl.cfg_ret = 0) := by
  by_cases hu : u.parent.self.prop_dirty = true
  · rw [jpeg_apply_properties_dirty u ctl hu]
    have hd := (set_cfg_dirty u.parent (jpeg_set_cfg u)).trans hu
    show (gst_mpp_enc_apply_properties _ ctl).1 = true ↔ _
    rw [(apply_properties_push _ ctl hd).1]
    simp [hu]
  · have hu1 : u.parent.self.prop_dirty = false := by simpa using hu
    rw [jpeg_apply_properties_clean u ctl hu1]
    simp [hu1]

theorem jpeg_apply_properties_clears (u : GstMppJpegEnc) (ctl : ControlEnv) :
    (gst_mpp_jpeg_enc_apply_properties u ctl).2.parent.self.prop_dirty = false := by
  by_cases hu : u.parent.self.prop_dirty = true
  · rw [jpeg_apply_properties_dirty u ctl hu]
    have hd := (set_cfg_dirty u.parent (jpeg_set_cfg u)).trans hu
    exact (apply_properties_push _ ctl hd).2.1
  · have hu1 : u.parent.self.prop_dirty = false := by simpa using hu
    rw [jpeg_apply_properties_clean u ctl hu1]
    exact hu1

/-- C17 (amended): `gst_mpp_enc_apply_properties` returns TRUE exactly when
nothing is dirty or the `MPP_ENC_SET_CFG` call succeeds (the return codes of
the SEI and header mode calls do not matter); when the push made by the
conversion step of `gst_mpp_enc_handle_frame` fails, the call finishes the
frame without enqueuing it and returns `GST_FLOW_NOT_NEGOTIATED`, with
`prop_dirty` left clear; when the push made by
`gst_mpp_jpeg_enc_handle_frame` fails, that call returns
`GST_FLOW_NOT_NEGOTIATED` without handing the frame to the generic encoder,
and otherwise it returns what `gst_mpp_enc_handle_frame` returns. -/
theorem failed_push_is_reported :
    (∀ (s : Encoder) (e : ControlEnv),
      (gst_mpp_enc_apply_properties s e).1 = true ↔
        (s.self.prop_dirty = false ∨ e.cfg_ret = 0)) ∧
    (∀ (s s1 : Encoder) (frame : GstVideoCodecFrame) (e : ConvertEnv)
      (wake : Encoder → Option Encoder) (r : Option GstBuffer),
      s.self.flushing = false →
      gst_mpp_enc_convert (handle_frame_start_task s) frame e = some (r, s1) →
      s1.mpp.calls ≠ s.mpp.calls → e.ctl.cfg_ret ≠ 0 →
      gst_mpp_enc_handle_frame s frame e wake =
        some (GstFlowReturn.GST_FLOW_NOT_NEGOTIATED, gst_video_encoder_finish_frame s1 frame) ∧
      s1.self.frames = s.self.frames ∧ s1.self.pending_frames = s.self.pending_frames ∧
      s1.self.prop_dirty = false) ∧
    (∀ (j : GstMppJpegEnc) (frame : GstVideoCodecFrame) (ctl : ControlEnv) (e : ConvertEnv)
      (wake : Encoder → Option Encoder),
      j.parent.self.prop_dirty = true → ctl.cfg_ret ≠ 0 →
      ∃ j1, gst_mpp_jpeg_enc_handle_frame j frame ctl e wake =
          some (GstFlowReturn.GST_FLOW_NOT_NEGOTIATED, j1) ∧
        j1.parent.self.frames = j.parent.self.frames ∧
        j1.parent.self.pending_frames = j.parent.self.pending_frames ∧
        j1.parent.priv_frames = j.parent.priv_frames ∧
        j1.parent.finished = j.parent.finished ∧
        j1.parent.self.prop_dirty = false) ∧
    (∀ (j : GstMppJpegEnc) (frame : GstVideoCodecFrame) (ctl : ControlEnv) (e : ConvertEnv)
      (wake : Encoder → Option Encoder),
      j.parent.self.prop_dirty = false ∨ ctl.cfg_ret = 0 →
      gst_mpp_jpeg_enc_handle_frame j frame ctl e wake =
        (gst_mpp_enc_handle_frame (gst_mpp_jpeg_enc_apply_properties j ctl).2.parent frame e
          wake).map
          (fun r => (r.1, { (gst_mpp_jpeg_enc_apply_properties j ctl).2 with parent := r.2 }))) := by
  refine ⟨apply_properties_ok, ?_, ?_, ?_⟩
  · intro s s1 frame e wake r hfl hconv hc hcfg
    have hc1 : s1.mpp.calls ≠ (handle_frame_start_task s).mpp.calls := by
      rw [(handle_frame_start_task_rest s).2.2]
      exact hc
    obtain ⟨hr, hd⟩ := convert_failed_push _ _ _ _ _ hconv hc1 hcfg
    have hq := quietc_convert _ _ _ _ _ hconv
    have hself := handle_frame_start_task_self s
    refine ⟨?_, ?_, ?_, hd⟩
    · unfold gst_mpp_enc_handle_frame
      rw [if_neg (by simp [hfl]), hconv, hr]
      rfl
    · have h1 : s1.self.frames = (handle_frame_start_task s).self.frames :=
        congrArg (fun x => x.self.frames) hq
      rw [h1, hself]
    · have h1 : s1.self.pending_frames = (handle_frame_start_task s).self.pending_frames :=
        congrArg (fun x => x.self.pending_frames) hq
      rw [h1, hself]
  · intro j frame ctl e wake hd hcfg
    have k1 : (gst_mpp_jpeg_enc_apply_properties j ctl).1 = false := by
      have := (jpeg_apply_properties_ok j ctl).not
      simp only [Bool.not_eq_true] at this
      rw [this]
      simp [hd, hcfg]
    have k2 := jpeg_apply_properties_quiet j ctl
    refine ⟨(gst_mpp_jpeg_enc_apply_properties j ctl).2, ?_, ?_, ?_, ?_, ?_,
      jpeg_apply_properties_clears j ctl⟩
    · unfold gst_mpp_jpeg_enc_handle_frame
      simp only [k1, Bool.not_false, if_true]
    · exact congrArg (fun x => x.self.frames) k2
    · exact congrArg (fun x => x.self.pending_frames) k2
    · exact congrArg (fun x => x.priv_frames) k2
    · exact congrArg (fun x => x.finished) k2
  · intro j frame ctl e wake h
    have k1 : (gst_mpp_jpeg_enc_apply_properties j ctl).1 = true :=
      (jpeg_apply_properties_ok j ctl).2 h
    unfold gst_mpp_jpeg_enc_handle_frame
    simp only [k1, Bool.not_true, Bool.false_eq_true, if_false]
    cases gst_mpp_enc_handle_frame (gst_mpp_jpeg_enc_apply_properties j ctl).2.parent frame e
      wake with
    | none => rfl
    | some r => rfl

/-- C17 (counterexample): the input buffer of frame 0 can be used as it is
and the `MPP_ENC_SET_CFG` call of `gst_mpp_enc_apply_properties` fails:
`gst_mpp_enc_handle_frame` returns `GST_FLOW_NOT_NEGOTIATED` and finishes the
frame without enqueuing it, while with a successful call the same frame is
enqueued and the status is `GST_FLOW_OK`; `gst_mpp_jpeg_enc_handle_frame`
returns `GST_FLOW_NOT_NEGOTIATED` as well. -/
theorem failed_push_drops_frame :
    (gst_video_encoder_chain demo_negotiated (demo_frame 0 false) demo_import_cfg_fails
        (fun _ => none)).map
      (fun r => (r.1, r.2.self.frames, r.2.self.pending_frames, r.2.finished)) =
      some (GstFlowReturn.GST_FLOW_NOT_NEGOTIATED, [], 0, [(0, none)]) ∧
    (gst_video_encoder_chain demo_negotiated (demo_frame 0 false) demo_import
        (fun _ => none)).map
      (fun r => (r.1, r.2.self.frames, r.2.self.pending_frames, r.2.finished)) =
      some (GstFlowReturn.GST_FLOW_OK, [0], 1, []) ∧
    (gst_mpp_jpeg_enc_handle_frame demo_jpeg (demo_frame 0 false) demo_ctl_cfg_fails
        demo_import (fun _ => none)).map
      (fun r => (r.1, r.2.parent.self.frames, r.2.parent.self.pending_frames)) =
      some (GstFlowReturn.GST_FLOW_NOT_NEGOTIATED, [], 0) :=
  ⟨rfl, rfl, rfl⟩


theorem failed_push_is_reported_witness :
    ∃ j1, gst_mpp_jpeg_enc_handle_frame demo_jpeg (demo_frame 0 false) demo_ctl_cfg_fails
        demo_import (fun _ => none) = some (GstFlowReturn.GST_FLOW_NOT_NEGOTIATED, j1) ∧
      j1.parent.priv_frames = [demo_frame 0 false] :=
  (failed_push_is_reported.2.2.1 demo_jpeg (demo_frame 0 false) demo_ctl_cfg_fails demo_import
    (fun _ => none) (by decide) (by decide)).imp
    (fun _ h => ⟨h.1, h.2.2.2.1⟩)

/-! ## After the worker has paused itself -/

theorem loop_pauses_only_flushing (s s1 : Encoder) (e : LoopEnv)
    (h : gst_mpp_enc_loop s e = some s1)
    (hok : s.self.task_ret = GstFlowReturn.GST_FLOW_OK)
    (hne : s1.self.task_ret ≠ GstFlowReturn.GST_FLOW_OK) :
    s.self.flushing = true ∧ s1.self.flushing = true ∧
    s1.task = GstTaskState.GST_TASK_PAUSED ∧
    s1.self.task_ret = GstFlowReturn.GST_FLOW_FLUSHING ∧ s1.self.pending_frames = 0 := by
  rcases loop_progress s s1 e h with ⟨hf, hp, rfl⟩ | ⟨_, ht, _⟩
  · exact ⟨hf, hf, rfl, rfl, hp⟩
  · rw [ht] at hne
    exact absurd hok hne

theorem handle_frame_flushing (s : Encoder) (frame : GstVideoCodecFrame) (e : ConvertEnv)
    (wake : Encoder → Option Encoder) (h : s.self.flushing = true) :
    gst_mpp_enc_handle_frame s frame e wake =
      some (GstFlowReturn.GST_FLOW_FLUSHING, gst_video_encoder_finish_frame s frame) := by
  unfold gst_mpp_enc_handle_frame
  rw [if_pos h]
  rfl

theorem reset_idle (s : Encoder) (drain final : Bool) (worker : List LoopEnv)
    (ht : s.task ≠ GstTaskState.GST_TASK_STARTED) :
    gst_mpp_enc_reset s drain final worker =
      some (reset_state { s with self.flushing := true, self.draining := true } final) := by
  rw [reset_eq]
  unfold gst_mpp_enc_stop_task
  rw [if_pos ht]
  rfl

theorem operate_flushing (ops : List Operation) :
    ∀ s : Encoder, s.self.flushing = true → s.task ≠ GstTaskState.GST_TASK_STARTED →
      (∀ op ∈ ops, op.keeps_flushing = true) →
      ∃ t, operate ops s =
          some (t, (handled ops).map (fun _ => GstFlowReturn.GST_FLOW_FLUSHING)) ∧
        t.self.flushing = true ∧ t.task = s.task ∧
        t.finished = s.finished ++
          (handled ops).map (fun f => (f.system_frame_number, f.output_buffer)) ∧
        ∀ n ∈ t.self.frames, n ∈ s.self.frames := by
  induction ops with
  | nil =>
    intro s hf _ _
    exact ⟨s, rfl, hf, rfl, by simp [handled], fun n hn => hn⟩
  | cons op ops ih =>
    intro s hf ht hall
    have hrest : ∀ op ∈ ops, op.keeps_flushing = true :=
      fun o ho => hall o (List.mem_cons_of_mem _ ho)
    cases op with
    | handle_frame frame e wake =>
      obtain ⟨t, h1, h2, h3, h4, h5⟩ :=
        ih (gst_video_encoder_finish_frame { s with priv_frames := s.priv_frames ++ [frame] }
          frame) hf ht hrest
      refine ⟨t, ?_, h2, h3, ?_, h5⟩
      · simp only [operate, gst_video_encoder_chain, handled, List.map_cons]
        rw [handle_frame_flushing { s with priv_frames := s.priv_frames ++ [frame] } frame e
          wake hf]
        simp only [h1]
      · rw [h4]
        simp [gst_video_encoder_finish_frame, handled]
    | set_property p =>
      have hf1 : (gst_mpp_enc_set_property s.self p).flushing = true := by
        rw [← hf]
        cases p <;> simp only [gst_mpp_enc_set_property] <;> split_ifs <;> rfl
      have hfr : (gst_mpp_enc_set_property s.self p).frames = s.self.frames := by
        cases p <;> simp only [gst_mpp_enc_set_property] <;> split_ifs <;> rfl
      obtain ⟨t, h1, h2, h3, h4, h5⟩ :=
        ih { s with self := gst_mpp_enc_set_property s.self p } hf1 ht hrest
      refine ⟨t, ?_, h2, h3, h4, ?_⟩
      · simp only [operate, handled]
        exact h1
      · intro n hn
        have := h5 n hn
        rw [hfr] at this
        exact this
    | reset drain final worker =>
      have hfin : final = true := hall _ (List.mem_cons_self _ _)
      subst hfin
      obtain ⟨t, h1, h2, h3, h4, h5⟩ :=
        ih (reset_state { s with self.flushing := true, self.draining := true } true) rfl ht
          hrest
      refine ⟨t, ?_, h2, h3, h4, ?_⟩
      · simp only [operate, handled]
        rw [reset_idle s drain true worker ht]
        exact h1
      · intro n hn
        have := h5 n hn
        simp [reset_state, mpi_call] at this

theorem handle_frame_start_task_started (s : Encoder) :
    (handle_frame_start_task s).task = GstTaskState.GST_TASK_STARTED := by
  unfold handle_frame_start_task
  split_ifs with h
  · rfl
  · exact not_not.mp h

theorem handle_frame_idle (s s2 : Encoder) (frame : GstVideoCodecFrame) (e : ConvertEnv)
    (wake : Encoder → Option Encoder) (ret : GstFlowReturn)
    (hfl : s.self.flushing = false) (hp : s.self.pending_frames < s.self.max_pending)
    (h : gst_mpp_enc_handle_frame s frame e wake = some (ret, s2)) :
    s2.task = GstTaskState.GST_TASK_STARTED ∧
    (ret = GstFlowReturn.GST_FLOW_NOT_NEGOTIATED ∨ ret = s.self.task_ret) := by
  unfold gst_mpp_enc_handle_frame at h
  rw [if_neg (by simp [hfl])] at h
  cases hc : gst_mpp_enc_convert (handle_frame_start_task s) frame e with
  | none => rw [hc] at h; cases h
  | some r =>
    obtain ⟨b, c⟩ := r
    rw [hc] at h
    have hq := quietc_convert _ _ _ _ _ hc
    have hself := handle_frame_start_task_self s
    have htask : c.task = GstTaskState.GST_TASK_STARTED := by
      have h1 : c.task = (handle_frame_start_task s).task := congrArg (fun x => x.task) hq
      rw [h1, handle_frame_start_task_started]
    have hcs : c.self.flushing = s.self.flushing ∧
        c.self.pending_frames = s.self.pending_frames ∧
        c.self.max_pending = s.self.max_pending ∧ c.self.task_ret = s.self.task_ret := by
      have h1 : c.self.flushing = (handle_frame_start_task s).self.flushing :=
        congrArg (fun x => x.self.flushing) hq
      have h2 : c.self.pending_frames = (handle_frame_start_task s).self.pending_frames :=
        congrArg (fun x => x.self.pending_frames) hq
      have h3 : c.self.max_pending = (handle_frame_start_task s).self.max_pending :=
        congrArg (fun x => x.self.max_pending) hq
      have h4 : c.self.task_ret = (handle_frame_start_task s).self.task_ret :=
        congrArg (fun x => x.self.task_ret) hq
      rw [hself] at h1 h2 h3 h4
      exact ⟨h1, h2, h3, h4⟩
    cases b with
    | none =>
      simp only [Option.some.injEq, Prod.mk.injEq, handle_frame_drop] at h
      refine ⟨?_, Or.inl h.1.symm⟩
      rw [← h.2]
      exact htask
    | some buffer =>
      simp only at h
      have hroom : (set_output_buffer c frame.system_frame_number (some buffer)).self.pending_frames
          < (set_output_buffer c frame.system_frame_number (some buffer)).self.max_pending := by
        show c.self.pending_frames < c.self.max_pending
        rw [hcs.2.1, hcs.2.2.1]
        exact hp
      rw [handle_frame_wait_room _ wake hroom] at h
      simp only [Option.some.injEq] at h
      unfold handle_frame_enqueue at h
      have hfl2 : (set_output_buffer c frame.system_frame_number (some buffer)).self.flushing
          = false := by
        show c.self.flushing = false
        rw [hcs.1, hfl]
      rw [if_neg (by simp [hfl2])] at h
      simp only [Prod.mk.injEq] at h
      refine ⟨?_, Or.inr ?_⟩
      · rw [← h.2]
        exact htask
      · rw [← h.1]
        exact hcs.2.2.2

theorem reset_not_final (s s1 : Encoder) (drain : Bool) (worker : List LoopEnv)
    (h : gst_mpp_enc_reset s drain false worker = some s1) :
    s1.self.flushing = false ∧ s1.self.task_ret = GstFlowReturn.GST_FLOW_OK ∧
    s1.self.pending_frames = 0 ∧ s1.task ≠ GstTaskState.GST_TASK_STARTED := by
  rw [reset_eq] at h
  cases hs : gst_mpp_enc_stop_task { s with self.flushing := true, self.draining := true }
      true worker with
  | none => rw [hs] at h; cases h
  | some t =>
    rw [hs] at h
    simp only [Option.map_some', Option.some.injEq] at h
    subst h
    exact ⟨rfl, rfl, rfl, (stop_task_spec _ _ _ hs).1⟩

/-- C20 (counterexample): during `gst_mpp_enc_finish` the worker drains the
two pending frames and pauses itself with `task_ret` `GST_FLOW_FLUSHING`; with
no `gst_mpp_enc_start` in between, the next `gst_mpp_enc_handle_frame` returns
`GST_FLOW_OK`, enqueues frame 2 and leaves the worker task started. -/
theorem worker_resumed_without_start :
    demo_worker_paused.task = GstTaskState.GST_TASK_PAUSED ∧
    demo_worker_paused.self.task_ret = GstFlowReturn.GST_FLOW_FLUSHING ∧
    gst_mpp_enc_finish demo_two_pending [demo_loop, demo_loop] =
      some (reset_state { demo_worker_paused with task := GstTaskState.GST_TASK_STOPPED }
        false) ∧
    (operate
        [Operation.reset true false [demo_loop, demo_loop],
         Operation.handle_frame (demo_frame 2 false) demo_convert (fun _ => none)]
        demo_two_pending).map (fun r => (r.2, r.1.task, r.1.self.frames)) =
      some ([GstFlowReturn.GST_FLOW_OK], GstTaskState.GST_TASK_STARTED, [2]) :=
  ⟨rfl, rfl, rfl, rfl⟩

/-- C20 (amended): the worker pauses itself with a non-ok `task_ret` only
while `flushing` is set.  As long as `flushing` stays set, that is in every
sequence of `gst_mpp_enc_handle_frame` calls, `gst_mpp_enc_set_property`
calls and resets with `final` TRUE, every `gst_mpp_enc_handle_frame` call
returns `GST_FLOW_FLUSHING` and finishes its frame without enqueuing it, and
the task is not started.  A reset with `final` FALSE (flush, finish) clears
`flushing` and `task_ret` like `gst_mpp_enc_start` does, and the next
`gst_mpp_enc_handle_frame` starts the worker task again. -/
theorem worker_resumed_once_flushing_is_cleared :
    (∀ (s s1 : Encoder) (e : LoopEnv), gst_mpp_enc_loop s e = some s1 →
      s.self.task_ret = GstFlowReturn.GST_FLOW_OK →
      s1.self.task_ret ≠ GstFlowReturn.GST_FLOW_OK →
      s1.self.flushing = true ∧ s1.task = GstTaskState.GST_TASK_PAUSED ∧
      s1.self.task_ret = GstFlowReturn.GST_FLOW_FLUSHING) ∧
    (∀ (ops : List Operation) (s : Encoder), s.self.flushing = true →
      s.task ≠ GstTaskState.GST_TASK_STARTED →
      (∀ op ∈ ops, op.keeps_flushing = true) →
      ∃ t, operate ops s =
          some (t, (handled ops).map (fun _ => GstFlowReturn.GST_FLOW_FLUSHING)) ∧
        t.self.flushing = true ∧ t.task = s.task ∧
        t.finished = s.finished ++
          (handled ops).map (fun f => (f.system_frame_number, f.output_buffer)) ∧
        ∀ n ∈ t.self.frames, n ∈ s.self.frames) ∧
    (∀ (s s1 : Encoder) (e : StartEnv), gst_mpp_enc_start s e = (true, s1) →
      s1.self.flushing = false ∧ s1.self.task_ret = GstFlowReturn.GST_FLOW_OK) ∧
    (∀ (s s1 : Encoder) (drain : Bool) (worker : List LoopEnv),
      gst_mpp_enc_reset s drain false worker = some s1 →
      s1.self.flushing = false ∧ s1.self.task_ret = GstFlowReturn.GST_FLOW_OK ∧
      s1.task ≠ GstTaskState.GST_TASK_STARTED ∧
      ∀ (frame : GstVideoCodecFrame) (e : ConvertEnv) (wake : Encoder → Option Encoder)
        (ret : GstFlowReturn) (s2 : Encoder),
        0 < s1.self.max_pending →
        gst_video_encoder_chain s1 frame e wake = some (ret, s2) →
        s2.task = GstTaskState.GST_TASK_STARTED ∧ ret ≠ GstFlowReturn.GST_FLOW_FLUSHING) := by
  refine ⟨?_, operate_flushing, ?_, ?_⟩
  · intro s s1 e h hok hne
    obtain ⟨_, a, b, c, _⟩ := loop_pauses_only_flushing s s1 e h hok hne
    exact ⟨a, b, c⟩
  · intro s s1 e h
    unfold gst_mpp_enc_start at h
    simp only at h
    split_ifs at h <;> simp only [Prod.mk.injEq, Bool.false_eq_true, false_and] at h
    obtain ⟨_, rfl⟩ := h
    exact ⟨rfl, rfl⟩
  · intro s s1 drain worker h
    obtain ⟨hfl, hret, hp, ht⟩ := reset_not_final s s1 drain worker h
    refine ⟨hfl, hret, ht, ?_⟩
    intro frame e wake ret s2 hmax hch
    unfold gst_video_encoder_chain at hch
    have hroom : ({ s1 with priv_frames := s1.priv_frames ++ [frame] } : Encoder).self.pending_frames
        < ({ s1 with priv_frames := s1.priv_frames ++ [frame] } : Encoder).self.max_pending := by
      show s1.self.pending_frames < s1.self.max_pending
      rw [hp]
      exact hmax
    obtain ⟨h1, h2⟩ := handle_frame_idle
      { s1 with priv_frames := s1.priv_frames ++ [frame] } s2 frame e wake ret hfl hroom hch
    refine ⟨h1, ?_⟩
    rcases h2 with h2 | h2
    · rw [h2]
      decide
    · rw [h2]
      show s1.self.task_ret ≠ _
      rw [hret]
      decide

theorem worker_resumed_once_flushing_is_cleared_witness :
    ∃ t, operate
        [Operation.handle_frame (demo_frame 2 false) demo_convert (fun _ => none),
         Operation.set_property (Property.PROP_BPS 4000000),
         Operation.reset false true [],
         Operation.handle_frame (demo_frame 3 false) demo_convert (fun _ => none)]
        demo_stopped =
        some (t, [GstFlowReturn.GST_FLOW_FLUSHING, GstFlowReturn.GST_FLOW_FLUSHING]) ∧
      t.task = GstTaskState.GST_TASK_STOPPED :=
  (worker_resumed_once_flushing_is_cleared.2.1
    [Operation.handle_frame (demo_frame 2 false) demo_convert (fun _ => none),
     Operation.set_property (Property.PROP_BPS 4000000),
     Operation.reset false true [],
     Operation.handle_frame (demo_frame 3 false) demo_convert (fun _ => none)]
    demo_stopped rfl (by decide) (by decide)).imp (fun _ h => ⟨h.1, h.2.2.1⟩)

/-! ## The dirty flag -/

theorem apply_properties_clears (s : Encoder) (e : ControlEnv) :
    (gst_mpp_enc_apply_properties s e).2.self.prop_dirty = false := by
  by_cases hd : s.self.prop_dirty = true
  · exact (apply_properties_push s e hd).2.1
  · have hd1 : s.self.prop_dirty = false := by simpa using hd
    rw [apply_properties_clean s e hd1]
    exact hd1

/-- C21: with `prop_dirty` clear `gst_mpp_enc_apply_properties` returns TRUE
and leaves the element and the MPP context (so also its call log) as they
are; after any call `prop_dirty` is clear, also when the push fails, so a
second call right after a first one returns TRUE and changes nothing; with
`prop_dirty` set the three control calls are made after the flag has been
cleared; `gst_mpp_jpeg_enc_apply_properties` with `prop_dirty` clear returns
TRUE and writes nothing, and a second call of it is a no-op as well. -/
theorem apply_properties_idempotent :
    (∀ (s : Encoder) (e : ControlEnv), s.self.prop_dirty = false →
      gst_mpp_enc_apply_properties s e = (true, s)) ∧
    (∀ (s : Encoder) (e : ControlEnv),
      (gst_mpp_enc_apply_properties s e).2.self.prop_dirty = false) ∧
    (∀ (s : Encoder) (e : ControlEnv), s.self.prop_dirty = true →
      ∃ cfg, (gst_mpp_enc_apply_properties s e).2.mpp.calls = s.mpp.calls ++
        [MpiCall.control_set_sei_cfg s.self.sei_mode e.sei_ret,
         MpiCall.control_set_header_mode s.self.header_mode e.header_ret,
         MpiCall.control_set_cfg cfg e.cfg_ret]) ∧
    (∀ (s : Encoder) (e e2 : ControlEnv),
      gst_mpp_enc_apply_properties (gst_mpp_enc_apply_properties s e).2 e2 =
        (true, (gst_mpp_enc_apply_properties s e).2)) ∧
    (∀ (j : GstMppJpegEnc) (e : ControlEnv), j.parent.self.prop_dirty = false →
      gst_mpp_jpeg_enc_apply_properties j e = (true, j)) ∧
    (∀ (j : GstMppJpegEnc) (e e2 : ControlEnv),
      gst_mpp_jpeg_enc_apply_properties (gst_mpp_jpeg_enc_apply_properties j e).2 e2 =
        (true, (gst_mpp_jpeg_enc_apply_properties j e).2)) :=
  ⟨apply_properties_clean, apply_properties_clears,
    fun s e hd => ⟨_, (apply_properties_push s e hd).2.2.2⟩,
    fun s e e2 => apply_properties_clean _ e2 (apply_properties_clears s e),
    jpeg_apply_properties_clean,
    fun j e e2 => jpeg_apply_properties_clean _ e2 (jpeg_apply_properties_clears j e)⟩

theorem apply_properties_idempotent_witness :
    gst_mpp_enc_apply_properties demo_applied demo_ctl_cfg_fails = (true, demo_applied) ∧
    ∃ cfg, (gst_mpp_enc_apply_properties demo_encoder demo_ctl_cfg_fails).2.mpp.calls =
      [MpiCall.control_set_sei_cfg MppEncSeiMode.MPP_ENC_SEI_MODE_DISABLE 0,
       MpiCall.control_set_header_mode MppEncHeaderMode.MPP_ENC_HEADER_MODE_DEFAULT 0,
       MpiCall.control_set_cfg cfg (-1)] :=
  ⟨apply_properties_idempotent.1 demo_applied demo_ctl_cfg_fails (by decide),
   apply_properties_idempotent.2.2.1 demo_encoder demo_ctl_cfg_fails (by decide)⟩

/-- C22 (code at the failing input): frame 0 is not flagged force-keyframe,
no keyframe request is pending (`required_keyframe_number` is 0, as
`gst_mpp_enc_start` left it) and the properties have been pushed
(`prop_dirty` is clear).  When the packet of frame 0 is polled,
`gst_mpp_enc_poll_packet_locked` runs the revert all the same: the SEI, header
mode and configuration control calls are made again.  Polling the packet of
frame 1, equally without a request, makes no call. -/
theorem poll_reverts_keyframe_for_frame_zero :
    gst_video_encoder_get_oldest_frame demo_first_sent =
      some { demo_frame 0 false with output_buffer := some (GstBuffer.imported 0) } ∧
    demo_first_sent.self.required_keyframe_number = 0 ∧
    demo_first_sent.self.prop_dirty = false ∧
    (∃ cfg, (gst_mpp_enc_poll_packet_locked demo_first_sent demo_poll).map
        (fun r => (r.1, r.2.mpp.calls)) =
      some (true, demo_first_sent.mpp.calls ++
        [MpiCall.control_set_sei_cfg MppEncSeiMode.MPP_ENC_SEI_MODE_DISABLE 0,
         MpiCall.control_set_header_mode MppEncHeaderMode.MPP_ENC_HEADER_MODE_DEFAULT 0,
         MpiCall.control_set_cfg cfg 0])) ∧
    demo_second_sent.self.required_keyframe_number = 0 ∧
    (gst_mpp_enc_poll_packet_locked demo_second_sent demo_poll).map
        (fun r => (r.1, r.2.mpp.calls)) =
      some (true, demo_second_sent.mpp.calls) :=
  ⟨rfl, rfl, rfl, ⟨_, rfl⟩, rfl, rfl⟩

/-! ## The counter of pending frames, step by step -/

theorem worker_step_inv (s s1 : Encoder) (hi : SessionInv s) (h : WorkerStep s s1) :
    SessionInv s1 ∧ s1.task = s.task ∧ s1.self.flushing = s.self.flushing ∧
      s1.self.max_pending = s.self.max_pending := by
  have key : ∀ done, WorkerProgress s s1 done → s1.self.task_ret = s.self.task_ret →
      s1.task = s.task →
      SessionInv s1 ∧ s1.task = s.task ∧ s1.self.flushing = s.self.flushing ∧
        s1.self.max_pending = s.self.max_pending := by
    intro done p hret htask
    have hpe := p.pending_eq (by rw [hi.outstanding_eq]) hi.pending_lt
    have hoe := p.outstanding_eq
    have hfl : s1.self.flushing = s.self.flushing :=
      congrArg (fun x => x.self.flushing) p.stable_eq
    have hmax : s1.self.max_pending = s.self.max_pending :=
      congrArg (fun x => x.self.max_pending) p.stable_eq
    have ho := hi.outstanding_eq
    have hl := hi.pending_lt
    refine ⟨?_, htask, hfl, hmax⟩
    exact
      { outstanding_eq := by omega
        pending_lt := by omega
        max_lt := by rw [hmax]; exact hi.max_lt
        task_ret_ok := hret.trans hi.task_ret_ok
        flushing_idle := by
          intro hf
          rw [hfl] at hf
          rw [htask]
          exact hi.flushing_idle hf
        idle_empty := by
          intro hne
          rw [htask] at hne
          have := hi.idle_empty hne
          omega }
  cases h with
  | send e b hs =>
    have q := send_frame_locked_queues s s1 e b hs
    exact key [] (send_frame_locked_progress s s1 e b hs) q.2.2.2.1 q.2.2.2.2.1
  | poll e b hp =>
    have q := poll_packet_locked_queues s s1 e b hp
    cases b with
    | false =>
      have := q.2.2.2.2.2.1 rfl
      subst this
      exact ⟨hi, rfl, rfl, rfl⟩
    | true =>
      obtain ⟨n, out, p, _⟩ := poll_packet_locked_progress s s1 e hp
      exact key _ p q.2.2.2.1 q.2.2.2.2.1

theorem worker_steps_inv (s s1 : Encoder) (hi : SessionInv s)
    (h : Relation.ReflTransGen WorkerStep s s1) :
    SessionInv s1 ∧ s1.task = s.task ∧ s1.self.flushing = s.self.flushing ∧
      s1.self.max_pending = s.self.max_pending := by
  induction h with
  | refl => exact ⟨hi, rfl, rfl, rfl⟩
  | tail _ hstep ih =>
    obtain ⟨a, b, c, d⟩ := ih
    obtain ⟨a1, b1, c1, d1⟩ := worker_step_inv _ _ a hstep
    exact ⟨a1, b1.trans b, c1.trans c, d1.trans d⟩

theorem handle_frame_inv_of (s s1 : Encoder)
    (frame : GstVideoCodecFrame) (e : ConvertEnv) (wake : Encoder → Option Encoder)
    (ret : GstFlowReturn) (hi : SessionInv s)
    (hw : ∀ t t1, wake t = some t1 → SessionInv t →
      SessionInv t1 ∧ t1.task = t.task ∧ t1.self.flushing = t.self.flushing)
    (h : gst_mpp_enc_handle_frame s frame e wake = some (ret, s1)) :
    SessionInv s1 := by
  unfold gst_mpp_enc_handle_frame at h
  split at h
  · cases h
    exact hi.congr rfl rfl rfl rfl rfl rfl rfl
  · rename_i hnf
    have hfl : s.self.flushing = false := by simpa using hnf
    have hst := handle_frame_start_task_self s
    have htask := handle_frame_start_task_started s
    have hconv : ∀ (r : Option GstBuffer) (t : Encoder),
        gst_mpp_enc_convert (handle_frame_start_task s) frame e = some (r, t) →
        SessionInv t ∧ t.task = GstTaskState.GST_TASK_STARTED ∧ t.self.flushing = false := by
      intro r t hc
      have hq := quietc_convert _ _ _ _ _ hc
      have k1 : t.self.frames = s.self.frames :=
        (congrArg (fun x => x.self.frames) hq).trans (congrArg (fun x => x.frames) hst)
      have k2 : t.mpp.inflight = s.mpp.inflight :=
        (congrArg (fun x => x.mpp.inflight) hq).trans
          (congrArg (fun x => x.inflight) (handle_frame_start_task_rest s).2.2)
      have k3 : t.self.pending_frames = s.self.pending_frames :=
        (congrArg (fun x => x.self.pending_frames) hq).trans
          (congrArg (fun x => x.pending_frames) hst)
      have k4 : t.self.max_pending = s.self.max_pending :=
        (congrArg (fun x => x.self.max_pending) hq).trans
          (congrArg (fun x => x.max_pending) hst)
      have k5 : t.self.task_ret = s.self.task_ret :=
        (congrArg (fun x => x.self.task_ret) hq).trans (congrArg (fun x => x.task_ret) hst)
      have k6 : t.self.flushing = s.self.flushing :=
        (congrArg (fun x => x.self.flushing) hq).trans (congrArg (fun x => x.flushing) hst)
      have k7 : t.task = GstTaskState.GST_TASK_STARTED :=
        (congrArg (fun x => x.task) hq).trans htask
      refine ⟨?_, k7, k6.trans hfl⟩
      exact
        { outstanding_eq := by
            unfold outstanding
            rw [k1, k2, k3]
            exact hi.outstanding_eq
          pending_lt := by rw [k3]; exact hi.pending_lt
          max_lt := by rw [k4]; exact hi.max_lt
          task_ret_ok := k5.trans hi.task_ret_ok
          flushing_idle := by
            intro hf
            rw [k6, hfl] at hf
            cases hf
          idle_empty := by
            intro hne
            exact absurd k7 hne }
    split at h
    · cases h
    · rename_i t hc
      cases h
      exact (hconv _ _ hc).1.congr rfl rfl rfl rfl rfl rfl rfl
    · rename_i buffer t hc
      obtain ⟨a, b, c⟩ := hconv _ _ hc
      split at h
      · cases h
      · rename_i s2 hwait
        obtain ⟨hfrom, hcond⟩ := handle_frame_wait_spec _ _ _ hwait
        have hpre : SessionInv
            (set_output_buffer t frame.system_frame_number (some buffer)) :=
          a.congr rfl rfl rfl rfl rfl rfl rfl
        have hs2 : SessionInv s2 ∧ s2.task = GstTaskState.GST_TASK_STARTED ∧
            s2.self.flushing = false := by
          rcases hfrom with h1 | h1
          · rw [h1]
            exact ⟨hpre, b, c⟩
          · obtain ⟨x, y, z⟩ := hw _ _ h1 hpre
            exact ⟨x, y.trans b, z.trans c⟩
        obtain ⟨i2, ht2, hf2⟩ := hs2
        have hroom : s2.self.pending_frames < s2.self.max_pending := by
          rcases hcond with h1 | h1
          · exact h1
          · rw [hf2] at h1
            cases h1
        unfold handle_frame_enqueue at h
        rw [if_neg (by simp [hf2])] at h
        simp only [Option.some.injEq, Prod.mk.injEq] at h
        obtain ⟨_, hs⟩ := h
        subst hs
        have hml := i2.max_lt
        have hwr : wrap_u32 ((s2.self.pending_frames : Int) + 1)
            = s2.self.pending_frames + 1 := wrap_u32_succ _ (by omega)
        exact
          { outstanding_eq := by
              show (s2.self.frames ++ [frame.system_frame_number]).length
                + s2.mpp.inflight.length = wrap_u32 ((s2.self.pending_frames : Int) + 1)
              rw [hwr]
              have := i2.outstanding_eq
              unfold outstanding at this
              simp only [List.length_append, List.length_singleton]
              omega
            pending_lt := by
              show wrap_u32 ((s2.self.pending_frames : Int) + 1) < _
              rw [hwr]
              omega
            max_lt := hml
            task_ret_ok := i2.task_ret_ok
            flushing_idle := by
              intro hf
              have : s2.self.flushing = true := hf
              rw [hf2] at this
              cases this
            idle_empty := by
              intro hne
              exact absurd ht2 hne }

theorem step_reachable_inv (s : Encoder) (h : StepReachable s) : SessionInv s := by
  induction h with
  | start s0 s e hm hs => exact (start_inv s0 s e hm hs).1
  | set_format s s1 state e ok _ hs ih => exact (set_format_inv s s1 state e ok ih hs).1
  | handle_frame s s1 frame e wake ret _ hw hs ih =>
    unfold gst_video_encoder_chain at hs
    refine handle_frame_inv_of { s with priv_frames := s.priv_frames ++ [frame] } s1 frame e
      wake ret (ih.congr rfl rfl rfl rfl rfl rfl rfl) ?_ hs
    intro t t1 hwk hit
    obtain ⟨a, b, c, _⟩ := worker_steps_inv t t1 hit (hw t t1 hwk)
    exact ⟨a, b, c⟩
  | worker s s1 _ hstep ih => exact (worker_step_inv s s1 ih hstep).1

theorem demo_first_sent_reachable : StepReachable demo_first_sent :=
  StepReachable.worker demo_first_accepted demo_first_sent
    (StepReachable.handle_frame demo_negotiated demo_first_accepted (demo_frame 0 false)
      demo_import (fun _ => none) GstFlowReturn.GST_FLOW_OK
      (StepReachable.set_format (gst_mpp_enc_start demo_new demo_start).2 demo_negotiated
        { caps := 1, info := demo_info } demo_set_format true
        (StepReachable.start demo_new _ demo_start (by decide) (by decide)) (by decide))
      (fun _ _ h => by cases h) rfl)
    (WorkerStep.send _ _ demo_send true rfl)

/-- C23: in every state reachable from `gst_mpp_enc_start` by format
negotiation, `gst_mpp_enc_handle_frame`, `gst_mpp_enc_send_frame_locked` and
`gst_mpp_enc_poll_packet_locked` steps, `pending_frames` is the length of the
pending id list plus the number of frames the hardware has accepted and not
yet returned; a submit to the hardware leaves the counter as it is, and a poll
that receives a packet finds the counter positive and makes it exactly one
less. -/
theorem pending_frames_counts_outstanding (s : Encoder) (h : StepReachable s) :
    s.self.pending_frames = s.self.frames.length + s.mpp.inflight.length ∧
    (∀ (e : SendEnv) (b : Bool) (s1 : Encoder),
      gst_mpp_enc_send_frame_locked s e = some (b, s1) →
      s1.self.pending_frames = s.self.pending_frames) ∧
    (∀ (e : PollEnv) (s1 : Encoder),
      gst_mpp_enc_poll_packet_locked s e = some (true, s1) →
      0 < s.self.pending_frames ∧ s1.self.pending_frames + 1 = s.self.pending_frames) := by
  have hi := step_reachable_inv s h
  have ho := hi.outstanding_eq
  unfold outstanding at ho
  refine ⟨ho.symm, ?_, ?_⟩
  · intro e b s1 hs
    exact (send_frame_locked_queues s s1 e b hs).2.2.1
  · intro e s1 hp
    obtain ⟨f, rest, out, _, _, _, hpend, hlen⟩ :=
      (poll_packet_locked_queues s s1 e true hp).2.2.2.2.2.2 rfl
    have hpos : 0 < s.self.pending_frames := by omega
    refine ⟨hpos, ?_⟩
    rw [hpend, wrap_u32_pred _ hpos hi.pending_lt]
    omega

theorem pending_frames_counts_outstanding_witness :
    demo_first_sent.self.pending_frames =
      demo_first_sent.self.frames.length + demo_first_sent.mpp.inflight.length ∧
    demo_first_sent.mpp.inflight = [0] ∧ demo_first_sent.self.pending_frames = 1 :=
  ⟨(pending_frames_counts_outstanding demo_first_sent demo_first_sent_reachable).1,
    rfl, rfl⟩

/-! ## The software path of the conversion -/

theorem convert_fallback_software (s : Encoder) (frame : GstVideoCodecFrame) (e : ConvertEnv)
    (src_info : GstVideoInfo) (b : GstBuffer)
    (h : convert_fallback s frame e src_info = some b)
    (hb : b ≠ GstBuffer.rga_converted frame.system_frame_number) :
    s.self.rotation = 0 ∧ src_info.format = s.self.info.format ∧
    (b = GstBuffer.sw_copied frame.system_frame_number ↔
      (e.map_src_ok = true ∧ e.map_dst_ok = true ∧ e.copy_ok = true)) ∧
    (b = GstBuffer.not_filled frame.system_frame_number ↔
      (e.map_src_ok = false ∨ e.map_dst_ok = false)) := by
  unfold convert_fallback at h
  split_ifs at h with h1 h2 h3 h4 h5 h6 <;>
    simp only [Option.some.injEq, reduceCtorEq] at h
  · exact absurd h.symm hb
  · subst h
    simp only [not_or, not_not] at h3
    simp_all
  · subst h
    simp only [not_or, not_not] at h3
    simp_all
  · subst h
    simp only [not_or, not_not] at h3
    simp_all

/-- C24 (code at the failing input): on the software path (the input buffer
has two memories, no RGA) `gst_mpp_enc_convert` returns a buffer, not NULL,
when `gst_video_frame_map` fails for the source frame and when it fails for
the destination frame; no pixel has been copied into that buffer.  When
`gst_video_frame_copy` fails it returns NULL, and when all three succeed it
returns the copied buffer. -/
theorem convert_returns_unfilled_buffer :
    (gst_mpp_enc_convert demo_negotiated (demo_frame 0 false) demo_map_src_fails).map
        (fun r => r.1) = some (some (GstBuffer.not_filled 0)) ∧
    (gst_mpp_enc_convert demo_negotiated (demo_frame 0 false) demo_map_dst_fails).map
        (fun r => r.1) = some (some (GstBuffer.not_filled 0)) ∧
    (gst_video_encoder_chain demo_negotiated (demo_frame 0 false) demo_map_src_fails
        (fun _ => none)).map (fun r => (r.1, r.2.self.frames, r.2.priv_frames)) =
      some (GstFlowReturn.GST_FLOW_OK, [0],
        [{ demo_frame 0 false with output_buffer := some (GstBuffer.not_filled 0) }]) ∧
    (gst_mpp_enc_convert demo_negotiated (demo_frame 0 false) demo_copy_fails).map
        (fun r => r.1) = some none ∧
    (gst_mpp_enc_convert demo_negotiated (demo_frame 0 false) demo_convert).map
        (fun r => r.1) = some (some (GstBuffer.sw_copied 0)) :=
  ⟨rfl, rfl, rfl, rfl, rfl⟩

/-! ## The default band at large bit rates -/

/-- C25 (code at the failing input): in CBR mode with bps-min and bps-max
unset, bps 252645135 gives the ordered band 236854814 ≤ bps ≤ 268435455, but
bps 252645136 gives rc:bps_max 1 and bps 300000000 gives rc:bps_min 12814544
and rc:bps_max 50314544, both below the target; in VBR mode bps 2000000000
gives rc:bps_max 245951808.  All four are in the range 1..2147483647 of the
property. -/
theorem default_band_wraps_above_threshold :
    Property.valid (Property.PROP_BPS 252645136) = true ∧
    Property.valid (Property.PROP_BPS 2000000000) = true ∧
    (gst_mpp_enc_apply_properties
        (demo_rate MppEncRcMode.MPP_ENC_RC_MODE_CBR 252645135) demo_ctl).2.self.mpp_cfg.rc_bps_min
      = 236854814 ∧
    (gst_mpp_enc_apply_properties
        (demo_rate MppEncRcMode.MPP_ENC_RC_MODE_CBR 252645135) demo_ctl).2.self.mpp_cfg.rc_bps_max
      = 268435455 ∧
    (gst_mpp_enc_apply_properties
        (demo_rate MppEncRcMode.MPP_ENC_RC_MODE_CBR 252645136) demo_ctl).2.self.mpp_cfg.rc_bps_max
      = 1 ∧
    (gst_mpp_enc_apply_properties
        (demo_rate MppEncRcMode.MPP_ENC_RC_MODE_CBR 300000000) demo_ctl).2.self.mpp_cfg.rc_bps_min
      = 12814544 ∧
    (gst_mpp_enc_apply_properties
        (demo_rate MppEncRcMode.MPP_ENC_RC_MODE_CBR 300000000) demo_ctl).2.self.mpp_cfg.rc_bps_max
      = 50314544 ∧
    (gst_mpp_enc_apply_properties
        (demo_rate MppEncRcMode.MPP_ENC_RC_MODE_VBR 2000000000) demo_ctl).2.self.mpp_cfg.rc_bps_target
      = 2000000000 ∧
    (gst_mpp_enc_apply_properties
        (demo_rate MppEncRcMode.MPP_ENC_RC_MODE_VBR 2000000000) demo_ctl).2.self.mpp_cfg.rc_bps_max
      = 245951808 ∧
    (∃ cfg, (gst_mpp_enc_apply_properties
        (demo_rate MppEncRcMode.MPP_ENC_RC_MODE_CBR 300000000) demo_ctl).2.mpp.calls.getLast? =
        some (MpiCall.control_set_cfg cfg 0) ∧
      ¬ ((300000000 : Int) ≤ cfg.rc_bps_max)) :=
  ⟨by decide, by decide, by decide, by decide, by decide, by decide, by decide, by decide,
    by decide, ⟨_, rfl, by decide⟩⟩

theorem default_band_ordered (s : Encoder) (e : ControlEnv)
    (hdirty : s.self.prop_dirty = true) (hb : s.self.bps ≠ 0)
    (h17 : s.self.bps * 17 < 4294967296)
    (hmin : s.self.bps_min = 0) (hmax : s.self.bps_max = 0)
    (hrc : s.self.rc_mode ≠ MppEncRcMode.MPP_ENC_RC_MODE_FIXQP) :
    (gst_mpp_enc_apply_properties s e).2.self.mpp_cfg.rc_bps_target = (s.self.bps : Int) ∧
    (gst_mpp_enc_apply_properties s e).2.self.mpp_cfg.rc_bps_min ≤ (s.self.bps : Int) ∧
    (s.self.bps : Int) ≤ (gst_mpp_enc_apply_properties s e).2.self.mpp_cfg.rc_bps_max := by
  obtain ⟨_, b1, b2⟩ := apply_properties_band s e hdirty
  have hder : derived_bps s.self = s.self.bps := by simp [derived_bps, hb]
  have hmax17 := bps_bound_unset s.self.bps 17 h17 (le_refl _)
  have hmin15 := bps_bound_unset s.self.bps 15 h17 (by decide)
  have hmin1 := bps_bound_unset s.self.bps 1 h17 (by decide)
  have ht : wrap_s32 (s.self.bps : Int) = (s.self.bps : Int) :=
    wrap_s32_small _ (Int.ofNat_nonneg _) (by omega)
  by_cases hc : s.self.rc_mode = MppEncRcMode.MPP_ENC_RC_MODE_CBR
  · obtain ⟨c1, c2, c3⟩ := b1 (by rw [hder]; exact hb) hc
    rw [hder] at c1 c2 c3
    rw [hmax, hmax17] at c2
    rw [hmin, hmin15] at c3
    rw [ht] at c1
    rw [c1, c2, c3]
    clear c1 c2 c3 b1 b2 hmax17 hmin15 hmin1 ht hder
    refine ⟨rfl, ?_, ?_⟩ <;> omega
  · obtain ⟨c1, c2, c3⟩ := b2 (by rw [hder]; exact hb) hc hrc
    rw [hder] at c1 c2 c3
    rw [hmax, hmax17] at c2
    rw [hmin, hmin1] at c3
    rw [ht] at c1
    rw [c1, c2, c3]
    clear c1 c2 c3 b1 b2 hmax17 hmin15 hmin1 ht hder
    refine ⟨rfl, ?_, ?_⟩ <;> omega

/-! ## The wait of `gst_mpp_enc_handle_frame` and the life of an instance -/

end GstMpp
